import Mathlib

/-!
Toolkit API of the Stormwater Management Model: LID control layer accessors

Shallow embedding of `swmm_getLidCParam` and `swmm_setLidCParam` of
`src/toolkitAPI.c`, and the properties of the clog-factor normalisation that
the two functions implement together; then of the accessors of nodes, links,
subcatchments, gages and LID units of the same file, with their unit
conversions and status codes; and of its object counts and name lookups, date
accessors, forcing setters and statistics accessors.

Modelling conventions.

* A C `double` is an exact rational number (`ℚ`): the embedding describes the
  arithmetic the code asks for, without rounding, overflow or NaN.
* Every division the source evaluates goes through `fdiv`, which records its
  divisor.  A computation is a value together with the list of the divisors it
  met (`Traced`); a divisor `0` in that list is a division by zero in the C
  code, and the value computed after it (Lean's `x / 0 = 0`) has no meaning
  for the C program.
* A C `switch` is a `match`; where the source has no `break`, the embedding
  continues with the statements of the next label, as C does.
* An output parameter `double *value` is an argument holding what the caller's
  variable contained before the call, and a component of the result holding
  what it contains afterwards.
* The properties that say a value written is the value read back hold in exact
  arithmetic only.  The section on binary64 arithmetic repeats the accessors
  concerned with every arithmetic result rounded, and the theorems on round
  trips in binary64 arithmetic give inputs at which the rounded results differ
  from the exact ones.
-/

namespace ToolkitAPI

/-- Status codes returned by the toolkit functions. They are declared in
`error.h`; the source initialises `errcode` with the literal `0` and compares
it with `ERR_NONE`, so `0` is `ERR_NONE`. -/
inductive ErrorCode where
  | ERR_NONE
  | ERR_MEMORY
  | ERR_API_OUTBOUNDS
  | ERR_API_INPUTNOTOPEN
  | ERR_API_SIM_NRUNNING
  | ERR_API_WRONG_TYPE
  | ERR_API_OBJECT_INDEX
  | ERR_API_UNDEFINED_LID
  deriving DecidableEq, Repr

/-- Quantity categories passed to `UCF` in `toolkitAPI.c` (enumeration of
`enums.h`). -/
inductive ConversionType where
  | RAINFALL
  | RAINDEPTH
  | EVAPRATE
  | LENGTH
  | LANDAREA
  | VOLUME
  | FLOW
  deriving DecidableEq, Repr

/-- Layer selector of the LID control accessors: the case labels of the outer
`switch(layerIndex)`. `unlisted` stands for an integer that is none of the
labels. -/
inductive SM_LidLayer where
  | SM_SURFACE
  | SM_SOIL
  | SM_STOR
  | SM_PAVE
  | SM_DRAIN
  | SM_DRAINMAT
  | unlisted
  deriving DecidableEq, Repr

/-- Property selector of the LID control accessors: the case labels of the
inner `switch(param)` statements. `unlisted` stands for an integer that is
none of the labels. -/
inductive SM_LidLayerProperty where
  | SM_THICKNESS
  | SM_VOIDFRAC
  | SM_ROUGHNESS
  | SM_SURFSLOPE
  | SM_SIDESLOPE
  | SM_ALPHA
  | SM_POROSITY
  | SM_FIELDCAP
  | SM_WILTPOINT
  | SM_SUCTION
  | SM_KSAT
  | SM_KSLOPE
  | SM_CLOGFACTOR
  | SM_IMPERVFRAC
  | SM_COEFF
  | SM_EXPON
  | SM_OFFSET
  | SM_DELAY
  | SM_HOPEN
  | SM_HCLOSE
  | SM_REGENDAYS
  | SM_REGENDEGREE
  | unlisted
  deriving DecidableEq, Repr

/-- Surface layer of a LID control: the fields the accessors touch. -/
structure TSurfaceLayer where
  thickness : ℚ
  voidFrac : ℚ
  roughness : ℚ
  surfSlope : ℚ
  sideSlope : ℚ
  alpha : ℚ
  canOverflow : Int
  deriving DecidableEq

/-- Soil layer of a LID control. -/
structure TSoilLayer where
  thickness : ℚ
  porosity : ℚ
  fieldCap : ℚ
  wiltPoint : ℚ
  suction : ℚ
  kSat : ℚ
  kSlope : ℚ
  deriving DecidableEq

/-- Storage layer of a LID control; `clogFactor` is the canonical value. -/
structure TStorageLayer where
  thickness : ℚ
  voidFrac : ℚ
  kSat : ℚ
  clogFactor : ℚ
  deriving DecidableEq

/-- Pavement layer of a LID control; `clogFactor` is the canonical value. -/
structure TPavementLayer where
  thickness : ℚ
  voidFrac : ℚ
  impervFrac : ℚ
  kSat : ℚ
  clogFactor : ℚ
  regenDays : ℚ
  regenDegree : ℚ
  deriving DecidableEq

/-- Underdrain of a LID control. -/
structure TDrainLayer where
  coeff : ℚ
  expon : ℚ
  offset : ℚ
  delay : ℚ
  hOpen : ℚ
  hClose : ℚ
  deriving DecidableEq

/-- Drainage mat layer of a LID control. -/
structure TDrainMatLayer where
  thickness : ℚ
  voidFrac : ℚ
  roughness : ℚ
  alpha : ℚ
  deriving DecidableEq

/-- One LID control (`TLidProc` of `lid.h`), with its six layers. -/
structure TLidProc where
  surface : TSurfaceLayer
  soil : TSoilLayer
  storage : TStorageLayer
  pavement : TPavementLayer
  drain : TDrainLayer
  drainMat : TDrainMatLayer
  deriving DecidableEq

/-- The part of the global project state that the LID control accessors read
and write: the flag behind `swmm_IsOpenFlag()`, the unit factors `UCF(u)`, the
count `Nobjects[LID]` and the table behind `lid_getLidProc(index)`. -/
structure Project where
  IsOpenFlag : Bool
  UCF : ConversionType → ℚ
  Nobjects_LID : Int
  LidProcs : Int → TLidProc

/-- A computed value with the divisors of the divisions evaluated on the way,
in evaluation order. -/
structure Traced (α : Type) where
  val : α
  divisors : List ℚ

/-- A value computed without any division. -/
def Traced.ret {α : Type} (a : α) : Traced α := ⟨a, []⟩

/-- Sequencing: the divisors of the first computation, then those of the
second. -/
def Traced.andThen {α β : Type} (x : Traced α) (f : α → Traced β) : Traced β :=
  ⟨(f x.val).val, x.divisors ++ (f x.val).divisors⟩

instance : Monad Traced where
  pure := Traced.ret
  bind := Traced.andThen

/-- The C expression `a / b` on doubles: the quotient, with `b` recorded as a
divisor. -/
def fdiv (a b : ℚ) : Traced ℚ := ⟨a / b, [b]⟩

/-- No division of the computation had divisor zero. -/
def Traced.noZeroDivisor {α : Type} (x : Traced α) : Prop := ∀ d ∈ x.divisors, d ≠ 0

instance {α : Type} (x : Traced α) : Decidable x.noZeroDivisor := by
  unfold Traced.noZeroDivisor; infer_instance

open ErrorCode ConversionType SM_LidLayer SM_LidLayerProperty

/-- The function `swmm_getLidCParam` of toolkitAPI.c. `value` is the content of
the caller's `*value` before the call; the result is the returned status and the
content of `*value` after the call. -/
def swmm_getLidCParam (pr : Project) (lidControlIndex : Int) (layerIndex : SM_LidLayer)
    (param : SM_LidLayerProperty) (value : ℚ) : Traced (ErrorCode × ℚ) :=
  -- Check if Open
  if pr.IsOpenFlag = false then
    pure (ERR_API_INPUTNOTOPEN, value)
  -- Check if index is within bounds
  else if lidControlIndex < 0 ∨ lidControlIndex ≥ pr.Nobjects_LID then
    pure (ERR_API_OBJECT_INDEX, value)
  else
    let lidProc := pr.LidProcs lidControlIndex
    match layerIndex with
    | SM_SURFACE =>
      match param with
      | SM_THICKNESS => pure (ERR_NONE, lidProc.surface.thickness * pr.UCF RAINDEPTH)
      | SM_VOIDFRAC => pure (ERR_NONE, 1 - lidProc.surface.voidFrac)
      | SM_ROUGHNESS => pure (ERR_NONE, lidProc.surface.roughness)
      | SM_SURFSLOPE => pure (ERR_NONE, lidProc.surface.surfSlope * 100)
      | SM_SIDESLOPE => pure (ERR_NONE, lidProc.surface.sideSlope)
      | SM_ALPHA => pure (ERR_NONE, lidProc.surface.alpha)
      | _ => pure (ERR_API_OUTBOUNDS, value)
    | SM_SOIL =>
      match param with
      | SM_THICKNESS => pure (ERR_NONE, lidProc.soil.thickness * pr.UCF RAINDEPTH)
      | SM_POROSITY => pure (ERR_NONE, lidProc.soil.porosity)
      | SM_FIELDCAP => pure (ERR_NONE, lidProc.soil.fieldCap)
      | SM_WILTPOINT => pure (ERR_NONE, lidProc.soil.wiltPoint)
      | SM_KSAT => pure (ERR_NONE, lidProc.soil.kSat * pr.UCF RAINFALL)
      | SM_KSLOPE => pure (ERR_NONE, lidProc.soil.kSlope)
      | SM_SUCTION => pure (ERR_NONE, lidProc.soil.suction * pr.UCF RAINDEPTH)
      | _ => pure (ERR_API_OUTBOUNDS, value)
    | SM_STOR =>
      match param with
      | SM_THICKNESS => pure (ERR_NONE, lidProc.storage.thickness * pr.UCF RAINDEPTH)
      | SM_VOIDFRAC =>
        if lidProc.storage.voidFrac < 1 then do
          let v ← fdiv lidProc.storage.voidFrac (1 - lidProc.storage.voidFrac)
          pure (ERR_NONE, v)
        else
          pure (ERR_NONE, lidProc.storage.voidFrac)
      | SM_KSAT => pure (ERR_NONE, lidProc.storage.kSat * pr.UCF RAINFALL)
      | SM_CLOGFACTOR =>
        if lidProc.storage.thickness > 0 then do
          let v ← fdiv lidProc.storage.clogFactor
                    (lidProc.storage.thickness * lidProc.storage.voidFrac)
          pure (ERR_NONE, v)
        else
          -- `*value = lidProc->pavement.clogFactor;` and, there being no
          -- `break`, on into `default: errcode = ERR_API_OUTBOUNDS; break;`
          pure (ERR_API_OUTBOUNDS, lidProc.pavement.clogFactor)
      | _ => pure (ERR_API_OUTBOUNDS, value)
    | SM_PAVE =>
      match param with
      | SM_THICKNESS => pure (ERR_NONE, lidProc.pavement.thickness * pr.UCF RAINDEPTH)
      | SM_VOIDFRAC =>
        if lidProc.pavement.voidFrac < 1 then do
          let v ← fdiv lidProc.pavement.voidFrac (1 - lidProc.pavement.voidFrac)
          pure (ERR_NONE, v)
        else
          pure (ERR_NONE, lidProc.pavement.voidFrac)
      | SM_IMPERVFRAC => pure (ERR_NONE, lidProc.pavement.impervFrac)
      | SM_KSAT => pure (ERR_NONE, lidProc.pavement.kSat * pr.UCF RAINFALL)
      | SM_CLOGFACTOR =>
        if lidProc.pavement.thickness > 0 then do
          let v ← fdiv lidProc.pavement.clogFactor
                    (lidProc.pavement.thickness * lidProc.pavement.voidFrac *
                      (1 - lidProc.pavement.impervFrac))
          pure (ERR_NONE, v)
        else
          -- `*value = lidProc->pavement.clogFactor;` and, there being no
          -- `break`, on into `case SM_REGENDAYS:`, which overwrites `*value`
          pure (ERR_NONE, lidProc.pavement.regenDays)
      | SM_REGENDAYS => pure (ERR_NONE, lidProc.pavement.regenDays)
      | SM_REGENDEGREE => pure (ERR_NONE, lidProc.pavement.regenDegree)
      | _ => pure (ERR_API_OUTBOUNDS, value)
    | SM_DRAIN =>
      match param with
      | SM_COEFF => pure (ERR_NONE, lidProc.drain.coeff)
      | SM_EXPON => pure (ERR_NONE, lidProc.drain.expon)
      | SM_OFFSET => pure (ERR_NONE, lidProc.drain.offset * pr.UCF RAINDEPTH)
      | SM_DELAY => do
        let v ← fdiv lidProc.drain.delay 3600
        pure (ERR_NONE, v)
      | SM_HOPEN => pure (ERR_NONE, lidProc.drain.hOpen * pr.UCF RAINDEPTH)
      | SM_HCLOSE => pure (ERR_NONE, lidProc.drain.hClose * pr.UCF RAINDEPTH)
      | _ => pure (ERR_API_OUTBOUNDS, value)
    | SM_DRAINMAT =>
      match param with
      | SM_THICKNESS => pure (ERR_NONE, lidProc.drainMat.thickness * pr.UCF RAINDEPTH)
      | SM_VOIDFRAC => pure (ERR_NONE, lidProc.drainMat.voidFrac)
      | SM_ROUGHNESS => pure (ERR_NONE, lidProc.drainMat.roughness)
      | SM_ALPHA => pure (ERR_NONE, lidProc.drainMat.alpha)
      | _ => pure (ERR_API_OUTBOUNDS, value)
    | _ => pure (ERR_API_OUTBOUNDS, value)

/-- The function `swmm_setLidCParam` of toolkitAPI.c. The writes through the
pointer `lidProc` are collected in a new record that replaces entry
`lidControlIndex` of the table. `lid_validateLidProc` (lid.c) is not part of the
source file and is a parameter: it receives the control index and the project
state and returns the state it leaves behind. -/
def swmm_setLidCParam (lid_validateLidProc : Int → Project → Project) (pr : Project)
    (lidControlIndex : Int) (layerIndex : SM_LidLayer) (param : SM_LidLayerProperty)
    (value : ℚ) : Traced (ErrorCode × Project) := do
  let (errcode, pr1) ←
    -- Check if Open
    if pr.IsOpenFlag = false then
      pure (f := Traced) (ERR_API_INPUTNOTOPEN, pr)
    -- Check if index is within bounds
    else if lidControlIndex < 0 ∨ lidControlIndex ≥ pr.Nobjects_LID then
      pure (ERR_API_OBJECT_INDEX, pr)
    else do
      let lidProc := pr.LidProcs lidControlIndex
      let (errcode, lidProc1) ←
        match layerIndex with
        | SM_SURFACE =>
          match param with
          | SM_THICKNESS => do
            let t ← fdiv value (pr.UCF RAINDEPTH)
            pure (f := Traced) (ERR_NONE, { lidProc with surface.thickness := t })
          | SM_VOIDFRAC => pure (ERR_NONE, { lidProc with surface.voidFrac := 1 - value })
          | SM_ROUGHNESS => pure (ERR_NONE, { lidProc with surface.roughness := value })
          | SM_SURFSLOPE => do
            let s ← fdiv value 100
            pure (ERR_NONE, { lidProc with surface.surfSlope := s })
          | SM_SIDESLOPE => pure (ERR_NONE, { lidProc with surface.sideSlope := value })
          | _ => pure (ERR_API_OUTBOUNDS, lidProc)
        | SM_SOIL =>
          match param with
          | SM_THICKNESS => do
            let t ← fdiv value (pr.UCF RAINDEPTH)
            pure (f := Traced) (ERR_NONE, { lidProc with soil.thickness := t })
          | SM_POROSITY => pure (ERR_NONE, { lidProc with soil.porosity := value })
          | SM_FIELDCAP => pure (ERR_NONE, { lidProc with soil.fieldCap := value })
          | SM_WILTPOINT => pure (ERR_NONE, { lidProc with soil.wiltPoint := value })
          | SM_KSAT => do
            let k ← fdiv value (pr.UCF RAINFALL)
            pure (ERR_NONE, { lidProc with soil.kSat := k })
          | SM_KSLOPE => pure (ERR_NONE, { lidProc with soil.kSlope := value })
          | SM_SUCTION => do
            let x ← fdiv value (pr.UCF RAINDEPTH)
            pure (ERR_NONE, { lidProc with soil.suction := x })
          | _ => pure (ERR_API_OUTBOUNDS, lidProc)
        | SM_STOR =>
          match param with
          | SM_THICKNESS =>
            if lidProc.storage.thickness > 0 then do
              let c ← fdiv lidProc.storage.clogFactor lidProc.storage.thickness
              let t ← fdiv value (pr.UCF RAINDEPTH)
              pure (f := Traced)
                (ERR_NONE, { lidProc with storage.thickness := t, storage.clogFactor := c * t })
            else do
              let t ← fdiv value (pr.UCF RAINDEPTH)
              pure (ERR_NONE, { lidProc with storage.thickness := t })
          | SM_VOIDFRAC =>
            if lidProc.storage.voidFrac > 0 then do
              let c ← fdiv lidProc.storage.clogFactor lidProc.storage.voidFrac
              let v ← fdiv value (value + 1)
              pure (ERR_NONE, { lidProc with storage.voidFrac := v, storage.clogFactor := c * v })
            else do
              let v ← fdiv value (value + 1)
              pure (ERR_NONE, { lidProc with storage.voidFrac := v })
          | SM_KSAT => do
            let k ← fdiv value (pr.UCF RAINFALL)
            pure (ERR_NONE, { lidProc with storage.kSat := k })
          | SM_CLOGFACTOR =>
            pure (ERR_NONE, { lidProc with storage.clogFactor :=
              value * lidProc.storage.thickness * lidProc.storage.voidFrac })
          | _ => pure (ERR_API_OUTBOUNDS, lidProc)
        | SM_PAVE =>
          match param with
          | SM_THICKNESS =>
            if lidProc.pavement.thickness > 0 then do
              let c ← fdiv lidProc.pavement.clogFactor lidProc.pavement.thickness
              let t ← fdiv value (pr.UCF RAINDEPTH)
              pure (f := Traced)
                (ERR_NONE, { lidProc with pavement.thickness := t, pavement.clogFactor := c * t })
            else do
              let t ← fdiv value (pr.UCF RAINDEPTH)
              pure (ERR_NONE, { lidProc with pavement.thickness := t })
          | SM_VOIDFRAC =>
            if lidProc.pavement.voidFrac > 0 then do
              let c ← fdiv lidProc.pavement.clogFactor lidProc.pavement.voidFrac
              let v ← fdiv value (value + 1)
              pure (ERR_NONE, { lidProc with pavement.voidFrac := v, pavement.clogFactor := c * v })
            else do
              let v ← fdiv value (value + 1)
              pure (ERR_NONE, { lidProc with pavement.voidFrac := v })
          | SM_IMPERVFRAC =>
            if lidProc.pavement.impervFrac > 0 then do
              let c ← fdiv lidProc.pavement.clogFactor (1 - lidProc.pavement.impervFrac)
              pure (ERR_NONE, { lidProc with pavement.impervFrac := value,
                                             pavement.clogFactor := c * (1 - value) })
            else
              pure (ERR_NONE, { lidProc with pavement.impervFrac := value })
          | SM_KSAT => do
            let k ← fdiv value (pr.UCF RAINFALL)
            pure (ERR_NONE, { lidProc with pavement.kSat := k })
          | SM_CLOGFACTOR =>
            pure (ERR_NONE, { lidProc with pavement.clogFactor :=
              value * lidProc.pavement.thickness * lidProc.pavement.voidFrac *
                (1 - lidProc.pavement.impervFrac) })
          | SM_REGENDAYS => pure (ERR_NONE, { lidProc with pavement.regenDays := value })
          | SM_REGENDEGREE => pure (ERR_NONE, { lidProc with pavement.regenDegree := value })
          | _ => pure (ERR_API_OUTBOUNDS, lidProc)
        | SM_DRAIN =>
          match param with
          | SM_COEFF => pure (f := Traced) (ERR_NONE, { lidProc with drain.coeff := value })
          | SM_EXPON => pure (ERR_NONE, { lidProc with drain.expon := value })
          | SM_OFFSET => do
            let x ← fdiv value (pr.UCF RAINDEPTH)
            pure (ERR_NONE, { lidProc with drain.offset := x })
          | SM_DELAY => pure (ERR_NONE, { lidProc with drain.delay := value * 3600 })
          | SM_HOPEN => do
            let x ← fdiv value (pr.UCF RAINDEPTH)
            pure (ERR_NONE, { lidProc with drain.hOpen := x })
          | SM_HCLOSE => do
            let x ← fdiv value (pr.UCF RAINDEPTH)
            pure (ERR_NONE, { lidProc with drain.hClose := x })
          | _ => pure (ERR_API_OUTBOUNDS, lidProc)
        | SM_DRAINMAT =>
          match param with
          | SM_THICKNESS => do
            let t ← fdiv value (pr.UCF RAINDEPTH)
            pure (f := Traced) (ERR_NONE, { lidProc with drainMat.thickness := t })
          | SM_VOIDFRAC => pure (ERR_NONE, { lidProc with drainMat.voidFrac := value })
          | SM_ROUGHNESS => pure (ERR_NONE, { lidProc with drainMat.roughness := value })
          | _ => pure (ERR_API_OUTBOUNDS, lidProc)
        | _ => pure (ERR_API_OUTBOUNDS, lidProc)
      pure (errcode, { pr with LidProcs := Function.update pr.LidProcs lidControlIndex lidProc1 })
  if errcode = ERR_NONE then
    pure (errcode, lid_validateLidProc lidControlIndex pr1)
  else
    pure (errcode, pr1)

/-- A project that is open, has unit factors 1 and one LID control, whose
Storage and Pavement layers are the given ones and whose other layers are
zeroed. -/
def projectWith (st : TStorageLayer) (pv : TPavementLayer) : Project :=
  { IsOpenFlag := true
    UCF := fun _ => 1
    Nobjects_LID := 1
    LidProcs := fun _ =>
      { surface := ⟨0, 0, 0, 0, 0, 0, 0⟩
        soil := ⟨0, 0, 0, 0, 0, 0, 0⟩
        storage := st
        pavement := pv
        drain := ⟨0, 0, 0, 0, 0, 0⟩
        drainMat := ⟨0, 0, 0, 0⟩ } }

/-- The Storage layer of the specification's example (thickness 0.5, void
fraction 0.4, canonical clog factor 3, displayed 15) with a Pavement layer of
thickness 1, void fraction 0.5, impervious fraction 0 and canonical clog factor
1 (displayed 2). -/
def sampleProject : Project :=
  projectWith { thickness := 1 / 2, voidFrac := 2 / 5, kSat := 0, clogFactor := 3 }
    { thickness := 1, voidFrac := 1 / 2, impervFrac := 0, kSat := 0, clogFactor := 1,
      regenDays := 7, regenDegree := 0 }

/-- A control like `sampleProject` whose pavement has impervious fraction
0.25 (displayed clog factor 8 / 3). -/
def partlyImperviousProject : Project :=
  projectWith { thickness := 1 / 2, voidFrac := 2 / 5, kSat := 0, clogFactor := 3 }
    { thickness := 1, voidFrac := 1 / 2, impervFrac := 1 / 4, kSat := 0, clogFactor := 1,
      regenDays := 7, regenDegree := 0 }

/-- A control whose Storage and Pavement layers both have thickness 0. -/
def degenerateProject : Project :=
  projectWith { thickness := 0, voidFrac := 1 / 2, kSat := 0, clogFactor := 3 }
    { thickness := 0, voidFrac := 1 / 2, impervFrac := 0, kSat := 0, clogFactor := 1,
      regenDays := 7, regenDegree := 0 }

/-- A control whose Storage layer has thickness 1 and void fraction 0, and
whose Pavement layer has impervious fraction 1. -/
def sealedProject : Project :=
  projectWith { thickness := 1, voidFrac := 0, kSat := 0, clogFactor := 3 }
    { thickness := 1, voidFrac := 1 / 2, impervFrac := 1, kSat := 0, clogFactor := 1,
      regenDays := 7, regenDegree := 0 }

/-- The re-validation that changes nothing. -/
def keepProject : Int → Project → Project := fun _ p => p

/-! ## Network objects: the model state

The accessors of nodes, links, subcatchments, gages and LID units work on the
object tables of the engine. An accessor that assigns to its output parameter
or to `errcode` step by step is written as a `do` block with the same
assignments in the same order. -/

/-- Property selector of the node accessors (`SM_NodeProperty`): the case
labels of their `switch(Param)`; `unlisted` is any other integer. -/
inductive SM_NodeProperty where
  | SM_INVERTEL
  | SM_FULLDEPTH
  | SM_SURCHDEPTH
  | SM_PONDAREA
  | SM_INITDEPTH
  | unlisted
  deriving DecidableEq, Repr

/-- Property selector of the link accessors (`SM_LinkProperty`); `unlisted` is
any other integer. -/
inductive SM_LinkProperty where
  | SM_OFFSET1
  | SM_OFFSET2
  | SM_INITFLOW
  | SM_FLOWLIMIT
  | SM_INLETLOSS
  | SM_OUTLETLOSS
  | SM_AVELOSS
  | unlisted
  deriving DecidableEq, Repr

/-- Property selector of the subcatchment accessors (`SM_SubcProperty`);
`unlisted` is any other integer. -/
inductive SM_SubcProperty where
  | SM_WIDTH
  | SM_AREA
  | SM_FRACIMPERV
  | SM_SLOPE
  | SM_CURBLEN
  | unlisted
  deriving DecidableEq, Repr

/-- Property selector of the LID unit accessors (`SM_LidUProperty`);
`unlisted` is any other integer. -/
inductive SM_LidUProperty where
  | SM_UNITAREA
  | SM_FWIDTH
  | SM_BWIDTH
  | SM_INITSAT
  | SM_FROMIMPERV
  | unlisted
  deriving DecidableEq, Repr

/-- Result selector of `swmm_getNodeResult` (`SM_NodeResult`); `unlisted` is
any other integer. -/
inductive SM_NodeResult where
  | SM_TOTALINFLOW
  | SM_TOTALOUTFLOW
  | SM_LOSSES
  | SM_NODEVOL
  | SM_NODEFLOOD
  | SM_NODEDEPTH
  | SM_NODEHEAD
  | SM_LATINFLOW
  | unlisted
  deriving DecidableEq, Repr

/-- Result selector of `swmm_getLinkResult` (`SM_LinkResult`); `unlisted` is
any other integer. -/
inductive SM_LinkResult where
  | SM_LINKFLOW
  | SM_LINKDEPTH
  | SM_LINKVOL
  | SM_USSURFAREA
  | SM_DSSURFAREA
  | SM_SETTING
  | SM_TARGETSETTING
  | SM_FROUDE
  | unlisted
  deriving DecidableEq, Repr

/-- Result selector of `swmm_getSubcatchResult` (`SM_SubcResult`); `unlisted`
is any other integer. -/
inductive SM_SubcResult where
  | SM_SUBCRAIN
  | SM_SUBCEVAP
  | SM_SUBCINFIL
  | SM_SUBCRUNON
  | SM_SUBCRUNOFF
  | SM_SUBCSNOW
  | unlisted
  deriving DecidableEq, Repr

/-- One record of a node's list of external inflows (`TExtInflow`); `param` is
-1 for flow and a pollutant index otherwise. -/
structure TExtInflow where
  param : Int := -1
  type : Int := 0
  tSeries : Int := -1
  basePat : Int := -1
  cFactor : ℚ := 1
  baseline : ℚ := 0
  sFactor : ℚ := 1
  extIfaceInflow : ℚ := 0
  deriving DecidableEq

/-- A node (`TNode`): the fields this file reads or writes. `extInflow` is the
linked list of external inflows, head first. -/
structure TNode where
  type : Int := 0
  subIndex : Int := 0
  invertElev : ℚ := 0
  initDepth : ℚ := 0
  fullDepth : ℚ := 0
  surDepth : ℚ := 0
  pondedArea : ℚ := 0
  extInflow : List TExtInflow := []
  inflow : ℚ := 0
  outflow : ℚ := 0
  losses : ℚ := 0
  newVolume : ℚ := 0
  overflow : ℚ := 0
  newDepth : ℚ := 0
  newLatFlow : ℚ := 0
  deriving DecidableEq

/-- A link (`TLink`): the fields this file reads or writes. -/
structure TLink where
  type : Int := 0
  node1 : Int := 0
  node2 : Int := 0
  offset1 : ℚ := 0
  offset2 : ℚ := 0
  q0 : ℚ := 0
  qLimit : ℚ := 0
  cLossInlet : ℚ := 0
  cLossOutlet : ℚ := 0
  cLossAvg : ℚ := 0
  direction : Int := 1
  newFlow : ℚ := 0
  newDepth : ℚ := 0
  newVolume : ℚ := 0
  surfArea1 : ℚ := 0
  surfArea2 : ℚ := 0
  setting : ℚ := 0
  targetSetting : ℚ := 0
  froude : ℚ := 0
  deriving DecidableEq

/-- A subcatchment (`TSubcatch`): the fields this file reads or writes. -/
structure TSubcatch where
  width : ℚ := 0
  area : ℚ := 0
  fracImperv : ℚ := 0
  slope : ℚ := 0
  curbLength : ℚ := 0
  outNode : Int := -1
  outSubcatch : Int := -1
  rainfall : ℚ := 0
  evapLoss : ℚ := 0
  infilLoss : ℚ := 0
  runon : ℚ := 0
  newRunoff : ℚ := 0
  newSnowDepth : ℚ := 0
  deriving DecidableEq

/-- A rain gage (`TGage`): the fields this file reads or writes. -/
structure TGage where
  dataSource : Int := 0
  isUsed : Bool := false
  coGage : Int := -1
  externalRain : ℚ := 0
  deriving DecidableEq

/-- An outfall (`TOutfall`): the fields this file reads or writes. -/
structure TOutfall where
  type : Int := 0
  outfallStage : ℚ := 0
  deriving DecidableEq

/-- A LID unit placed in a subcatchment (`TLidUnit`): the fields of the
parameter and option accessors. -/
structure TLidUnit where
  lidIndex : Int := 0
  number : Int := 0
  area : ℚ := 0
  fullWidth : ℚ := 0
  botWidth : ℚ := 0
  initSat : ℚ := 0
  fromImperv : ℚ := 0
  toPerv : Int := 0
  drainSubcatch : Int := -1
  drainNode : Int := -1
  oldFluxRates_SM_SURFACE : ℚ := 0
  oldFluxRates_SM_SOIL : ℚ := 0
  oldFluxRates_SM_STORAGE : ℚ := 0
  oldFluxRates_SM_PAVE : ℚ := 0
  waterBalance_inflow : ℚ := 0
  waterBalance_evap : ℚ := 0
  waterBalance_infil : ℚ := 0
  waterBalance_surfFlow : ℚ := 0
  waterBalance_drainFlow : ℚ := 0
  waterBalance_initVol : ℚ := 0
  waterBalance_finalVol : ℚ := 0
  surfaceDepth : ℚ := 0
  paveDepth : ℚ := 0
  soilMoisture : ℚ := 0
  storageDepth : ℚ := 0
  dryTime : ℚ := 0
  oldDrainFlow : ℚ := 0
  newDrainFlow : ℚ := 0
  waterRate_evap : ℚ := 0
  waterRate_maxNativeInfil : ℚ := 0
  waterRate_surfaceInflow : ℚ := 0
  waterRate_surfaceInfil : ℚ := 0
  waterRate_surfaceEvap : ℚ := 0
  waterRate_surfaceOutflow : ℚ := 0
  waterRate_paveEvap : ℚ := 0
  waterRate_pavePerc : ℚ := 0
  waterRate_soilEvap : ℚ := 0
  waterRate_soilPerc : ℚ := 0
  waterRate_storageInflow : ℚ := 0
  waterRate_storageExfil : ℚ := 0
  waterRate_storageEvap : ℚ := 0
  waterRate_storageDrain : ℚ := 0
  deriving DecidableEq

/-- The group of LID units of a subcatchment (what `lid_getLidGroup` points
to): the fields read by `swmm_getLidGResult`. -/
structure TLidGroup where
  pervArea : ℚ := 0
  flowToPerv : ℚ := 0
  oldDrainFlow : ℚ := 0
  newDrainFlow : ℚ := 0
  deriving DecidableEq

/-- A pollutant (`TPollut`): the fields read by `swmm_getOutfallStats`. -/
structure TPollut where
  units : Int := 0
  mcf : ℚ := 1
  deriving DecidableEq

/-- One line written by `report_writeControlAction`: the date, the link (its
index stands for its ID), the setting and the name of the rule. -/
structure TControlAction where
  time : ℚ
  link : Int
  setting : ℚ
  rule : String
  deriving DecidableEq

/-- Object type selector of `swmm_getObjectId` (`SM_ObjectType`): the case
labels of its `switch(type)`; `unlisted` is any other integer. -/
inductive SM_ObjectType where
  | SM_GAGE
  | SM_SUBCATCH
  | SM_NODE
  | SM_LINK
  | SM_POLLUT
  | SM_LANDUSE
  | SM_TIMEPATTERN
  | SM_CURVE
  | SM_TSERIES
  | SM_TRANSECT
  | SM_AQUIFER
  | SM_UNITHYD
  | SM_SNOWMELT
  | SM_LID
  | unlisted
  deriving DecidableEq, Repr

/-- Selector of `swmm_getSimulationDateTime`: the case labels of its
`switch(timetype)`; `unlisted` is any other integer. -/
inductive SM_TimeType where
  | SM_STARTDATE
  | SM_ENDDATE
  | SM_REPORTDATE
  | unlisted
  deriving DecidableEq, Repr

/-- The global state of the engine that the toolkit functions read and write:
the part seen by the LID control accessors, the flag behind
`swmm_IsStartedFlag()`, the counts `Nobjects[...]`, the object tables, the table
behind `lid_getLidUnit` (the unit `lidIndex` of subcatchment `index`, if there
is one), and for `swmm_setLinkSetting` the report flag, the routing time and
the control actions written to the report so far. Then, for the accessors of
counts, options and statistics: the array `Nobjects` as `swmm_countObjects`
indexes it (by the integer it is given, the array being what the memory holds
at that offset), the pollutants, the table behind `lid_getLidGroup`, the number
of routing steps taken, and the option and continuity-error variables of
globals.h. For `swmm_getObjectId`, `ID t j` is the field `ID` of record `j` of
the table read under the case label `t` (`Gage[j].ID`, `Subcatch[j].ID`, ...),
and `LidProcID j` the `ID` of the control `lid_getLidProc(j)` points to, none
when that pointer is `NULL`; for `swmm_getSimulationDateTime`, the three dates
of globals.h. -/
structure Model extends Project where
  IsStartedFlag : Bool
  Nobjects_GAGE : Int
  Nobjects_SUBCATCH : Int
  Nobjects_NODE : Int
  Nobjects_LINK : Int
  Gage : Int → TGage
  Subcatch : Int → TSubcatch
  Node : Int → TNode
  Link : Int → TLink
  Outfall : Int → TOutfall
  LidUnits : Int → Int → Option TLidUnit
  RptFlags_controls : Bool
  NewRoutingTime : ℚ
  controlActions : List TControlAction
  Nobjects : Int → Int := fun _ => 0
  Nobjects_POLLUT : Int := 0
  Pollut : Int → TPollut := fun _ => {}
  LidGroups : Int → Option TLidGroup := fun _ => none
  StepCount : Int := 0
  UnitSystem : Int := 0
  FlowUnits : Int := 0
  AllowPonding : Int := 0
  SkipSteadyState : Int := 0
  IgnoreRainfall : Int := 0
  IgnoreRDII : Int := 0
  IgnoreSnowmelt : Int := 0
  IgnoreGwater : Int := 0
  IgnoreRouting : Int := 0
  IgnoreQuality : Int := 0
  RouteStep : ℚ := 0
  MinRouteStep : ℚ := 0
  LengtheningStep : ℚ := 0
  StartDryDays : ℚ := 0
  CourantFactor : ℚ := 0
  MinSurfArea : ℚ := 0
  MinSlope : ℚ := 0
  RunoffError : ℚ := 0
  GwaterError : ℚ := 0
  FlowError : ℚ := 0
  QualError : ℚ := 0
  HeadTol : ℚ := 0
  SysFlowTol : ℚ := 0
  LatFlowTol : ℚ := 0
  ID : SM_ObjectType → Int → String := fun _ _ => ""
  LidProcID : Int → Option String := fun _ => some ""
  StartDateTime : ℚ := 0
  EndDateTime : ℚ := 0
  ReportStart : ℚ := 0

open SM_NodeProperty SM_LinkProperty SM_SubcProperty SM_LidUProperty
open SM_NodeResult SM_LinkResult SM_SubcResult

/-- The macro `SQR(x)` of macros.h. -/
def SQR (x : ℚ) : ℚ := x * x

/-- The function `swmm_getNodeType`. `Ntype` is the prior content of the
output parameter. -/
def swmm_getNodeType (m : Model) (index : Int) (Ntype : Int) : ErrorCode × Int := Id.run do
  let mut errcode := ERR_NONE
  let mut Ntype := Ntype
  Ntype := -1
  -- Check if Open
  if m.IsOpenFlag = false then
    errcode := ERR_API_INPUTNOTOPEN
  -- Check if object index is within bounds
  else if index < 0 ∨ index ≥ m.Nobjects_NODE then
    errcode := ERR_API_OBJECT_INDEX
  else
    Ntype := (m.Node index).type
  return (errcode, Ntype)

/-- The function `swmm_getLinkType`. -/
def swmm_getLinkType (m : Model) (index : Int) (Ltype : Int) : ErrorCode × Int := Id.run do
  let mut errcode := ERR_NONE
  let mut Ltype := Ltype
  Ltype := -1
  if m.IsOpenFlag = false then
    errcode := ERR_API_INPUTNOTOPEN
  else if index < 0 ∨ index ≥ m.Nobjects_LINK then
    errcode := ERR_API_OBJECT_INDEX
  else
    Ltype := (m.Link index).type
  return (errcode, Ltype)

/-- The function `swmm_getLinkConnections`; the result is the status and the
contents of `*Node1` and `*Node2`. -/
def swmm_getLinkConnections (m : Model) (index : Int) (Node1 Node2 : Int) :
    ErrorCode × Int × Int := Id.run do
  let mut errcode := ERR_NONE
  let mut Node1 := Node1
  let mut Node2 := Node2
  Node1 := -1
  Node2 := -1
  if m.IsOpenFlag = false then
    errcode := ERR_API_INPUTNOTOPEN
  else if index < 0 ∨ index ≥ m.Nobjects_LINK then
    errcode := ERR_API_OBJECT_INDEX
  else
    Node1 := (m.Link index).node1
    Node2 := (m.Link index).node2
  return (errcode, Node1, Node2)

/-- The function `swmm_getLinkDirection`. -/
def swmm_getLinkDirection (m : Model) (index : Int) (value : Int) : ErrorCode × Int := Id.run do
  let mut errcode := ERR_NONE
  let mut value := value
  value := 0
  if m.IsOpenFlag = false then
    errcode := ERR_API_INPUTNOTOPEN
  else if index < 0 ∨ index ≥ m.Nobjects_LINK then
    errcode := ERR_API_OBJECT_INDEX
  else
    value := (m.Link index).direction
  return (errcode, value)

/-- The function `swmm_getNodeParam`. `value` is the prior content of the
output parameter, which the function sets to 0 before anything else. -/
def swmm_getNodeParam (m : Model) (index : Int) (Param : SM_NodeProperty) (value : ℚ) :
    ErrorCode × ℚ := Id.run do
  let mut errcode := ERR_NONE
  let mut value := value
  value := 0
  -- Check if Open
  if m.IsOpenFlag = false then
    errcode := ERR_API_INPUTNOTOPEN
  -- Check if object index is within bounds
  else if index < 0 ∨ index ≥ m.Nobjects_NODE then
    errcode := ERR_API_OBJECT_INDEX
  else
    match Param with
    | SM_INVERTEL => value := (m.Node index).invertElev * m.UCF LENGTH
    | SM_FULLDEPTH => value := (m.Node index).fullDepth * m.UCF LENGTH
    | SM_SURCHDEPTH => value := (m.Node index).surDepth * m.UCF LENGTH
    | SM_PONDAREA => value := (m.Node index).pondedArea * m.UCF LENGTH * m.UCF LENGTH
    | SM_INITDEPTH => value := (m.Node index).initDepth * m.UCF LENGTH
    | _ => errcode := ERR_API_OUTBOUNDS
  return (errcode, value)

/-- The function `swmm_setNodeParam`: the status and the model it leaves. -/
def swmm_setNodeParam (m : Model) (index : Int) (Param : SM_NodeProperty) (value : ℚ) :
    Traced (ErrorCode × Model) := do
  let mut errcode := ERR_NONE
  let mut m := m
  -- Check if Open
  if m.IsOpenFlag = false then
    errcode := ERR_API_INPUTNOTOPEN
  -- Check if Simulation is Running
  else if m.IsStartedFlag = true then
    errcode := ERR_API_SIM_NRUNNING
  -- Check if object index is within bounds
  else if index < 0 ∨ index ≥ m.Nobjects_NODE then
    errcode := ERR_API_OBJECT_INDEX
  else
    match Param with
    | SM_INVERTEL =>
      let x ← fdiv value (m.UCF LENGTH)
      m := { m with Node := Function.update m.Node index { m.Node index with invertElev := x } }
    | SM_FULLDEPTH =>
      let x ← fdiv value (m.UCF LENGTH)
      m := { m with Node := Function.update m.Node index { m.Node index with fullDepth := x } }
    | SM_SURCHDEPTH =>
      let x ← fdiv value (m.UCF LENGTH)
      m := { m with Node := Function.update m.Node index { m.Node index with surDepth := x } }
    | SM_PONDAREA =>
      let x ← fdiv value (m.UCF LENGTH * m.UCF LENGTH)
      m := { m with Node := Function.update m.Node index { m.Node index with pondedArea := x } }
    | SM_INITDEPTH =>
      let x ← fdiv value (m.UCF LENGTH)
      m := { m with Node := Function.update m.Node index { m.Node index with initDepth := x } }
    | _ => errcode := ERR_API_OUTBOUNDS
  return (errcode, m)

/-- The function `swmm_getLinkParam`. -/
def swmm_getLinkParam (m : Model) (index : Int) (Param : SM_LinkProperty) (value : ℚ) :
    ErrorCode × ℚ := Id.run do
  let mut errcode := ERR_NONE
  let mut value := value
  value := 0
  if m.IsOpenFlag = false then
    errcode := ERR_API_INPUTNOTOPEN
  else if index < 0 ∨ index ≥ m.Nobjects_LINK then
    errcode := ERR_API_OBJECT_INDEX
  else
    match Param with
    | SM_OFFSET1 => value := (m.Link index).offset1 * m.UCF LENGTH
    | SM_OFFSET2 => value := (m.Link index).offset2 * m.UCF LENGTH
    | SM_INITFLOW => value := (m.Link index).q0 * m.UCF FLOW
    | SM_FLOWLIMIT => value := (m.Link index).qLimit * m.UCF FLOW
    | SM_INLETLOSS => value := (m.Link index).cLossInlet
    | SM_OUTLETLOSS => value := (m.Link index).cLossOutlet
    | SM_AVELOSS => value := (m.Link index).cLossAvg
    | _ => errcode := ERR_API_OUTBOUNDS
  return (errcode, value)

/-- The function `swmm_setLinkParam`. The started flag is tested inside the
cases of the two offsets only, after the bounds check. -/
def swmm_setLinkParam (m : Model) (index : Int) (Param : SM_LinkProperty) (value : ℚ) :
    Traced (ErrorCode × Model) := do
  let mut errcode := ERR_NONE
  let mut m := m
  -- Check if Open
  if m.IsOpenFlag = false then
    errcode := ERR_API_INPUTNOTOPEN
  -- Check if object index is within bounds
  else if index < 0 ∨ index ≥ m.Nobjects_LINK then
    errcode := ERR_API_OBJECT_INDEX
  else
    match Param with
    | SM_OFFSET1 =>
      -- Check if Simulation is Running
      if m.IsStartedFlag = true then
        errcode := ERR_API_SIM_NRUNNING
      else
        let x ← fdiv value (m.UCF LENGTH)
        m := { m with Link := Function.update m.Link index { m.Link index with offset1 := x } }
    | SM_OFFSET2 =>
      if m.IsStartedFlag = true then
        errcode := ERR_API_SIM_NRUNNING
      else
        let x ← fdiv value (m.UCF LENGTH)
        m := { m with Link := Function.update m.Link index { m.Link index with offset2 := x } }
    | SM_INITFLOW =>
      let x ← fdiv value (m.UCF FLOW)
      m := { m with Link := Function.update m.Link index { m.Link index with q0 := x } }
    | SM_FLOWLIMIT =>
      let x ← fdiv value (m.UCF FLOW)
      m := { m with Link := Function.update m.Link index { m.Link index with qLimit := x } }
    | SM_INLETLOSS =>
      m := { m with Link := Function.update m.Link index { m.Link index with cLossInlet := value } }
    | SM_OUTLETLOSS =>
      m := { m with Link := Function.update m.Link index { m.Link index with cLossOutlet := value } }
    | SM_AVELOSS =>
      m := { m with Link := Function.update m.Link index { m.Link index with cLossAvg := value } }
    | _ => errcode := ERR_API_OUTBOUNDS
  return (errcode, m)

/-- The function `swmm_getSubcatchParam`. -/
def swmm_getSubcatchParam (m : Model) (index : Int) (Param : SM_SubcProperty) (value : ℚ) :
    ErrorCode × ℚ := Id.run do
  let mut errcode := ERR_NONE
  let mut value := value
  value := 0
  if m.IsOpenFlag = false then
    errcode := ERR_API_INPUTNOTOPEN
  else if index < 0 ∨ index ≥ m.Nobjects_SUBCATCH then
    errcode := ERR_API_OBJECT_INDEX
  else
    match Param with
    | SM_WIDTH => value := (m.Subcatch index).width * m.UCF LENGTH
    | SM_AREA => value := (m.Subcatch index).area * m.UCF LANDAREA
    | SM_FRACIMPERV => value := (m.Subcatch index).fracImperv
    | SM_SLOPE => value := (m.Subcatch index).slope
    | SM_CURBLEN => value := (m.Subcatch index).curbLength * m.UCF LENGTH
    | _ => errcode := ERR_API_OUTBOUNDS
  return (errcode, value)

/-- The function `swmm_setSubcatchParam`. `subcatch_validate` (subcatch.c) is
not part of the source file and is a parameter: it receives the index and the
model and returns the model it leaves. The case `SM_FRACIMPERV` is a bare
`break`; the call of `subcatch_validate` follows the `switch` whatever case was
taken. -/
def swmm_setSubcatchParam (subcatch_validate : Int → Model → Model) (m : Model) (index : Int)
    (Param : SM_SubcProperty) (value : ℚ) : Traced (ErrorCode × Model) := do
  let mut errcode := ERR_NONE
  let mut m := m
  -- Check if Open
  if m.IsOpenFlag = false then
    errcode := ERR_API_INPUTNOTOPEN
  -- Check if Simulation is Running
  else if m.IsStartedFlag = true then
    errcode := ERR_API_SIM_NRUNNING
  -- Check if object index is within bounds
  else if index < 0 ∨ index ≥ m.Nobjects_SUBCATCH then
    errcode := ERR_API_OBJECT_INDEX
  else
    match Param with
    | SM_WIDTH =>
      let x ← fdiv value (m.UCF LENGTH)
      m := { m with Subcatch := Function.update m.Subcatch index { m.Subcatch index with width := x } }
    | SM_AREA =>
      let x ← fdiv value (m.UCF LANDAREA)
      m := { m with Subcatch := Function.update m.Subcatch index { m.Subcatch index with area := x } }
    | SM_FRACIMPERV => pure ()
    | SM_SLOPE =>
      m := { m with Subcatch :=
              Function.update m.Subcatch index { m.Subcatch index with slope := value } }
    | SM_CURBLEN =>
      let x ← fdiv value (m.UCF LENGTH)
      m := { m with Subcatch :=
              Function.update m.Subcatch index { m.Subcatch index with curbLength := x } }
    | _ => errcode := ERR_API_OUTBOUNDS
    -- re-validate subcatchment
    m := subcatch_validate index m
  return (errcode, m)

/-- The function `swmm_getSubcatchOutConnection`; `SUBCATCH` and `NODE` are the
object type codes of enums.h, which is not part of the source file. The result
is the status and the contents of `*type` and `*out_index`. -/
def swmm_getSubcatchOutConnection (SUBCATCH NODE : Int) (m : Model) (index : Int)
    (type out_index : Int) : ErrorCode × Int × Int := Id.run do
  let mut errcode := ERR_NONE
  let mut type := type
  let mut out_index := out_index
  type := -1
  out_index := -1
  if m.IsOpenFlag = false then
    errcode := ERR_API_INPUTNOTOPEN
  else if index < 0 ∨ index ≥ m.Nobjects_SUBCATCH then
    errcode := ERR_API_OBJECT_INDEX
  else
    if (m.Subcatch index).outNode = -1 ∧ (m.Subcatch index).outSubcatch = -1 then
      out_index := index
      type := SUBCATCH
    if (m.Subcatch index).outNode ≥ 0 then
      out_index := (m.Subcatch index).outNode
      type := NODE
    if (m.Subcatch index).outSubcatch ≥ 0 then
      out_index := (m.Subcatch index).outSubcatch
      type := SUBCATCH
  return (errcode, type, out_index)

/-- The call `lid_getLidUnit(index, lidIndex, &errcode)`. The function belongs
to lid.c, which is not part of the source file, so what it looks up is taken as
given: the table `LidUnits` of the model, and a parameter `lidUnitError` for the
status it reports when there is no unit. With a unit at `(index, lidIndex)` the
result is that unit and `errcode` as it was; without one the result is no unit
(`NULL`) and the status `lidUnitError index lidIndex`. -/
def lid_getLidUnit (lidUnitError : Int → Int → ErrorCode) (m : Model) (index lidIndex : Int)
    (errcode : ErrorCode) : Option TLidUnit × ErrorCode :=
  match m.LidUnits index lidIndex with
  | some lidUnit => (some lidUnit, errcode)
  | none => (none, lidUnitError index lidIndex)

/-- The function `swmm_getLidUParam`. `value` is the prior content of the
output parameter, which only the cases of the `switch` assign. -/
def swmm_getLidUParam (lidUnitError : Int → Int → ErrorCode) (m : Model) (index lidIndex : Int)
    (param : SM_LidUProperty) (value : ℚ) : ErrorCode × ℚ := Id.run do
  let mut errcode := ERR_NONE
  let mut value := value
  -- Check if Open
  if m.IsOpenFlag = false then
    errcode := ERR_API_INPUTNOTOPEN
  -- Check if subcatchment index is within bounds
  else if index < 0 ∨ index ≥ m.Nobjects_SUBCATCH then
    errcode := ERR_API_OBJECT_INDEX
  else
    let (found, e) := lid_getLidUnit lidUnitError m index lidIndex errcode
    errcode := e
    -- There are no Lid Units defined for the subcatchments
    match found with
    | some lidUnit =>
      match param with
      | SM_UNITAREA => value := lidUnit.area * SQR (m.UCF LENGTH)
      | SM_FWIDTH => value := lidUnit.fullWidth * m.UCF LENGTH
      | SM_BWIDTH => value := lidUnit.botWidth * m.UCF LENGTH
      | SM_INITSAT => value := lidUnit.initSat * 100
      | SM_FROMIMPERV => value := lidUnit.fromImperv * 100
      | _ => errcode := ERR_API_OUTBOUNDS
    | none => pure ()
  return (errcode, value)

/-- The function `swmm_setLidUParam`. The writes through the pointer `lidUnit`
go to entry `(index, lidIndex)` of the table of LID units.
`lid_validateLidGroup` (lid.c) is a parameter; it is called after the `switch`
whenever there is a unit, whatever case was taken. -/
def swmm_setLidUParam (lidUnitError : Int → Int → ErrorCode)
    (lid_validateLidGroup : Int → Model → Model) (m : Model) (index lidIndex : Int)
    (Param : SM_LidUProperty) (value : ℚ) : Traced (ErrorCode × Model) := do
  let mut errcode := ERR_NONE
  let mut m := m
  -- Check if Open
  if m.IsOpenFlag = false then
    errcode := ERR_API_INPUTNOTOPEN
  -- Check if subcatchment index is within bounds
  else if index < 0 ∨ index ≥ m.Nobjects_SUBCATCH then
    errcode := ERR_API_OBJECT_INDEX
  else
    let (found, e) := lid_getLidUnit lidUnitError m index lidIndex errcode
    errcode := e
    -- There are no Lid Units defined for the subcatchments
    match found with
    | some lidUnit =>
      let mut lidUnit := lidUnit
      match Param with
      | SM_UNITAREA =>
        let x ← fdiv value (SQR (m.UCF LENGTH))
        lidUnit := { lidUnit with area := x }
      | SM_FWIDTH =>
        let x ← fdiv value (m.UCF LENGTH)
        lidUnit := { lidUnit with fullWidth := x }
      | SM_BWIDTH =>
        let x ← fdiv value (m.UCF LENGTH)
        lidUnit := { lidUnit with botWidth := x }
      | SM_INITSAT =>
        let x ← fdiv value 100
        lidUnit := { lidUnit with initSat := x }
      | SM_FROMIMPERV =>
        let x ← fdiv value 100
        lidUnit := { lidUnit with fromImperv := x }
      | _ => errcode := ERR_API_OUTBOUNDS
      let units := Function.update (m.LidUnits index) lidIndex (some lidUnit)
      m := { m with LidUnits := Function.update m.LidUnits index units }
      -- Validate Lid Unit
      m := lid_validateLidGroup index m
    | none => pure ()
  return (errcode, m)

/-- The function `swmm_getNodeResult`. -/
def swmm_getNodeResult (m : Model) (index : Int) (type : SM_NodeResult) (result : ℚ) :
    ErrorCode × ℚ := Id.run do
  let mut errcode := ERR_NONE
  let mut result := result
  result := 0
  -- Check if Open
  if m.IsOpenFlag = false then
    errcode := ERR_API_INPUTNOTOPEN
  -- Check if object index is within bounds
  else if index < 0 ∨ index ≥ m.Nobjects_NODE then
    errcode := ERR_API_OBJECT_INDEX
  else
    match type with
    | SM_TOTALINFLOW => result := (m.Node index).inflow * m.UCF FLOW
    | SM_TOTALOUTFLOW => result := (m.Node index).outflow * m.UCF FLOW
    | SM_LOSSES => result := (m.Node index).losses * m.UCF FLOW
    | SM_NODEVOL => result := (m.Node index).newVolume * m.UCF VOLUME
    | SM_NODEFLOOD => result := (m.Node index).overflow * m.UCF FLOW
    | SM_NODEDEPTH => result := (m.Node index).newDepth * m.UCF LENGTH
    | SM_NODEHEAD => result := ((m.Node index).newDepth + (m.Node index).invertElev) * m.UCF LENGTH
    | SM_LATINFLOW => result := (m.Node index).newLatFlow * m.UCF FLOW
    | _ => errcode := ERR_API_OUTBOUNDS
  return (errcode, result)

/-- The function `swmm_getLinkResult`. -/
def swmm_getLinkResult (m : Model) (index : Int) (type : SM_LinkResult) (result : ℚ) :
    ErrorCode × ℚ := Id.run do
  let mut errcode := ERR_NONE
  let mut result := result
  result := 0
  if m.IsOpenFlag = false then
    errcode := ERR_API_INPUTNOTOPEN
  else if index < 0 ∨ index ≥ m.Nobjects_LINK then
    errcode := ERR_API_OBJECT_INDEX
  else
    match type with
    | SM_LINKFLOW => result := (m.Link index).newFlow * m.UCF FLOW
    | SM_LINKDEPTH => result := (m.Link index).newDepth * m.UCF LENGTH
    | SM_LINKVOL => result := (m.Link index).newVolume * m.UCF VOLUME
    | SM_USSURFAREA => result := (m.Link index).surfArea1 * m.UCF LENGTH * m.UCF LENGTH
    | SM_DSSURFAREA => result := (m.Link index).surfArea2 * m.UCF LENGTH * m.UCF LENGTH
    | SM_SETTING => result := (m.Link index).setting
    | SM_TARGETSETTING => result := (m.Link index).targetSetting
    | SM_FROUDE => result := (m.Link index).froude
    | _ => errcode := ERR_API_OUTBOUNDS
  return (errcode, result)

/-- The function `swmm_getSubcatchResult`. -/
def swmm_getSubcatchResult (m : Model) (index : Int) (type : SM_SubcResult) (result : ℚ) :
    ErrorCode × ℚ := Id.run do
  let mut errcode := ERR_NONE
  let mut result := result
  result := 0
  if m.IsOpenFlag = false then
    errcode := ERR_API_INPUTNOTOPEN
  else if index < 0 ∨ index ≥ m.Nobjects_SUBCATCH then
    errcode := ERR_API_OBJECT_INDEX
  else
    match type with
    | SM_SUBCRAIN => result := (m.Subcatch index).rainfall * m.UCF RAINFALL
    | SM_SUBCEVAP => result := (m.Subcatch index).evapLoss * m.UCF EVAPRATE
    | SM_SUBCINFIL => result := (m.Subcatch index).infilLoss * m.UCF RAINFALL
    | SM_SUBCRUNON => result := (m.Subcatch index).runon * m.UCF FLOW
    | SM_SUBCRUNOFF => result := (m.Subcatch index).newRunoff * m.UCF FLOW
    | SM_SUBCSNOW => result := (m.Subcatch index).newSnowDepth * m.UCF RAINDEPTH
    | _ => errcode := ERR_API_OUTBOUNDS
  return (errcode, result)

/-- The function `swmm_setLinkSetting`. `PUMP` is the link type code of
enums.h; `link_setSetting` (link.c) and `getDateTime` (swmm5.c) are not part of
the source file and are parameters. The line that `report_writeControlAction`
writes is appended to `controlActions`. -/
def swmm_setLinkSetting (PUMP : Int) (link_setSetting : Int → ℚ → Model → Model)
    (getDateTime : ℚ → ℚ) (m : Model) (index : Int) (setting : ℚ) : ErrorCode × Model := Id.run do
  let mut errcode := ERR_NONE
  let mut m := m
  let mut setting := setting
  -- Check if Open
  if m.IsOpenFlag = false then
    errcode := ERR_API_INPUTNOTOPEN
  -- Check if object index is within bounds
  else if index < 0 ∨ index ≥ m.Nobjects_LINK then
    errcode := ERR_API_OBJECT_INDEX
  else
    -- check that new setting lies within feasible limits
    if setting < 0 then
      setting := 0
    if (m.Link index).type ≠ PUMP ∧ setting > 1 then
      setting := 1
    m := { m with Link := Function.update m.Link index { m.Link index with targetSetting := setting } }
    -- Use internal function to apply the new setting
    m := link_setSetting index 0 m
    -- Add control action to RPT file if desired flagged
    if m.RptFlags_controls = true then
      let currentTime := getDateTime m.NewRoutingTime
      m := { m with controlActions := m.controlActions ++ [⟨currentTime, index, setting, "ToolkitAPI"⟩] }
  return (errcode, m)

/-- The loop `while (inflow) { if (inflow->param == -1) break; inflow =
inflow->next; }` of `swmm_setNodeInflow`: the position in the list of the
record the pointer ends on, or none when it ends on `NULL`. -/
def findFlowInflow : List TExtInflow → Option Nat
  | [] => none
  | inflow :: next => if inflow.param = -1 then some 0 else (findFlowInflow next).map (· + 1)

/-- The function `swmm_setNodeInflow`. `FLOW_INFLOW` is a constant of enums.h
and `inflow_setExtInflow` (inflow.c) a function that is not part of the source
file: both are parameters, the function returning its status and the model it
leaves. The pointer `inflow` is a position in the list of the node, `NULL` being
none; the source dereferences it without a test after a successful
`inflow_setExtInflow`, and the embedding leaves the list as it is should the
list then be empty. -/
def swmm_setNodeInflow (FLOW_INFLOW : Int)
    (inflow_setExtInflow : Int → Int → Int → Int → Int → ℚ → ℚ → ℚ → Model → ErrorCode × Model)
    (m : Model) (index : Int) (flowrate : ℚ) : ErrorCode × Model := Id.run do
  let mut errcode := ERR_NONE
  let mut m := m
  -- Check if Open
  if m.IsOpenFlag = false then
    errcode := ERR_API_INPUTNOTOPEN
  -- Check if object index is within bounds
  else if index < 0 ∨ index ≥ m.Nobjects_NODE then
    errcode := ERR_API_OBJECT_INDEX
  else
    -- check if an external inflow object for this constituent already exists
    let mut inflow := findFlowInflow (m.Node index).extInflow
    if inflow = none then
      let param : Int := -1
      let type := FLOW_INFLOW
      let tSeries : Int := -1
      let basePat : Int := -1
      let cf : ℚ := 1
      let sf : ℚ := 1
      let baseline : ℚ := 0
      -- Initializes Inflow Object
      let (e, m1) := inflow_setExtInflow index param type tSeries basePat cf baseline sf m
      errcode := e
      m := m1
      -- Get The Inflow Object
      if errcode = ERR_NONE then
        inflow := if (m.Node index).extInflow = [] then none else some 0
    -- Assign new flow rate
    if errcode = ERR_NONE then
      match inflow with
      | some k =>
        let records := (m.Node index).extInflow.modify (fun r => { r with extIfaceInflow := flowrate }) k
        m := { m with Node := Function.update m.Node index { m.Node index with extInflow := records } }
      | none => pure ()
  return (errcode, m)

/-- The function `swmm_setOutfallStage`; `OUTFALL` and `STAGED_OUTFALL` are
the type codes of enums.h. -/
def swmm_setOutfallStage (OUTFALL STAGED_OUTFALL : Int) (m : Model) (index : Int) (stage : ℚ) :
    Traced (ErrorCode × Model) := do
  let mut errcode := ERR_NONE
  let mut m := m
  -- Check if Open
  if m.IsOpenFlag = false then
    errcode := ERR_API_INPUTNOTOPEN
  -- Check if object index is within bounds
  else if index < 0 ∨ index ≥ m.Nobjects_NODE then
    errcode := ERR_API_OBJECT_INDEX
  else if (m.Node index).type ≠ OUTFALL then
    errcode := ERR_API_WRONG_TYPE
  else
    let k := (m.Node index).subIndex
    if (m.Outfall k).type ≠ STAGED_OUTFALL then
      -- Change Boundary Conditions Setting Type
      m := { m with Outfall := Function.update m.Outfall k { m.Outfall k with type := STAGED_OUTFALL } }
    let x ← fdiv stage (m.UCF LENGTH)
    m := { m with Outfall := Function.update m.Outfall k { m.Outfall k with outfallStage := x } }
  return (errcode, m)

/-- The function `swmm_setGagePrecip`; `RAIN_API` is the data source code of
enums.h. -/
def swmm_setGagePrecip (RAIN_API : Int) (m : Model) (index : Int) (total_precip : ℚ) :
    ErrorCode × Model := Id.run do
  let mut errcode := ERR_NONE
  let mut m := m
  -- Check if Open
  if m.IsOpenFlag = false then
    errcode := ERR_API_INPUTNOTOPEN
  -- Check if object index is within bounds
  else if index < 0 ∨ index ≥ m.Nobjects_GAGE then
    errcode := ERR_API_OBJECT_INDEX
  -- Set the Rainfall rate
  else
    if (m.Gage index).dataSource ≠ RAIN_API then
      m := { m with Gage := Function.update m.Gage index { m.Gage index with dataSource := RAIN_API } }
    if (m.Gage index).isUsed = false then
      m := { m with Gage := Function.update m.Gage index { m.Gage index with isUsed := true } }
    if (m.Gage index).coGage ≠ -1 then
      m := { m with Gage := Function.update m.Gage index { m.Gage index with coGage := -1 } }
    m := { m with Gage := Function.update m.Gage index { m.Gage index with externalRain := total_precip } }
  return (errcode, m)

/-! ## Counts, options, LID unit options and LID results -/

/-- Selector of `swmm_getSimulationUnit` (`SM_Units`): the case labels of its
`switch`; `unlisted` is any other integer. -/
inductive SM_Units where
  | SM_SYSTEMUNIT
  | SM_FLOWUNIT
  | unlisted
  deriving DecidableEq, Repr

/-- Selector of `swmm_getSimulationAnalysisSetting` (`SM_SimOption`);
`unlisted` is any other integer. -/
inductive SM_SimOption where
  | SM_ALLOWPOND
  | SM_SKIPSTEADY
  | SM_IGNORERAIN
  | SM_IGNORERDII
  | SM_IGNORESNOW
  | SM_IGNOREGW
  | SM_IGNOREROUTE
  | SM_IGNORERQUAL
  | unlisted
  deriving DecidableEq, Repr

/-- Selector of `swmm_getSimulationParam` (`SM_SimSetting`); `unlisted` is any
other integer. -/
inductive SM_SimSetting where
  | SM_ROUTESTEP
  | SM_MINROUTESTEP
  | SM_LENGTHSTEP
  | SM_STARTDRYDAYS
  | SM_COURANTFACTOR
  | SM_MINSURFAREA
  | SM_MINSLOPE
  | SM_RUNOFFERROR
  | SM_GWERROR
  | SM_FLOWERROR
  | SM_QUALERROR
  | SM_HEADTOL
  | SM_SYSFLOWTOL
  | SM_LATFLOWTOL
  | unlisted
  deriving DecidableEq, Repr

/-- Selector of the LID unit option accessors (`SM_LidUOptions`); `unlisted`
is any other integer. -/
inductive SM_LidUOptions where
  | SM_INDEX
  | SM_NUMBER
  | SM_TOPERV
  | SM_DRAINSUB
  | SM_DRAINNODE
  | unlisted
  deriving DecidableEq, Repr

/-- Layer selector of `swmm_getLidUFluxRates`: the case labels of its
`switch(layerIndex)`, which names the storage layer `SM_STORAGE`; `unlisted` is
any other integer. -/
inductive SM_FluxLayer where
  | SM_SURFACE
  | SM_SOIL
  | SM_STORAGE
  | SM_PAVE
  | unlisted
  deriving DecidableEq, Repr

/-- Result selector of `swmm_getLidGResult`: the case labels of its `switch`;
`unlisted` is any other integer. -/
inductive SM_LidGResult where
  | SM_PERVAREA
  | SM_FLOWTOPERV
  | SM_OLDDRAINFLOW
  | SM_NEWDRAINFLOW
  | unlisted
  deriving DecidableEq, Repr

/-- Result selector of `swmm_getLidUResult`: the case labels of its `switch`;
`unlisted` is any other integer. -/
inductive SM_LidUResult where
  | SM_INFLOW
  | SM_EVAP
  | SM_INFIL
  | SM_SURFFLOW
  | SM_DRAINFLOW
  | SM_INITVOL
  | SM_FINALVOL
  | SM_SURFDEPTH
  | SM_PAVEDEPTH
  | SM_SOILMOIST
  | SM_STORDEPTH
  | SM_DRYTIME
  | SM_OLDDRAINFLOW
  | SM_NEWDRAINFLOW
  | SM_EVAPRATE
  | SM_NATIVEINFIL
  | SM_SURFINFLOW
  | SM_SURFINFIL
  | SM_SURFEVAP
  | SM_SURFOUTFLOW
  | SM_PAVEEVAP
  | SM_PAVEPERC
  | SM_SOILEVAP
  | SM_SOILPERC
  | SM_STORAGEINFLOW
  | SM_STORAGEEXFIL
  | SM_STORAGEEVAP
  | SM_STORAGEDRAIN
  | unlisted
  deriving DecidableEq, Repr

/-- The function `swmm_countObjects`; `MAX_OBJ_TYPES` is a constant of
enums.h. The function does not test the open flag, and tests `type` against the
upper bound only. -/
def swmm_countObjects (MAX_OBJ_TYPES : Int) (m : Model) (type : Int) (count : Int) :
    ErrorCode × Int := Id.run do
  let mut errcode := ERR_NONE
  let mut count := count
  count := 0
  if type ≥ MAX_OBJ_TYPES then
    errcode := ERR_API_OUTBOUNDS
  else
    count := m.Nobjects type
  return (errcode, count)

/-- The function `swmm_getSimulationUnit`. -/
def swmm_getSimulationUnit (m : Model) (type : SM_Units) (value : Int) : ErrorCode × Int :=
    Id.run do
  let mut errcode := ERR_NONE
  let mut value := value
  value := 0
  -- Check if Open
  if m.IsOpenFlag = false then
    errcode := ERR_API_INPUTNOTOPEN
  else
    match type with
    | SM_Units.SM_SYSTEMUNIT => value := m.UnitSystem
    | SM_Units.SM_FLOWUNIT => value := m.FlowUnits
    | _ => errcode := ERR_API_OUTBOUNDS
  return (errcode, value)

/-- The function `swmm_getSimulationAnalysisSetting`. -/
def swmm_getSimulationAnalysisSetting (m : Model) (type : SM_SimOption) (value : Int) :
    ErrorCode × Int := Id.run do
  let mut errcode := ERR_NONE
  let mut value := value
  value := 0
  -- Check if Open
  if m.IsOpenFlag = false then
    errcode := ERR_API_INPUTNOTOPEN
  else
    match type with
    | SM_SimOption.SM_ALLOWPOND => value := m.AllowPonding
    | SM_SimOption.SM_SKIPSTEADY => value := m.SkipSteadyState
    | SM_SimOption.SM_IGNORERAIN => value := m.IgnoreRainfall
    | SM_SimOption.SM_IGNORERDII => value := m.IgnoreRDII
    | SM_SimOption.SM_IGNORESNOW => value := m.IgnoreSnowmelt
    | SM_SimOption.SM_IGNOREGW => value := m.IgnoreGwater
    | SM_SimOption.SM_IGNOREROUTE => value := m.IgnoreRouting
    | SM_SimOption.SM_IGNORERQUAL => value := m.IgnoreQuality
    | _ => errcode := ERR_API_OUTBOUNDS
  return (errcode, value)

/-- The function `swmm_getSimulationParam`. -/
def swmm_getSimulationParam (m : Model) (type : SM_SimSetting) (value : ℚ) : ErrorCode × ℚ :=
    Id.run do
  let mut errcode := ERR_NONE
  let mut value := value
  value := 0
  -- Check if Open
  if m.IsOpenFlag = false then
    errcode := ERR_API_INPUTNOTOPEN
  else
    match type with
    | SM_SimSetting.SM_ROUTESTEP => value := m.RouteStep
    | SM_SimSetting.SM_MINROUTESTEP => value := m.MinRouteStep
    | SM_SimSetting.SM_LENGTHSTEP => value := m.LengtheningStep
    | SM_SimSetting.SM_STARTDRYDAYS => value := m.StartDryDays
    | SM_SimSetting.SM_COURANTFACTOR => value := m.CourantFactor
    | SM_SimSetting.SM_MINSURFAREA => value := m.MinSurfArea
    | SM_SimSetting.SM_MINSLOPE => value := m.MinSlope
    | SM_SimSetting.SM_RUNOFFERROR => value := m.RunoffError
    | SM_SimSetting.SM_GWERROR => value := m.GwaterError
    | SM_SimSetting.SM_FLOWERROR => value := m.FlowError
    | SM_SimSetting.SM_QUALERROR => value := m.QualError
    | SM_SimSetting.SM_HEADTOL => value := m.HeadTol
    | SM_SimSetting.SM_SYSFLOWTOL => value := m.SysFlowTol
    | SM_SimSetting.SM_LATFLOWTOL => value := m.LatFlowTol
    | _ => errcode := ERR_API_OUTBOUNDS
  return (errcode, value)

/-- The function `swmm_getLidUCount`; `lid_getLidUnitCount` (lid.c) is a
parameter. `value` is the prior content of the output parameter, which only
the last branch assigns. -/
def swmm_getLidUCount (lid_getLidUnitCount : Model → Int → Int) (m : Model) (index : Int)
    (value : Int) : ErrorCode × Int := Id.run do
  let mut errcode := ERR_NONE
  let mut value := value
  -- Check if Open
  if m.IsOpenFlag = false then
    errcode := ERR_API_INPUTNOTOPEN
  -- Check if subcatchment index is within bounds
  else if index < 0 ∨ index ≥ m.Nobjects_SUBCATCH then
    errcode := ERR_API_OBJECT_INDEX
  else
    value := lid_getLidUnitCount m index
  return (errcode, value)

/-- The function `swmm_getLidUOption`. -/
def swmm_getLidUOption (lidUnitError : Int → Int → ErrorCode) (m : Model) (index lidIndex : Int)
    (param : SM_LidUOptions) (value : Int) : ErrorCode × Int := Id.run do
  let mut errcode := ERR_NONE
  let mut value := value
  -- Check if Open
  if m.IsOpenFlag = false then
    errcode := ERR_API_INPUTNOTOPEN
  -- Check if subcatchment index is within bounds
  else if index < 0 ∨ index ≥ m.Nobjects_SUBCATCH then
    errcode := ERR_API_OBJECT_INDEX
  else
    let (found, e) := lid_getLidUnit lidUnitError m index lidIndex errcode
    errcode := e
    -- There are no Lid Units defined for the subcatchments
    match found with
    | some lidUnit =>
      match param with
      | SM_LidUOptions.SM_INDEX => value := lidUnit.lidIndex
      | SM_LidUOptions.SM_NUMBER => value := lidUnit.number
      | SM_LidUOptions.SM_TOPERV => value := lidUnit.toPerv
      | SM_LidUOptions.SM_DRAINSUB => value := lidUnit.drainSubcatch
      | SM_LidUOptions.SM_DRAINNODE => value := lidUnit.drainNode
      | _ => errcode := ERR_API_OUTBOUNDS
    | none => pure ()
  return (errcode, value)

/-- The function `swmm_setLidUOption`. As in `swmm_setLidUParam`, the call of
`lid_validateLidGroup` follows the `switch` whenever there is a unit, whatever
case was taken. -/
def swmm_setLidUOption (lidUnitError : Int → Int → ErrorCode)
    (lid_validateLidGroup : Int → Model → Model) (m : Model) (index lidIndex : Int)
    (param : SM_LidUOptions) (value : Int) : ErrorCode × Model := Id.run do
  let mut errcode := ERR_NONE
  let mut m := m
  -- Check if Open
  if m.IsOpenFlag = false then
    errcode := ERR_API_INPUTNOTOPEN
  -- Check if subcatchment index is within bounds
  else if index < 0 ∨ index ≥ m.Nobjects_SUBCATCH then
    errcode := ERR_API_OBJECT_INDEX
  else
    let (found, e) := lid_getLidUnit lidUnitError m index lidIndex errcode
    errcode := e
    -- There are no Lid Units defined for the subcatchments
    match found with
    | some lidUnit =>
      let mut lidUnit := lidUnit
      match param with
      | SM_LidUOptions.SM_INDEX => lidUnit := { lidUnit with lidIndex := value }
      | SM_LidUOptions.SM_NUMBER => lidUnit := { lidUnit with number := value }
      | SM_LidUOptions.SM_TOPERV => lidUnit := { lidUnit with toPerv := value }
      | SM_LidUOptions.SM_DRAINSUB => lidUnit := { lidUnit with drainSubcatch := value }
      | SM_LidUOptions.SM_DRAINNODE => lidUnit := { lidUnit with drainNode := value }
      | _ => errcode := ERR_API_OUTBOUNDS
      let units := Function.update (m.LidUnits index) lidIndex (some lidUnit)
      m := { m with LidUnits := Function.update m.LidUnits index units }
      -- Validate Lid Unit
      m := lid_validateLidGroup index m
    | none => pure ()
  return (errcode, m)

/-- The function `swmm_getLidCOverflow`; `condition` is the prior content of
the output parameter. -/
def swmm_getLidCOverflow (pr : Project) (lidControlIndex : Int) (condition : Int) :
    ErrorCode × Int := Id.run do
  let mut errcode := ERR_NONE
  let mut condition := condition
  -- Check if Open
  if pr.IsOpenFlag = false then
    errcode := ERR_API_INPUTNOTOPEN
  -- Check if index is within bounds
  else if lidControlIndex < 0 ∨ lidControlIndex ≥ pr.Nobjects_LID then
    errcode := ERR_API_OBJECT_INDEX
  else
    let lidProc := pr.LidProcs lidControlIndex
    condition := lidProc.surface.canOverflow
  return (errcode, condition)

/-- The function `swmm_getLidUFluxRates`; `result` is the prior content of the
output parameter. -/
def swmm_getLidUFluxRates (lidUnitError : Int → Int → ErrorCode) (m : Model)
    (index lidIndex : Int) (layerIndex : SM_FluxLayer) (result : ℚ) : ErrorCode × ℚ := Id.run do
  let mut errcode := ERR_NONE
  let mut result := result
  -- Check if Open
  if m.IsOpenFlag = false then
    errcode := ERR_API_INPUTNOTOPEN
  -- Check if object index is within bounds
  else if index < 0 ∨ index ≥ m.Nobjects_SUBCATCH then
    errcode := ERR_API_OBJECT_INDEX
  else
    let (found, e) := lid_getLidUnit lidUnitError m index lidIndex errcode
    errcode := e
    -- There are no Lid Units defined for the subcatchments
    match found with
    | some lidUnit =>
      match layerIndex with
      | SM_FluxLayer.SM_SURFACE => result := lidUnit.oldFluxRates_SM_SURFACE * m.UCF LENGTH
      | SM_FluxLayer.SM_SOIL => result := lidUnit.oldFluxRates_SM_SOIL * m.UCF LENGTH
      | SM_FluxLayer.SM_STORAGE => result := lidUnit.oldFluxRates_SM_STORAGE * m.UCF LENGTH
      | SM_FluxLayer.SM_PAVE => result := lidUnit.oldFluxRates_SM_PAVE * m.UCF LENGTH
      | _ => errcode := ERR_API_OUTBOUNDS
    | none => pure ()
  return (errcode, result)

/-- The function `swmm_getLidGResult`. `lid_getLidGroup(index)` (lid.c) is the
look-up of the table `LidGroups` of the model, `NULL` being none. -/
def swmm_getLidGResult (m : Model) (index : Int) (type : SM_LidGResult) (result : ℚ) :
    ErrorCode × ℚ := Id.run do
  let mut errcode := ERR_NONE
  let mut result := result
  -- Check if Open
  if m.IsOpenFlag = false then
    errcode := ERR_API_INPUTNOTOPEN
  -- Check if object index is within bounds
  else if index < 0 ∨ index ≥ m.Nobjects_SUBCATCH then
    errcode := ERR_API_OBJECT_INDEX
  else
    match m.LidGroups index with
    | none => errcode := ERR_API_UNDEFINED_LID
    | some lidGroup =>
      match type with
      | SM_LidGResult.SM_PERVAREA => result := lidGroup.pervArea * SQR (m.UCF LENGTH)
      | SM_LidGResult.SM_FLOWTOPERV => result := lidGroup.flowToPerv * m.UCF FLOW
      | SM_LidGResult.SM_OLDDRAINFLOW => result := lidGroup.oldDrainFlow * m.UCF FLOW
      | SM_LidGResult.SM_NEWDRAINFLOW => result := lidGroup.newDrainFlow * m.UCF FLOW
      | _ => errcode := ERR_API_OUTBOUNDS
  return (errcode, result)

/-- The function `swmm_getLidUResult`. -/
def swmm_getLidUResult (lidUnitError : Int → Int → ErrorCode) (m : Model)
    (index lidIndex : Int) (type : SM_LidUResult) (result : ℚ) : ErrorCode × ℚ := Id.run do
  let mut errcode := ERR_NONE
  let mut result := result
  -- Check if Open
  if m.IsOpenFlag = false then
    errcode := ERR_API_INPUTNOTOPEN
  -- Check if object index is within bounds
  else if index < 0 ∨ index ≥ m.Nobjects_SUBCATCH then
    errcode := ERR_API_OBJECT_INDEX
  else
    let (found, e) := lid_getLidUnit lidUnitError m index lidIndex errcode
    errcode := e
    -- There are no Lid Units defined for the subcatchments
    match found with
    | some lidUnit =>
      match type with
      | SM_LidUResult.SM_INFLOW => result := lidUnit.waterBalance_inflow * m.UCF RAINDEPTH
      | SM_LidUResult.SM_EVAP => result := lidUnit.waterBalance_evap * m.UCF RAINDEPTH
      | SM_LidUResult.SM_INFIL => result := lidUnit.waterBalance_infil * m.UCF RAINDEPTH
      | SM_LidUResult.SM_SURFFLOW => result := lidUnit.waterBalance_surfFlow * m.UCF RAINDEPTH
      | SM_LidUResult.SM_DRAINFLOW => result := lidUnit.waterBalance_drainFlow * m.UCF RAINDEPTH
      | SM_LidUResult.SM_INITVOL => result := lidUnit.waterBalance_initVol * m.UCF RAINDEPTH
      | SM_LidUResult.SM_FINALVOL => result := lidUnit.waterBalance_finalVol * m.UCF RAINDEPTH
      | SM_LidUResult.SM_SURFDEPTH => result := lidUnit.surfaceDepth * m.UCF RAINDEPTH
      | SM_LidUResult.SM_PAVEDEPTH => result := lidUnit.paveDepth * m.UCF RAINDEPTH
      | SM_LidUResult.SM_SOILMOIST => result := lidUnit.soilMoisture
      | SM_LidUResult.SM_STORDEPTH => result := lidUnit.storageDepth * m.UCF RAINDEPTH
      | SM_LidUResult.SM_DRYTIME => result := lidUnit.dryTime
      | SM_LidUResult.SM_OLDDRAINFLOW => result := lidUnit.oldDrainFlow * m.UCF FLOW
      | SM_LidUResult.SM_NEWDRAINFLOW => result := lidUnit.newDrainFlow * m.UCF FLOW
      | SM_LidUResult.SM_EVAPRATE => result := lidUnit.waterRate_evap * m.UCF RAINFALL
      | SM_LidUResult.SM_NATIVEINFIL => result := lidUnit.waterRate_maxNativeInfil * m.UCF RAINFALL
      | SM_LidUResult.SM_SURFINFLOW => result := lidUnit.waterRate_surfaceInflow * m.UCF RAINFALL
      | SM_LidUResult.SM_SURFINFIL => result := lidUnit.waterRate_surfaceInfil * m.UCF RAINFALL
      | SM_LidUResult.SM_SURFEVAP => result := lidUnit.waterRate_surfaceEvap * m.UCF RAINFALL
      | SM_LidUResult.SM_SURFOUTFLOW => result := lidUnit.waterRate_surfaceOutflow * m.UCF RAINFALL
      | SM_LidUResult.SM_PAVEEVAP => result := lidUnit.waterRate_paveEvap * m.UCF RAINFALL
      | SM_LidUResult.SM_PAVEPERC => result := lidUnit.waterRate_pavePerc * m.UCF RAINFALL
      | SM_LidUResult.SM_SOILEVAP => result := lidUnit.waterRate_soilEvap * m.UCF RAINFALL
      | SM_LidUResult.SM_SOILPERC => result := lidUnit.waterRate_soilPerc * m.UCF RAINFALL
      | SM_LidUResult.SM_STORAGEINFLOW => result := lidUnit.waterRate_storageInflow * m.UCF RAINFALL
      | SM_LidUResult.SM_STORAGEEXFIL => result := lidUnit.waterRate_storageExfil * m.UCF RAINFALL
      | SM_LidUResult.SM_STORAGEEVAP => result := lidUnit.waterRate_storageEvap * m.UCF RAINFALL
      | SM_LidUResult.SM_STORAGEDRAIN => result := lidUnit.waterRate_storageDrain * m.UCF RAINFALL
      | _ => errcode := ERR_API_OUTBOUNDS
    | none => pure ()
  return (errcode, result)

/-! ## Statistics -/

/-- Node statistics as handed to the caller (`SM_NodeStats`): the fields that
`swmm_getNodeStats` converts. -/
structure SM_NodeStats where
  avgDepth : ℚ := 0
  maxDepth : ℚ := 0
  maxLatFlow : ℚ := 0
  maxInflow : ℚ := 0
  totLatFlow : ℚ := 0
  timeCourantCritical : ℚ := 0
  volFlooded : ℚ := 0
  timeFlooded : ℚ := 0
  maxOverflow : ℚ := 0
  maxPondedVol : ℚ := 0
  timeSurcharged : ℚ := 0
  deriving DecidableEq

/-- Storage node statistics (`SM_StorageStats`). -/
structure SM_StorageStats where
  initVol : ℚ := 0
  avgVol : ℚ := 0
  maxVol : ℚ := 0
  maxFlow : ℚ := 0
  evapLosses : ℚ := 0
  exfilLosses : ℚ := 0
  deriving DecidableEq

/-- Outfall statistics (`SM_OutfallStats`). `totalLoad` is the array the
pointer designates, as a function of the integer index (beyond the allocated
entries it is what the memory holds there). -/
structure SM_OutfallStats where
  avgFlow : ℚ := 0
  maxFlow : ℚ := 0
  totalLoad : Int → ℚ := fun _ => 0
  totalPeriods : Int := 0

/-- Pump statistics (`SM_PumpStats`): the fields that `swmm_getPumpStats`
converts, and the number of periods. -/
structure SM_PumpStats where
  minFlow : ℚ := 0
  avgFlow : ℚ := 0
  maxFlow : ℚ := 0
  volume : ℚ := 0
  totalPeriods : Int := 0
  deriving DecidableEq

/-- The function `swmm_getNodeStats`. `stats_getNodeStat` (stats.c) is a
parameter: from the model, the index and the prior content of the caller's
structure it gives its status and the content it leaves. The division by
`(double)StepCount` stands in the source without any test. -/
def swmm_getNodeStats (stats_getNodeStat : Model → Int → SM_NodeStats → ErrorCode × SM_NodeStats)
    (m : Model) (index : Int) (nodeStats : SM_NodeStats) : Traced (ErrorCode × SM_NodeStats) := do
  let (errorcode, fetched) := stats_getNodeStat m index nodeStats
  let mut nodeStats := fetched
  if errorcode = ERR_NONE then
    -- Current Average Depth
    let f ← fdiv (m.UCF LENGTH) (m.StepCount : ℚ)
    nodeStats := { nodeStats with avgDepth := nodeStats.avgDepth * f }
    nodeStats := { nodeStats with maxDepth := nodeStats.maxDepth * m.UCF LENGTH }
    nodeStats := { nodeStats with maxLatFlow := nodeStats.maxLatFlow * m.UCF FLOW }
    nodeStats := { nodeStats with maxInflow := nodeStats.maxInflow * m.UCF FLOW }
    nodeStats := { nodeStats with totLatFlow := nodeStats.totLatFlow * m.UCF VOLUME }
    let t1 ← fdiv nodeStats.timeCourantCritical 3600
    nodeStats := { nodeStats with timeCourantCritical := t1 }
    nodeStats := { nodeStats with volFlooded := nodeStats.volFlooded * m.UCF VOLUME }
    let t2 ← fdiv nodeStats.timeFlooded 3600
    nodeStats := { nodeStats with timeFlooded := t2 }
    nodeStats := { nodeStats with maxOverflow := nodeStats.maxOverflow * m.UCF FLOW }
    nodeStats := { nodeStats with maxPondedVol := nodeStats.maxPondedVol * m.UCF VOLUME }
    let t3 ← fdiv nodeStats.timeSurcharged 3600
    nodeStats := { nodeStats with timeSurcharged := t3 }
  return (errorcode, nodeStats)

/-- The function `swmm_getStorageStats`; `stats_getStorageStat` is a parameter.
The division by `(double)StepCount` stands in the source without any test. -/
def swmm_getStorageStats
    (stats_getStorageStat : Model → Int → SM_StorageStats → ErrorCode × SM_StorageStats)
    (m : Model) (index : Int) (storageStats : SM_StorageStats) :
    Traced (ErrorCode × SM_StorageStats) := do
  let (errorcode, fetched) := stats_getStorageStat m index storageStats
  let mut storageStats := fetched
  if errorcode = ERR_NONE then
    storageStats := { storageStats with initVol := storageStats.initVol * m.UCF VOLUME }
    -- Current Average Volume
    let f ← fdiv (m.UCF VOLUME) (m.StepCount : ℚ)
    storageStats := { storageStats with avgVol := storageStats.avgVol * f }
    storageStats := { storageStats with maxVol := storageStats.maxVol * m.UCF VOLUME }
    storageStats := { storageStats with maxFlow := storageStats.maxFlow * m.UCF FLOW }
    storageStats := { storageStats with evapLosses := storageStats.evapLosses * m.UCF VOLUME }
    storageStats := { storageStats with exfilLosses := storageStats.exfilLosses * m.UCF VOLUME }
  return (errorcode, storageStats)

/-- The loop `for (p = 0; p < Nobjects[POLLUT]; p++) totalLoad[p] *= (LperFT3 *
Pollut[p].mcf);` of `swmm_getOutfallStats`, for `n` pollutants. -/
def scaleTotalLoad (LperFT3 : ℚ) (Pollut : Int → TPollut) (n : Nat) (totalLoad : Int → ℚ) :
    Int → ℚ :=
  (List.range n).foldl
    (fun load p => Function.update load (p : Int) (load p * (LperFT3 * (Pollut p).mcf))) totalLoad

/-- The function `swmm_getOutfallStats`. `stats_getOutfallStat` (stats.c), the
constants `LperFT3` and `COUNT` and the macro `LOG10` are parameters. The `for`
statement has no braces, so its body is the one multiplication; the `if` on
`Pollut[p].units` that follows is executed once, after the loop, with `p` equal
to `Nobjects[POLLUT]`. -/
def swmm_getOutfallStats (LperFT3 : ℚ) (COUNT : Int) (LOG10 : ℚ → ℚ)
    (stats_getOutfallStat : Model → Int → SM_OutfallStats → ErrorCode × SM_OutfallStats)
    (m : Model) (index : Int) (outfallStats : SM_OutfallStats) :
    Traced (ErrorCode × SM_OutfallStats) := do
  let (errorcode, fetched) := stats_getOutfallStat m index outfallStats
  let mut outfallStats := fetched
  if errorcode = ERR_NONE then
    -- Current Average Flow
    if outfallStats.totalPeriods > 0 then
      let f ← fdiv (m.UCF FLOW) (outfallStats.totalPeriods : ℚ)
      outfallStats := { outfallStats with avgFlow := outfallStats.avgFlow * f }
    else
      outfallStats := { outfallStats with avgFlow := outfallStats.avgFlow * 0 }
    -- Current Maximum Flow
    outfallStats := { outfallStats with maxFlow := outfallStats.maxFlow * m.UCF FLOW }
    -- Convert Mass Units
    if m.Nobjects_POLLUT > 0 then
      let scaled := scaleTotalLoad LperFT3 m.Pollut m.Nobjects_POLLUT.toNat outfallStats.totalLoad
      outfallStats := { outfallStats with totalLoad := scaled }
      let p := m.Nobjects_POLLUT
      if (m.Pollut p).units = COUNT then
        let logged := Function.update outfallStats.totalLoad p (LOG10 (outfallStats.totalLoad p))
        outfallStats := { outfallStats with totalLoad := logged }
  return (errorcode, outfallStats)

/-- The function `swmm_getPumpStats`; `stats_getPumpStat` is a parameter. -/
def swmm_getPumpStats (stats_getPumpStat : Model → Int → SM_PumpStats → ErrorCode × SM_PumpStats)
    (m : Model) (index : Int) (pumpStats : SM_PumpStats) : Traced (ErrorCode × SM_PumpStats) := do
  let (errorcode, fetched) := stats_getPumpStat m index pumpStats
  let mut pumpStats := fetched
  if errorcode = ERR_NONE then
    -- Cumulative Minimum Flow
    pumpStats := { pumpStats with minFlow := pumpStats.minFlow * m.UCF FLOW }
    -- Cumulative Average Flow
    if pumpStats.totalPeriods > 0 then
      let f ← fdiv (m.UCF FLOW) (pumpStats.totalPeriods : ℚ)
      pumpStats := { pumpStats with avgFlow := pumpStats.avgFlow * f }
    else
      pumpStats := { pumpStats with avgFlow := pumpStats.avgFlow * 0 }
    -- Cumulative Maximum Flow
    pumpStats := { pumpStats with maxFlow := pumpStats.maxFlow * m.UCF FLOW }
    -- Cumulative Pumping Volume
    pumpStats := { pumpStats with volume := pumpStats.volume * m.UCF VOLUME }
  return (errorcode, pumpStats)

/-! ## Object lookup and simulation dates -/

/-- The function `swmm_project_findObject`. `project_findObject` (project.c) is
a parameter. `index` is the prior content of the caller's variable. When the
object is not found the source assigns `NULL` to its own copy of the pointer
(`index = NULL;`) and stores nothing through it. -/
def swmm_project_findObject (project_findObject : Model → Int → String → Int) (m : Model)
    (type : Int) (id : String) (index : Int) : ErrorCode × Int := Id.run do
  let mut errorcode := ERR_NONE
  let mut index := index
  let idx := project_findObject m type id
  if idx = -1 then
    errorcode := ERR_API_OBJECT_INDEX
  else
    index := idx
  return (errorcode, index)

/-- The function `swmm_getObjectIndex`; `project_findObject` is a parameter. -/
def swmm_getObjectIndex (project_findObject : Model → Int → String → Int) (m : Model)
    (type : Int) (id : String) (index : Int) : ErrorCode × Int := Id.run do
  let mut error := ERR_NONE
  let mut index := index
  -- Check if Open
  if m.IsOpenFlag = true then
    index := project_findObject m type id
  else
    error := ERR_API_INPUTNOTOPEN
  return (error, index)

/-- The function `swmm_getObjectId`. `type` is the integer the caller passes:
it indexes `Nobjects` as it is, and `label` (the values of `SM_ObjectType` in
toolkitAPI.h, which is not part of the source file) tells which case label of
the `switch` it equals. `id` is the prior content of the caller's buffer. -/
def swmm_getObjectId (label : Int → SM_ObjectType) (m : Model) (type index : Int) (id : String) :
    ErrorCode × String := Id.run do
  let mut errcode := ERR_NONE
  let mut id := id
  -- Provide Empty Character Array
  id := ""
  -- Check if Open
  if m.IsOpenFlag = false then
    errcode := ERR_API_INPUTNOTOPEN
  -- Check if object index is within bounds
  else if index < 0 ∨ index ≥ m.Nobjects type then
    errcode := ERR_API_OBJECT_INDEX
  else
    match label type with
    | SM_ObjectType.SM_GAGE => id := m.ID SM_ObjectType.SM_GAGE index
    | SM_ObjectType.SM_SUBCATCH => id := m.ID SM_ObjectType.SM_SUBCATCH index
    | SM_ObjectType.SM_NODE => id := m.ID SM_ObjectType.SM_NODE index
    | SM_ObjectType.SM_LINK => id := m.ID SM_ObjectType.SM_LINK index
    | SM_ObjectType.SM_POLLUT => id := m.ID SM_ObjectType.SM_POLLUT index
    | SM_ObjectType.SM_LANDUSE => id := m.ID SM_ObjectType.SM_LANDUSE index
    | SM_ObjectType.SM_TIMEPATTERN => id := m.ID SM_ObjectType.SM_TIMEPATTERN index
    | SM_ObjectType.SM_CURVE => id := m.ID SM_ObjectType.SM_CURVE index
    | SM_ObjectType.SM_TSERIES => id := m.ID SM_ObjectType.SM_TSERIES index
    | SM_ObjectType.SM_TRANSECT => id := m.ID SM_ObjectType.SM_TRANSECT index
    | SM_ObjectType.SM_AQUIFER => id := m.ID SM_ObjectType.SM_AQUIFER index
    | SM_ObjectType.SM_UNITHYD => id := m.ID SM_ObjectType.SM_UNITHYD index
    | SM_ObjectType.SM_SNOWMELT => id := m.ID SM_ObjectType.SM_SNOWMELT index
    | SM_ObjectType.SM_LID =>
      match m.LidProcID index with
      | some lidProcID => id := lidProcID
      | none => pure ()
    | SM_ObjectType.unlisted => errcode := ERR_API_OUTBOUNDS
  return (errcode, id)

/-- The function `swmm_getSimulationDateTime`. `datetime_decodeDate` and
`datetime_decodeTime` (datetime.c) are parameters, giving (year, month, day)
and (hour, minute, second) of a date. The arguments after `timetype` are the
prior contents of the six outputs; the result is the status and their contents
after the call. For a time type that is none of the labels the source returns
at once. -/
def swmm_getSimulationDateTime (datetime_decodeDate datetime_decodeTime : ℚ → Int × Int × Int)
    (m : Model) (timetype : SM_TimeType) (year month day hour minute second : Int) :
    ErrorCode × Int × Int × Int × Int × Int × Int := Id.run do
  let mut errcode := ERR_NONE
  let mut year := year
  let mut month := month
  let mut day := day
  let mut hour := hour
  let mut minute := minute
  let mut second := second
  year := 1900
  month := 1
  day := 1
  hour := 0
  minute := 0
  second := 0
  -- Check if Open
  if m.IsOpenFlag = false then
    errcode := ERR_API_INPUTNOTOPEN
  else
    let mut _dtime : ℚ := 0
    match timetype with
    | SM_TimeType.SM_STARTDATE => _dtime := m.StartDateTime
    | SM_TimeType.SM_ENDDATE => _dtime := m.EndDateTime
    | SM_TimeType.SM_REPORTDATE => _dtime := m.ReportStart
    | SM_TimeType.unlisted => return (ERR_API_OUTBOUNDS, year, month, day, hour, minute, second)
    let (y, mo, d) := datetime_decodeDate _dtime
    year := y
    month := mo
    day := d
    let (h, mi, s) := datetime_decodeTime _dtime
    hour := h
    minute := mi
    second := s
  return (errcode, year, month, day, hour, minute, second)

/-- The function `swmm_getCurrentDateTimeStr`. `getDateTime` (swmm5.c),
`datetime_dateToStr` and `datetime_timeToStr` (datetime.c) are parameters.
`dtimestr` is the prior content of the caller's buffer. The function tests the
started flag and no other. -/
def swmm_getCurrentDateTimeStr (getDateTime : ℚ → ℚ)
    (datetime_dateToStr datetime_timeToStr : ℚ → String) (m : Model) (dtimestr : String) :
    ErrorCode × String := Id.run do
  -- Check if Simulation is Running
  if m.IsStartedFlag = false then
    return (ERR_API_SIM_NRUNNING, dtimestr)
  -- Fetch Current Time
  let currentTime := getDateTime m.NewRoutingTime
  -- Convert To Char
  let theDate := datetime_dateToStr currentTime
  let theTime := datetime_timeToStr currentTime
  let _DTimeStr := theDate ++ " " ++ theTime
  return (ERR_NONE, _DTimeStr)

/-- A model that is open and not started, with unit factors 3 for length, 5 for
flow and 2 otherwise, one gage, one subcatchment carrying one LID unit, two
nodes and one link, and the LID control of `sampleProject`. -/
def sampleModel : Model :=
  { toProject := { sampleProject with UCF := fun u => match u with | LENGTH => 3 | FLOW => 5 | _ => 2 }
    IsStartedFlag := false
    Nobjects_GAGE := 1
    Nobjects_SUBCATCH := 1
    Nobjects_NODE := 2
    Nobjects_LINK := 1
    Gage := fun _ => {}
    Subcatch := fun _ => { width := 100, area := 5, fracImperv := 1 / 4, slope := 1 / 100 }
    Node := fun _ => { invertElev := 10, fullDepth := 5 }
    Link := fun _ => { offset1 := 1, q0 := 2 }
    Outfall := fun _ => {}
    LidUnits := fun i k => if i = 0 ∧ k = 0 then some { area := 50, fullWidth := 5 } else none
    RptFlags_controls := false
    NewRoutingTime := 0
    controlActions := [] }

/-- The sample model once the simulation has started. -/
def startedModel : Model := { sampleModel with IsStartedFlag := true }

/-- The re-validation of a subcatchment or LID group that changes nothing. -/
def keepModel : Int → Model → Model := fun _ m => m

/-- A re-validation of a LID control that leaves a trace of each call: it adds
1 to the field `alpha` of the surface layer of the control, a field that
`swmm_setLidCParam` never writes. -/
def countingValidate : Int → Project → Project := fun j pr =>
  let lidProc := pr.LidProcs j
  let counted := { lidProc with surface.alpha := lidProc.surface.alpha + 1 }
  { pr with LidProcs := Function.update pr.LidProcs j counted }

/-- The sample model before it is opened. -/
def closedModel : Model := { sampleModel with IsOpenFlag := false }

/-- A re-validation of a subcatchment or LID group that leaves a line in the
report for each call (index of the object, rule name "validate"). -/
def loggingValidate : Int → Model → Model := fun j m =>
  { m with controlActions := m.controlActions ++ [⟨0, j, 0, "validate"⟩] }

/-- The status that the sample look-up of LID units reports for a missing
unit. -/
def undefinedLid : Int → Int → ErrorCode := fun _ _ => ERR_API_UNDEFINED_LID

/-- The started sample model with five gages, each fed by a time series (data
source 0), not in use and with co-gage 3. -/
def fiveGageModel : Model :=
  { startedModel with Nobjects_GAGE := 5, Gage := fun _ => { dataSource := 0, coGage := 3 } }

/-- The sample model with eleven nodes, none of which has an external inflow,
node 1 being of type 1 with outfall record 0. -/
def elevenNodeModel : Model :=
  { sampleModel with Nobjects_NODE := 11, Node := fun j => if j = 1 then { type := 1 } else {} }

/-- The behaviour of `inflow_setExtInflow` assumed when a node has no record
for the constituent yet: it succeeds and puts a new record with the given
fields, and no interface inflow so far, at the head of the list of the node. -/
def prependExtInflow :
    Int → Int → Int → Int → Int → ℚ → ℚ → ℚ → Model → ErrorCode × Model :=
  fun index param type tSeries basePat cf baseline sf m =>
    let inflow : TExtInflow := ⟨param, type, tSeries, basePat, cf, baseline, sf, 0⟩
    let node := m.Node index
    let node1 := { node with extInflow := inflow :: node.extInflow }
    (ERR_NONE, { m with Node := Function.update m.Node index node1 })

/-- A statistics fetch that succeeds and hands over the given record. -/
def fetched {α : Type} (stats : α) : Model → Int → α → ErrorCode × α :=
  fun _ _ _ => (ERR_NONE, stats)

/-- The started sample model before its first routing step: the step count is
0. -/
def noStepModel : Model := { startedModel with StepCount := 0 }

/-- The started sample model after ten routing steps. -/
def tenStepModel : Model := { startedModel with StepCount := 10 }

/-- The sample model with a count table that holds 2 at offset 2 and 0 at the
other offsets from 0 on, the memory before the table (offset -1) holding 7. -/
def countModel : Model :=
  { sampleModel with Nobjects := fun t => if t = -1 then 7 else if t = 2 then 2 else 0 }

/-- The model `countModel` before it is opened. -/
def closedCountModel : Model := { countModel with IsOpenFlag := false }

/-- A name lookup that finds every object at index 4. -/
def foundAtFour : Model → Int → String → Int := fun _ _ _ => 4

/-- A name lookup that finds nothing. -/
def notFound : Model → Int → String → Int := fun _ _ _ => -1

/-- The behaviour of `link_setSetting` for a link without a gate of its own:
the setting becomes the target setting. -/
def applySetting : Int → ℚ → Model → Model := fun j _ m =>
  let link := m.Link j
  let link1 := { link with setting := link.targetSetting }
  { m with Link := Function.update m.Link j link1 }

/-- The started sample model with control actions reported. -/
def reportingModel : Model := { startedModel with RptFlags_controls := true }

/-- The sample model whose nodes have three external inflows: one for
pollutant 0 with interface inflow 4, then two flow records with interface
inflows 2 and 3. -/
def pollutantFirstModel : Model :=
  { sampleModel with
    Node := fun _ => { extInflow := [⟨0, 1, -1, -1, 1, 0, 1, 4⟩, ⟨-1, 1, -1, -1, 1, 0, 1, 2⟩, ⟨-1, 1, -1, -1, 1, 0, 1, 3⟩] } }

/-- The started sample model with one pollutant, measured in counts (units 2,
mass conversion factor 3); the memory behind the pollutant table holds units 0
and factor 1. -/
def onePollutantModel : Model :=
  { startedModel with
    Nobjects_POLLUT := 1
    Pollut := fun p => if p = 0 then { units := 2, mcf := 3 } else { units := 0, mcf := 1 } }

/-- The model `onePollutantModel` with the memory behind the pollutant table
holding units 2. -/
def strayPollutantModel : Model :=
  { startedModel with Nobjects_POLLUT := 1, Pollut := fun _ => { units := 2, mcf := 3 } }

/-- Outfall statistics as fetched for one pollutant: accumulated flow 12 over 4
periods and a load of 10 for pollutant 0, the memory behind the one entry of
the load array holding 50. -/
def sampleOutfallStats : SM_OutfallStats :=
  { avgFlow := 12, totalPeriods := 4, totalLoad := fun p => if p = 0 then 10 else 50 }

/-! ## Binary64 arithmetic

The definitions above take a C `double` as an exact rational number. The
definitions of this section repeat the accessors whose results depend on
rounding with a rounding function `rnd` applied to the result of every
arithmetic operation on doubles, in the order in which the source evaluates
them: `rnd = binary64` is the arithmetic of IEEE 754 doubles (each operation
rounded to nearest, ties to even, no fused operation), `rnd = id` the exact
arithmetic of the definitions above. -/

/-- The function `swmm_getLidCParam` with every arithmetic result rounded by
`rnd`. -/
def swmm_getLidCParam_fp (rnd : ℚ → ℚ) (pr : Project) (lidControlIndex : Int)
    (layerIndex : SM_LidLayer) (param : SM_LidLayerProperty) (value : ℚ) : ErrorCode × ℚ :=
  -- Check if Open
  if pr.IsOpenFlag = false then
    (ERR_API_INPUTNOTOPEN, value)
  -- Check if index is within bounds
  else if lidControlIndex < 0 ∨ lidControlIndex ≥ pr.Nobjects_LID then
    (ERR_API_OBJECT_INDEX, value)
  else
    let lidProc := pr.LidProcs lidControlIndex
    match layerIndex with
    | SM_SURFACE =>
      match param with
      | SM_THICKNESS => (ERR_NONE, rnd (lidProc.surface.thickness * pr.UCF RAINDEPTH))
      | SM_VOIDFRAC => (ERR_NONE, rnd (1 - lidProc.surface.voidFrac))
      | SM_ROUGHNESS => (ERR_NONE, lidProc.surface.roughness)
      | SM_SURFSLOPE => (ERR_NONE, rnd (lidProc.surface.surfSlope * 100))
      | SM_SIDESLOPE => (ERR_NONE, lidProc.surface.sideSlope)
      | SM_ALPHA => (ERR_NONE, lidProc.surface.alpha)
      | _ => (ERR_API_OUTBOUNDS, value)
    | SM_SOIL =>
      match param with
      | SM_THICKNESS => (ERR_NONE, rnd (lidProc.soil.thickness * pr.UCF RAINDEPTH))
      | SM_POROSITY => (ERR_NONE, lidProc.soil.porosity)
      | SM_FIELDCAP => (ERR_NONE, lidProc.soil.fieldCap)
      | SM_WILTPOINT => (ERR_NONE, lidProc.soil.wiltPoint)
      | SM_KSAT => (ERR_NONE, rnd (lidProc.soil.kSat * pr.UCF RAINFALL))
      | SM_KSLOPE => (ERR_NONE, lidProc.soil.kSlope)
      | SM_SUCTION => (ERR_NONE, rnd (lidProc.soil.suction * pr.UCF RAINDEPTH))
      | _ => (ERR_API_OUTBOUNDS, value)
    | SM_STOR =>
      match param with
      | SM_THICKNESS => (ERR_NONE, rnd (lidProc.storage.thickness * pr.UCF RAINDEPTH))
      | SM_VOIDFRAC =>
        if lidProc.storage.voidFrac < 1 then
          (ERR_NONE, rnd (lidProc.storage.voidFrac / rnd (1 - lidProc.storage.voidFrac)))
        else
          (ERR_NONE, lidProc.storage.voidFrac)
      | SM_KSAT => (ERR_NONE, rnd (lidProc.storage.kSat * pr.UCF RAINFALL))
      | SM_CLOGFACTOR =>
        if lidProc.storage.thickness > 0 then
          (ERR_NONE, rnd (lidProc.storage.clogFactor /
            rnd (lidProc.storage.thickness * lidProc.storage.voidFrac)))
        else
          -- `*value = lidProc->pavement.clogFactor;` and, there being no
          -- `break`, on into `default: errcode = ERR_API_OUTBOUNDS; break;`
          (ERR_API_OUTBOUNDS, lidProc.pavement.clogFactor)
      | _ => (ERR_API_OUTBOUNDS, value)
    | SM_PAVE =>
      match param with
      | SM_THICKNESS => (ERR_NONE, rnd (lidProc.pavement.thickness * pr.UCF RAINDEPTH))
      | SM_VOIDFRAC =>
        if lidProc.pavement.voidFrac < 1 then
          (ERR_NONE, rnd (lidProc.pavement.voidFrac / rnd (1 - lidProc.pavement.voidFrac)))
        else
          (ERR_NONE, lidProc.pavement.voidFrac)
      | SM_IMPERVFRAC => (ERR_NONE, lidProc.pavement.impervFrac)
      | SM_KSAT => (ERR_NONE, rnd (lidProc.pavement.kSat * pr.UCF RAINFALL))
      | SM_CLOGFACTOR =>
        if lidProc.pavement.thickness > 0 then
          (ERR_NONE, rnd (lidProc.pavement.clogFactor /
            rnd (rnd (lidProc.pavement.thickness * lidProc.pavement.voidFrac) *
              rnd (1 - lidProc.pavement.impervFrac))))
        else
          -- `*value = lidProc->pavement.clogFactor;` and, there being no
          -- `break`, on into `case SM_REGENDAYS:`, which overwrites `*value`
          (ERR_NONE, lidProc.pavement.regenDays)
      | SM_REGENDAYS => (ERR_NONE, lidProc.pavement.regenDays)
      | SM_REGENDEGREE => (ERR_NONE, lidProc.pavement.regenDegree)
      | _ => (ERR_API_OUTBOUNDS, value)
    | SM_DRAIN =>
      match param with
      | SM_COEFF => (ERR_NONE, lidProc.drain.coeff)
      | SM_EXPON => (ERR_NONE, lidProc.drain.expon)
      | SM_OFFSET => (ERR_NONE, rnd (lidProc.drain.offset * pr.UCF RAINDEPTH))
      | SM_DELAY => (ERR_NONE, rnd (lidProc.drain.delay / 3600))
      | SM_HOPEN => (ERR_NONE, rnd (lidProc.drain.hOpen * pr.UCF RAINDEPTH))
      | SM_HCLOSE => (ERR_NONE, rnd (lidProc.drain.hClose * pr.UCF RAINDEPTH))
      | _ => (ERR_API_OUTBOUNDS, value)
    | SM_DRAINMAT =>
      match param with
      | SM_THICKNESS => (ERR_NONE, rnd (lidProc.drainMat.thickness * pr.UCF RAINDEPTH))
      | SM_VOIDFRAC => (ERR_NONE, lidProc.drainMat.voidFrac)
      | SM_ROUGHNESS => (ERR_NONE, lidProc.drainMat.roughness)
      | SM_ALPHA => (ERR_NONE, lidProc.drainMat.alpha)
      | _ => (ERR_API_OUTBOUNDS, value)
    | _ => (ERR_API_OUTBOUNDS, value)

/-- The layer writes of `swmm_setLidCParam` (its two nested `switch`
statements) with every arithmetic result rounded by `rnd`: the status and the
record that the writes through `lidProc` leave. A compound assignment
`a /= b; ...; a *= c` is two rounded operations, the quotient being stored in
between. -/
def setLidCParam_layers_fp (rnd : ℚ → ℚ) (pr : Project) (lidProc : TLidProc)
    (layerIndex : SM_LidLayer) (param : SM_LidLayerProperty) (value : ℚ) :
    ErrorCode × TLidProc :=
  match layerIndex with
  | SM_SURFACE =>
    match param with
    | SM_THICKNESS =>
      (ERR_NONE, { lidProc with surface.thickness := rnd (value / pr.UCF RAINDEPTH) })
    | SM_VOIDFRAC => (ERR_NONE, { lidProc with surface.voidFrac := rnd (1 - value) })
    | SM_ROUGHNESS => (ERR_NONE, { lidProc with surface.roughness := value })
    | SM_SURFSLOPE => (ERR_NONE, { lidProc with surface.surfSlope := rnd (value / 100) })
    | SM_SIDESLOPE => (ERR_NONE, { lidProc with surface.sideSlope := value })
    | _ => (ERR_API_OUTBOUNDS, lidProc)
  | SM_SOIL =>
    match param with
    | SM_THICKNESS => (ERR_NONE, { lidProc with soil.thickness := rnd (value / pr.UCF RAINDEPTH) })
    | SM_POROSITY => (ERR_NONE, { lidProc with soil.porosity := value })
    | SM_FIELDCAP => (ERR_NONE, { lidProc with soil.fieldCap := value })
    | SM_WILTPOINT => (ERR_NONE, { lidProc with soil.wiltPoint := value })
    | SM_KSAT => (ERR_NONE, { lidProc with soil.kSat := rnd (value / pr.UCF RAINFALL) })
    | SM_KSLOPE => (ERR_NONE, { lidProc with soil.kSlope := value })
    | SM_SUCTION => (ERR_NONE, { lidProc with soil.suction := rnd (value / pr.UCF RAINDEPTH) })
    | _ => (ERR_API_OUTBOUNDS, lidProc)
  | SM_STOR =>
    match param with
    | SM_THICKNESS =>
      if lidProc.storage.thickness > 0 then
        let c := rnd (lidProc.storage.clogFactor / lidProc.storage.thickness)
        let t := rnd (value / pr.UCF RAINDEPTH)
        (ERR_NONE, { lidProc with storage.thickness := t, storage.clogFactor := rnd (c * t) })
      else
        (ERR_NONE, { lidProc with storage.thickness := rnd (value / pr.UCF RAINDEPTH) })
    | SM_VOIDFRAC =>
      if lidProc.storage.voidFrac > 0 then
        let c := rnd (lidProc.storage.clogFactor / lidProc.storage.voidFrac)
        let v := rnd (value / rnd (value + 1))
        (ERR_NONE, { lidProc with storage.voidFrac := v, storage.clogFactor := rnd (c * v) })
      else
        (ERR_NONE, { lidProc with storage.voidFrac := rnd (value / rnd (value + 1)) })
    | SM_KSAT => (ERR_NONE, { lidProc with storage.kSat := rnd (value / pr.UCF RAINFALL) })
    | SM_CLOGFACTOR =>
      let c := rnd (rnd (value * lidProc.storage.thickness) * lidProc.storage.voidFrac)
      (ERR_NONE, { lidProc with storage.clogFactor := c })
    | _ => (ERR_API_OUTBOUNDS, lidProc)
  | SM_PAVE =>
    match param with
    | SM_THICKNESS =>
      if lidProc.pavement.thickness > 0 then
        let c := rnd (lidProc.pavement.clogFactor / lidProc.pavement.thickness)
        let t := rnd (value / pr.UCF RAINDEPTH)
        (ERR_NONE, { lidProc with pavement.thickness := t, pavement.clogFactor := rnd (c * t) })
      else
        (ERR_NONE, { lidProc with pavement.thickness := rnd (value / pr.UCF RAINDEPTH) })
    | SM_VOIDFRAC =>
      if lidProc.pavement.voidFrac > 0 then
        let c := rnd (lidProc.pavement.clogFactor / lidProc.pavement.voidFrac)
        let v := rnd (value / rnd (value + 1))
        (ERR_NONE, { lidProc with pavement.voidFrac := v, pavement.clogFactor := rnd (c * v) })
      else
        (ERR_NONE, { lidProc with pavement.voidFrac := rnd (value / rnd (value + 1)) })
    | SM_IMPERVFRAC =>
      if lidProc.pavement.impervFrac > 0 then
        let c := rnd (lidProc.pavement.clogFactor / rnd (1 - lidProc.pavement.impervFrac))
        (ERR_NONE, { lidProc with pavement.impervFrac := value,
                                  pavement.clogFactor := rnd (c * rnd (1 - value)) })
      else
        (ERR_NONE, { lidProc with pavement.impervFrac := value })
    | SM_KSAT => (ERR_NONE, { lidProc with pavement.kSat := rnd (value / pr.UCF RAINFALL) })
    | SM_CLOGFACTOR =>
      let c := rnd (rnd (rnd (value * lidProc.pavement.thickness) * lidProc.pavement.voidFrac) *
        rnd (1 - lidProc.pavement.impervFrac))
      (ERR_NONE, { lidProc with pavement.clogFactor := c })
    | SM_REGENDAYS => (ERR_NONE, { lidProc with pavement.regenDays := value })
    | SM_REGENDEGREE => (ERR_NONE, { lidProc with pavement.regenDegree := value })
    | _ => (ERR_API_OUTBOUNDS, lidProc)
  | SM_DRAIN =>
    match param with
    | SM_COEFF => (ERR_NONE, { lidProc with drain.coeff := value })
    | SM_EXPON => (ERR_NONE, { lidProc with drain.expon := value })
    | SM_OFFSET => (ERR_NONE, { lidProc with drain.offset := rnd (value / pr.UCF RAINDEPTH) })
    | SM_DELAY => (ERR_NONE, { lidProc with drain.delay := rnd (value * 3600) })
    | SM_HOPEN => (ERR_NONE, { lidProc with drain.hOpen := rnd (value / pr.UCF RAINDEPTH) })
    | SM_HCLOSE => (ERR_NONE, { lidProc with drain.hClose := rnd (value / pr.UCF RAINDEPTH) })
    | _ => (ERR_API_OUTBOUNDS, lidProc)
  | SM_DRAINMAT =>
    match param with
    | SM_THICKNESS =>
      (ERR_NONE, { lidProc with drainMat.thickness := rnd (value / pr.UCF RAINDEPTH) })
    | SM_VOIDFRAC => (ERR_NONE, { lidProc with drainMat.voidFrac := value })
    | SM_ROUGHNESS => (ERR_NONE, { lidProc with drainMat.roughness := value })
    | _ => (ERR_API_OUTBOUNDS, lidProc)
  | _ => (ERR_API_OUTBOUNDS, lidProc)

/-- The function `swmm_setLidCParam` with every arithmetic result rounded by
`rnd`; `lid_validateLidProc` is a parameter as before. -/
def swmm_setLidCParam_fp (rnd : ℚ → ℚ) (lid_validateLidProc : Int → Project → Project)
    (pr : Project) (lidControlIndex : Int) (layerIndex : SM_LidLayer)
    (param : SM_LidLayerProperty) (value : ℚ) : ErrorCode × Project :=
  -- Check if Open
  if pr.IsOpenFlag = false then
    (ERR_API_INPUTNOTOPEN, pr)
  -- Check if index is within bounds
  else if lidControlIndex < 0 ∨ lidControlIndex ≥ pr.Nobjects_LID then
    (ERR_API_OBJECT_INDEX, pr)
  else
    let written :=
      setLidCParam_layers_fp rnd pr (pr.LidProcs lidControlIndex) layerIndex param value
    let pr1 := { pr with LidProcs := Function.update pr.LidProcs lidControlIndex written.2 }
    if written.1 = ERR_NONE then
      (written.1, lid_validateLidProc lidControlIndex pr1)
    else
      (written.1, pr1)

/-- The macro `SQR(x)` with its product rounded by `rnd`. -/
def SQR_fp (rnd : ℚ → ℚ) (x : ℚ) : ℚ := rnd (x * x)

/-- The function `swmm_getNodeParam` with every arithmetic result rounded by
`rnd`. -/
def swmm_getNodeParam_fp (rnd : ℚ → ℚ) (m : Model) (index : Int) (Param : SM_NodeProperty)
    (value : ℚ) : ErrorCode × ℚ := Id.run do
  let mut errcode := ERR_NONE
  let mut value := value
  value := 0
  -- Check if Open
  if m.IsOpenFlag = false then
    errcode := ERR_API_INPUTNOTOPEN
  -- Check if object index is within bounds
  else if index < 0 ∨ index ≥ m.Nobjects_NODE then
    errcode := ERR_API_OBJECT_INDEX
  else
    match Param with
    | SM_INVERTEL => value := rnd ((m.Node index).invertElev * m.UCF LENGTH)
    | SM_FULLDEPTH => value := rnd ((m.Node index).fullDepth * m.UCF LENGTH)
    | SM_SURCHDEPTH => value := rnd ((m.Node index).surDepth * m.UCF LENGTH)
    | SM_PONDAREA => value := rnd (rnd ((m.Node index).pondedArea * m.UCF LENGTH) * m.UCF LENGTH)
    | SM_INITDEPTH => value := rnd ((m.Node index).initDepth * m.UCF LENGTH)
    | _ => errcode := ERR_API_OUTBOUNDS
  return (errcode, value)

/-- The function `swmm_setNodeParam` with every arithmetic result rounded by
`rnd`. -/
def swmm_setNodeParam_fp (rnd : ℚ → ℚ) (m : Model) (index : Int) (Param : SM_NodeProperty)
    (value : ℚ) : ErrorCode × Model := Id.run do
  let mut errcode := ERR_NONE
  let mut m := m
  -- Check if Open
  if m.IsOpenFlag = false then
    errcode := ERR_API_INPUTNOTOPEN
  -- Check if Simulation is Running
  else if m.IsStartedFlag = true then
    errcode := ERR_API_SIM_NRUNNING
  -- Check if object index is within bounds
  else if index < 0 ∨ index ≥ m.Nobjects_NODE then
    errcode := ERR_API_OBJECT_INDEX
  else
    match Param with
    | SM_INVERTEL =>
      let x := rnd (value / m.UCF LENGTH)
      m := { m with Node := Function.update m.Node index { m.Node index with invertElev := x } }
    | SM_FULLDEPTH =>
      let x := rnd (value / m.UCF LENGTH)
      m := { m with Node := Function.update m.Node index { m.Node index with fullDepth := x } }
    | SM_SURCHDEPTH =>
      let x := rnd (value / m.UCF LENGTH)
      m := { m with Node := Function.update m.Node index { m.Node index with surDepth := x } }
    | SM_PONDAREA =>
      let x := rnd (value / rnd (m.UCF LENGTH * m.UCF LENGTH))
      m := { m with Node := Function.update m.Node index { m.Node index with pondedArea := x } }
    | SM_INITDEPTH =>
      let x := rnd (value / m.UCF LENGTH)
      m := { m with Node := Function.update m.Node index { m.Node index with initDepth := x } }
    | _ => errcode := ERR_API_OUTBOUNDS
  return (errcode, m)

/-- The function `swmm_getSubcatchParam` with every arithmetic result rounded
by `rnd`. -/
def swmm_getSubcatchParam_fp (rnd : ℚ → ℚ) (m : Model) (index : Int) (Param : SM_SubcProperty)
    (value : ℚ) : ErrorCode × ℚ := Id.run do
  let mut errcode := ERR_NONE
  let mut value := value
  value := 0
  if m.IsOpenFlag = false then
    errcode := ERR_API_INPUTNOTOPEN
  else if index < 0 ∨ index ≥ m.Nobjects_SUBCATCH then
    errcode := ERR_API_OBJECT_INDEX
  else
    match Param with
    | SM_WIDTH => value := rnd ((m.Subcatch index).width * m.UCF LENGTH)
    | SM_AREA => value := rnd ((m.Subcatch index).area * m.UCF LANDAREA)
    | SM_FRACIMPERV => value := (m.Subcatch index).fracImperv
    | SM_SLOPE => value := (m.Subcatch index).slope
    | SM_CURBLEN => value := rnd ((m.Subcatch index).curbLength * m.UCF LENGTH)
    | _ => errcode := ERR_API_OUTBOUNDS
  return (errcode, value)

/-- The function `swmm_setSubcatchParam` with every arithmetic result rounded
by `rnd`; `subcatch_validate` is a parameter as before. -/
def swmm_setSubcatchParam_fp (rnd : ℚ → ℚ) (subcatch_validate : Int → Model → Model)
    (m : Model) (index : Int) (Param : SM_SubcProperty) (value : ℚ) : ErrorCode × Model :=
    Id.run do
  let mut errcode := ERR_NONE
  let mut m := m
  -- Check if Open
  if m.IsOpenFlag = false then
    errcode := ERR_API_INPUTNOTOPEN
  -- Check if Simulation is Running
  else if m.IsStartedFlag = true then
    errcode := ERR_API_SIM_NRUNNING
  -- Check if object index is within bounds
  else if index < 0 ∨ index ≥ m.Nobjects_SUBCATCH then
    errcode := ERR_API_OBJECT_INDEX
  else
    match Param with
    | SM_WIDTH =>
      let x := rnd (value / m.UCF LENGTH)
      m := { m with Subcatch := Function.update m.Subcatch index { m.Subcatch index with width := x } }
    | SM_AREA =>
      let x := rnd (value / m.UCF LANDAREA)
      m := { m with Subcatch := Function.update m.Subcatch index { m.Subcatch index with area := x } }
    | SM_FRACIMPERV => pure ()
    | SM_SLOPE =>
      m := { m with Subcatch :=
              Function.update m.Subcatch index { m.Subcatch index with slope := value } }
    | SM_CURBLEN =>
      let x := rnd (value / m.UCF LENGTH)
      m := { m with Subcatch :=
              Function.update m.Subcatch index { m.Subcatch index with curbLength := x } }
    | _ => errcode := ERR_API_OUTBOUNDS
    -- re-validate subcatchment
    m := subcatch_validate index m
  return (errcode, m)

/-- The function `swmm_getLidUParam` with every arithmetic result rounded by
`rnd`. -/
def swmm_getLidUParam_fp (rnd : ℚ → ℚ) (lidUnitError : Int → Int → ErrorCode) (m : Model)
    (index lidIndex : Int) (param : SM_LidUProperty) (value : ℚ) : ErrorCode × ℚ := Id.run do
  let mut errcode := ERR_NONE
  let mut value := value
  -- Check if Open
  if m.IsOpenFlag = false then
    errcode := ERR_API_INPUTNOTOPEN
  -- Check if subcatchment index is within bounds
  else if index < 0 ∨ index ≥ m.Nobjects_SUBCATCH then
    errcode := ERR_API_OBJECT_INDEX
  else
    let (found, e) := lid_getLidUnit lidUnitError m index lidIndex errcode
    errcode := e
    -- There are no Lid Units defined for the subcatchments
    match found with
    | some lidUnit =>
      match param with
      | SM_UNITAREA => value := rnd (lidUnit.area * SQR_fp rnd (m.UCF LENGTH))
      | SM_FWIDTH => value := rnd (lidUnit.fullWidth * m.UCF LENGTH)
      | SM_BWIDTH => value := rnd (lidUnit.botWidth * m.UCF LENGTH)
      | SM_INITSAT => value := rnd (lidUnit.initSat * 100)
      | SM_FROMIMPERV => value := rnd (lidUnit.fromImperv * 100)
      | _ => errcode := ERR_API_OUTBOUNDS
    | none => pure ()
  return (errcode, value)

/-- The function `swmm_setLidUParam` with every arithmetic result rounded by
`rnd`; `lid_validateLidGroup` is a parameter as before. -/
def swmm_setLidUParam_fp (rnd : ℚ → ℚ) (lidUnitError : Int → Int → ErrorCode)
    (lid_validateLidGroup : Int → Model → Model) (m : Model) (index lidIndex : Int)
    (Param : SM_LidUProperty) (value : ℚ) : ErrorCode × Model := Id.run do
  let mut errcode := ERR_NONE
  let mut m := m
  -- Check if Open
  if m.IsOpenFlag = false then
    errcode := ERR_API_INPUTNOTOPEN
  -- Check if subcatchment index is within bounds
  else if index < 0 ∨ index ≥ m.Nobjects_SUBCATCH then
    errcode := ERR_API_OBJECT_INDEX
  else
    let (found, e) := lid_getLidUnit lidUnitError m index lidIndex errcode
    errcode := e
    -- There are no Lid Units defined for the subcatchments
    match found with
    | some lidUnit =>
      let mut lidUnit := lidUnit
      match Param with
      | SM_UNITAREA =>
        let x := rnd (value / SQR_fp rnd (m.UCF LENGTH))
        lidUnit := { lidUnit with area := x }
      | SM_FWIDTH =>
        let x := rnd (value / m.UCF LENGTH)
        lidUnit := { lidUnit with fullWidth := x }
      | SM_BWIDTH =>
        let x := rnd (value / m.UCF LENGTH)
        lidUnit := { lidUnit with botWidth := x }
      | SM_INITSAT =>
        let x := rnd (value / 100)
        lidUnit := { lidUnit with initSat := x }
      | SM_FROMIMPERV =>
        let x := rnd (value / 100)
        lidUnit := { lidUnit with fromImperv := x }
      | _ => errcode := ERR_API_OUTBOUNDS
      let units := Function.update (m.LidUnits index) lidIndex (some lidUnit)
      m := { m with LidUnits := Function.update m.LidUnits index units }
      -- Validate Lid Unit
      m := lid_validateLidGroup index m
    | none => pure ()
  return (errcode, m)

theorem Traced.pure_eq {α : Type} (a : α) : (pure a : Traced α) = ⟨a, []⟩ := rfl

theorem Traced.bind_eq {α β : Type} (x : Traced α) (f : α → Traced β) :
    (x >>= f) = ⟨(f x.val).val, x.divisors ++ (f x.val).divisors⟩ := rfl

theorem index_in_range {i n : Int} (hi : 0 ≤ i ∧ i < n) : ¬ (i < 0 ∨ i ≥ n) := by
  omega

/-- C2, the code at the failing input: pavement thickness 1, void fraction 0.5,
impervious fraction 0, canonical clog factor 1. The displayed clog factor is 2;
the write of SM_IMPERVFRAC = 0.5 succeeds, stores the fraction and leaves the
canonical clog factor at 1, so that the displayed clog factor has become 4. -/
theorem pavement_impervFrac_edit_from_zero_changes_displayed_clog :
    (swmm_getLidCParam sampleProject 0 SM_PAVE SM_CLOGFACTOR 0).val = (ERR_NONE, 2)
    ∧ (swmm_setLidCParam keepProject sampleProject 0 SM_PAVE SM_IMPERVFRAC (1 / 2)).val.1 = ERR_NONE
    ∧ ((swmm_setLidCParam keepProject sampleProject 0 SM_PAVE SM_IMPERVFRAC (1 / 2)).val.2.LidProcs
        0).pavement.impervFrac = 1 / 2
    ∧ ((swmm_setLidCParam keepProject sampleProject 0 SM_PAVE SM_IMPERVFRAC (1 / 2)).val.2.LidProcs
        0).pavement.clogFactor = 1
    ∧ (swmm_getLidCParam
        (swmm_setLidCParam keepProject sampleProject 0 SM_PAVE SM_IMPERVFRAC (1 / 2)).val.2
        0 SM_PAVE SM_CLOGFACTOR 0).val = (ERR_NONE, 4) := by
  simp [swmm_setLidCParam, swmm_getLidCParam, sampleProject, projectWith, keepProject,
    Traced.pure_eq, Traced.bind_eq, fdiv]
  norm_num

/-- The impervious-fraction edit does keep the displayed clog factor when the
old impervious fraction lies strictly between 0 and 1 (the branch of the source
that un-scales and re-scales) and the new one is not 1. -/
theorem pavement_impervFrac_edit_keeps_displayed_clog_of_pos
    (validate : Int → Project → Project) (pr : Project) (i : Int) (x v0 v1 : ℚ)
    (hval : ∀ j p, validate j p = p)
    (hopen : pr.IsOpenFlag = true) (hi : 0 ≤ i ∧ i < pr.Nobjects_LID)
    (ht : (pr.LidProcs i).pavement.thickness > 0)
    (hvf : (pr.LidProcs i).pavement.voidFrac > 0)
    (himp0 : 0 < (pr.LidProcs i).pavement.impervFrac)
    (himp1 : (pr.LidProcs i).pavement.impervFrac < 1)
    (hx : x ≠ 1) :
    (swmm_setLidCParam validate pr i SM_PAVE SM_IMPERVFRAC x).val.1 = ERR_NONE
    ∧ (swmm_getLidCParam (swmm_setLidCParam validate pr i SM_PAVE SM_IMPERVFRAC x).val.2 i
        SM_PAVE SM_CLOGFACTOR v1).val
      = (swmm_getLidCParam pr i SM_PAVE SM_CLOGFACTOR v0).val := by
  have hi' := index_in_range hi
  have h1 := ne_of_gt ht
  have h2 := ne_of_gt hvf
  have h3 : 1 - (pr.LidProcs i).pavement.impervFrac ≠ 0 := by
    intro h
    linarith
  have h4 : 1 - x ≠ 0 := by
    intro h
    apply hx
    linarith
  simp [swmm_setLidCParam, swmm_getLidCParam, hopen, hi', ht, himp0, hval, Traced.pure_eq,
    Traced.bind_eq, fdiv]
  field_simp
  ring

/-- C4. Clog-factor read, non-degenerate case: on an open project with a valid
index, for a Storage layer with thickness > 0 the read succeeds with value
clogFactor / (thickness * voidFrac), and for a Pavement layer with thickness > 0
it succeeds with value clogFactor / (thickness * voidFrac * (1 - impervFrac));
each read evaluates exactly that one division. -/
theorem clogFactor_read_nondegenerate (pr : Project) (i : Int) (v0 : ℚ)
    (hopen : pr.IsOpenFlag = true) (hi : 0 ≤ i ∧ i < pr.Nobjects_LID) :
    ((pr.LidProcs i).storage.thickness > 0 →
      swmm_getLidCParam pr i SM_STOR SM_CLOGFACTOR v0 =
        ⟨(ERR_NONE, (pr.LidProcs i).storage.clogFactor /
            ((pr.LidProcs i).storage.thickness * (pr.LidProcs i).storage.voidFrac)),
          [(pr.LidProcs i).storage.thickness * (pr.LidProcs i).storage.voidFrac]⟩)
    ∧ ((pr.LidProcs i).pavement.thickness > 0 →
      swmm_getLidCParam pr i SM_PAVE SM_CLOGFACTOR v0 =
        ⟨(ERR_NONE, (pr.LidProcs i).pavement.clogFactor /
            ((pr.LidProcs i).pavement.thickness * (pr.LidProcs i).pavement.voidFrac *
              (1 - (pr.LidProcs i).pavement.impervFrac))),
          [(pr.LidProcs i).pavement.thickness * (pr.LidProcs i).pavement.voidFrac *
              (1 - (pr.LidProcs i).pavement.impervFrac)]⟩) := by
  have hi' := index_in_range hi
  constructor
  · intro ht
    simp [swmm_getLidCParam, hopen, hi', ht, Traced.pure_eq, Traced.bind_eq, fdiv]
  · intro ht
    simp [swmm_getLidCParam, hopen, hi', ht, Traced.pure_eq, Traced.bind_eq, fdiv]

/-- C4 at the sample controls: the Storage layer displays 3 / (0.5 * 0.4) = 15,
the Pavement layer with impervious fraction 0.25 displays
1 / (1 * 0.5 * 0.75) = 8 / 3. -/
theorem clogFactor_read_nondegenerate_witness :
    (swmm_getLidCParam sampleProject 0 SM_STOR SM_CLOGFACTOR 0).val = (ERR_NONE, 15)
    ∧ (swmm_getLidCParam partlyImperviousProject 0 SM_PAVE SM_CLOGFACTOR 0).val
        = (ERR_NONE, 8 / 3) := by
  have hS := (clogFactor_read_nondegenerate sampleProject 0 0 rfl
    (by norm_num [sampleProject, projectWith])).1 (by norm_num [sampleProject, projectWith])
  have hP := (clogFactor_read_nondegenerate partlyImperviousProject 0 0 rfl
    (by norm_num [partlyImperviousProject, projectWith])).2
    (by norm_num [partlyImperviousProject, projectWith])
  rw [hS, hP]
  norm_num [sampleProject, partlyImperviousProject, projectWith]

/-- Degenerate clog-factor read of the Storage layer, as the source does it: on
an open project with a valid index and storage thickness not above 0, the
status is ERR_API_OUTBOUNDS and the value is the clog factor of the Pavement
layer. -/
theorem storage_clogFactor_read_degenerate (pr : Project) (i : Int) (v0 : ℚ)
    (hopen : pr.IsOpenFlag = true) (hi : 0 ≤ i ∧ i < pr.Nobjects_LID)
    (ht : (pr.LidProcs i).storage.thickness ≤ 0) :
    swmm_getLidCParam pr i SM_STOR SM_CLOGFACTOR v0 =
      ⟨(ERR_API_OUTBOUNDS, (pr.LidProcs i).pavement.clogFactor), []⟩ := by
  have hi' := index_in_range hi
  have ht' : ¬ (pr.LidProcs i).storage.thickness > 0 := not_lt.mpr ht
  simp [swmm_getLidCParam, hopen, hi', Traced.pure_eq]
  intro h
  exact absurd h ht'

/-- Degenerate clog-factor read of the Pavement layer, as the source does it:
on an open project with a valid index and pavement thickness not above 0, the
status is ERR_NONE and the value is regenDays. -/
theorem pavement_clogFactor_read_degenerate (pr : Project) (i : Int) (v0 : ℚ)
    (hopen : pr.IsOpenFlag = true) (hi : 0 ≤ i ∧ i < pr.Nobjects_LID)
    (ht : (pr.LidProcs i).pavement.thickness ≤ 0) :
    swmm_getLidCParam pr i SM_PAVE SM_CLOGFACTOR v0 =
      ⟨(ERR_NONE, (pr.LidProcs i).pavement.regenDays), []⟩ := by
  have hi' := index_in_range hi
  have ht' : ¬ (pr.LidProcs i).pavement.thickness > 0 := not_lt.mpr ht
  simp [swmm_getLidCParam, hopen, hi', Traced.pure_eq]
  intro h
  exact absurd h ht'

/-- C5, the code at the failing input: storage thickness 0 with canonical
storage clog factor 3, pavement clog factor 1. The read of the Storage clog
factor returns ERR_API_OUTBOUNDS, not success, and the value 1 of the Pavement
layer, not the Storage layer's own 3. -/
theorem storage_clogFactor_read_degenerate_at_failing_input :
    (degenerateProject.LidProcs 0).storage.thickness ≤ 0
    ∧ (degenerateProject.LidProcs 0).storage.clogFactor = 3
    ∧ (swmm_getLidCParam degenerateProject 0 SM_STOR SM_CLOGFACTOR 0).val
        = (ERR_API_OUTBOUNDS, 1)
    ∧ (swmm_getLidCParam degenerateProject 0 SM_STOR SM_CLOGFACTOR 0).val ≠ (ERR_NONE, 3) := by
  rw [storage_clogFactor_read_degenerate degenerateProject 0 0 rfl
    (by norm_num [degenerateProject, projectWith])
    (by norm_num [degenerateProject, projectWith])]
  simp [degenerateProject, projectWith]

/-- C6, the code at the failing input: pavement thickness 0 with canonical
pavement clog factor 1 and regenDays 7. The read of the Pavement clog factor
returns 7, the regeneration interval, not the clog factor 1. -/
theorem pavement_clogFactor_read_degenerate_at_failing_input :
    (degenerateProject.LidProcs 0).pavement.thickness ≤ 0
    ∧ (degenerateProject.LidProcs 0).pavement.clogFactor = 1
    ∧ (degenerateProject.LidProcs 0).pavement.regenDays = 7
    ∧ (swmm_getLidCParam degenerateProject 0 SM_PAVE SM_CLOGFACTOR 0).val = (ERR_NONE, 7)
    ∧ (swmm_getLidCParam degenerateProject 0 SM_PAVE SM_CLOGFACTOR 0).val.2 ≠ 1 := by
  rw [pavement_clogFactor_read_degenerate degenerateProject 0 0 rfl
    (by norm_num [degenerateProject, projectWith])
    (by norm_num [degenerateProject, projectWith])]
  simp [degenerateProject, projectWith]

/-- C8, counterexample: with storage and pavement thickness 0 and void fraction
0.5, writing the displayed clog factor 5 succeeds on either layer and leaves 0
in the canonical slot, not 5; the read that follows gives the Pavement layer's
clog factor with ERR_API_OUTBOUNDS on the Storage layer and regenDays = 7 on the
Pavement layer, not 5. -/
theorem clogFactor_write_degenerate_counterexample :
    ((degenerateProject.LidProcs 0).storage.thickness = 0
      ∧ (swmm_setLidCParam keepProject degenerateProject 0 SM_STOR SM_CLOGFACTOR 5).val.1 = ERR_NONE
      ∧ ((swmm_setLidCParam keepProject degenerateProject 0 SM_STOR SM_CLOGFACTOR 5).val.2.LidProcs
            0).storage.clogFactor = 0
      ∧ ((swmm_setLidCParam keepProject degenerateProject 0 SM_STOR SM_CLOGFACTOR 5).val.2.LidProcs
            0).storage.clogFactor ≠ 5
      ∧ (swmm_getLidCParam
            (swmm_setLidCParam keepProject degenerateProject 0 SM_STOR SM_CLOGFACTOR 5).val.2
            0 SM_STOR SM_CLOGFACTOR 0).val = (ERR_API_OUTBOUNDS, 1))
    ∧ ((degenerateProject.LidProcs 0).pavement.thickness = 0
      ∧ (swmm_setLidCParam keepProject degenerateProject 0 SM_PAVE SM_CLOGFACTOR 5).val.1 = ERR_NONE
      ∧ ((swmm_setLidCParam keepProject degenerateProject 0 SM_PAVE SM_CLOGFACTOR 5).val.2.LidProcs
            0).pavement.clogFactor = 0
      ∧ ((swmm_setLidCParam keepProject degenerateProject 0 SM_PAVE SM_CLOGFACTOR 5).val.2.LidProcs
            0).pavement.clogFactor ≠ 5
      ∧ (swmm_getLidCParam
            (swmm_setLidCParam keepProject degenerateProject 0 SM_PAVE SM_CLOGFACTOR 5).val.2
            0 SM_PAVE SM_CLOGFACTOR 0).val = (ERR_NONE, 7)) := by
  simp [swmm_setLidCParam, swmm_getLidCParam, degenerateProject, projectWith, keepProject,
    Traced.pure_eq, Traced.bind_eq]

/-- C8, amended. Degenerate clog-factor write: on an open project with a valid
index and re-validation leaving the state as it is, for a Storage or Pavement
layer whose thickness is not above 0, writing SM_CLOGFACTOR = c succeeds without
any division and stores c * thickness * voidFrac (times 1 - impervFrac for
Pavement) in the canonical slot, the scaling of the non-degenerate case; with
thickness 0 that is 0. -/
theorem clogFactor_write_degenerate_scales (validate : Int → Project → Project)
    (pr : Project) (i : Int) (c : ℚ)
    (hval : ∀ j p, validate j p = p)
    (hopen : pr.IsOpenFlag = true) (hi : 0 ≤ i ∧ i < pr.Nobjects_LID) :
    ((pr.LidProcs i).storage.thickness ≤ 0 →
        (swmm_setLidCParam validate pr i SM_STOR SM_CLOGFACTOR c).val.1 = ERR_NONE
        ∧ (swmm_setLidCParam validate pr i SM_STOR SM_CLOGFACTOR c).divisors = []
        ∧ ((swmm_setLidCParam validate pr i SM_STOR SM_CLOGFACTOR c).val.2.LidProcs
              i).storage.clogFactor
            = c * (pr.LidProcs i).storage.thickness * (pr.LidProcs i).storage.voidFrac
        ∧ ((pr.LidProcs i).storage.thickness = 0 →
            ((swmm_setLidCParam validate pr i SM_STOR SM_CLOGFACTOR c).val.2.LidProcs
              i).storage.clogFactor = 0))
    ∧ ((pr.LidProcs i).pavement.thickness ≤ 0 →
        (swmm_setLidCParam validate pr i SM_PAVE SM_CLOGFACTOR c).val.1 = ERR_NONE
        ∧ (swmm_setLidCParam validate pr i SM_PAVE SM_CLOGFACTOR c).divisors = []
        ∧ ((swmm_setLidCParam validate pr i SM_PAVE SM_CLOGFACTOR c).val.2.LidProcs
              i).pavement.clogFactor
            = c * (pr.LidProcs i).pavement.thickness * (pr.LidProcs i).pavement.voidFrac
                * (1 - (pr.LidProcs i).pavement.impervFrac)
        ∧ ((pr.LidProcs i).pavement.thickness = 0 →
            ((swmm_setLidCParam validate pr i SM_PAVE SM_CLOGFACTOR c).val.2.LidProcs
              i).pavement.clogFactor = 0)) := by
  have hi' := index_in_range hi
  constructor
  · intro _
    simp [swmm_setLidCParam, hopen, hi', hval, Traced.pure_eq, Traced.bind_eq]
    intro h0
    simp [h0]
  · intro _
    simp [swmm_setLidCParam, hopen, hi', hval, Traced.pure_eq, Traced.bind_eq]
    intro h0
    simp [h0]

/-- C8, amended, at the control with both thicknesses 0: writing the displayed
clog factor 5 stores 5 * 0 * 0.5 on the Storage layer and 5 * 0 * 0.5 * (1 - 0)
on the Pavement layer. -/
theorem clogFactor_write_degenerate_scales_witness :
    ((swmm_setLidCParam keepProject degenerateProject 0 SM_STOR SM_CLOGFACTOR 5).val.2.LidProcs
        0).storage.clogFactor
      = 5 * (degenerateProject.LidProcs 0).storage.thickness
          * (degenerateProject.LidProcs 0).storage.voidFrac
    ∧ ((swmm_setLidCParam keepProject degenerateProject 0 SM_PAVE SM_CLOGFACTOR 5).val.2.LidProcs
        0).pavement.clogFactor
      = 5 * (degenerateProject.LidProcs 0).pavement.thickness
          * (degenerateProject.LidProcs 0).pavement.voidFrac
          * (1 - (degenerateProject.LidProcs 0).pavement.impervFrac) :=
  ⟨((clogFactor_write_degenerate_scales keepProject degenerateProject 0 5 (fun _ _ => rfl) rfl
      (by norm_num [degenerateProject, projectWith])).1
      (by norm_num [degenerateProject, projectWith])).2.2.1,
   ((clogFactor_write_degenerate_scales keepProject degenerateProject 0 5 (fun _ _ => rfl) rfl
      (by norm_num [degenerateProject, projectWith])).2
      (by norm_num [degenerateProject, projectWith])).2.2.1⟩

/-- C10, counterexample: with unit factors 1, on the control whose Storage
layer has thickness 1 and void fraction 0 and whose Pavement layer has
impervious fraction 1, the read of either clog factor and the write of
SM_IMPERVFRAC divide by zero; on the sample control the write of the void ratio
-1 divides by zero on either layer, after the guarded division by the old void
fraction. -/
theorem division_by_zero_counterexample :
    (swmm_getLidCParam sealedProject 0 SM_STOR SM_CLOGFACTOR 0).divisors = [0]
    ∧ (swmm_getLidCParam sealedProject 0 SM_PAVE SM_CLOGFACTOR 0).divisors = [0]
    ∧ (swmm_setLidCParam keepProject sealedProject 0 SM_PAVE SM_IMPERVFRAC (1 / 2)).divisors = [0]
    ∧ (swmm_setLidCParam keepProject sampleProject 0 SM_STOR SM_VOIDFRAC (-1)).divisors
        = [2 / 5, 0]
    ∧ (swmm_setLidCParam keepProject sampleProject 0 SM_PAVE SM_VOIDFRAC (-1)).divisors
        = [1 / 2, 0]
    ∧ ¬ (swmm_getLidCParam sealedProject 0 SM_STOR SM_CLOGFACTOR 0).noZeroDivisor
    ∧ ¬ (swmm_getLidCParam sealedProject 0 SM_PAVE SM_CLOGFACTOR 0).noZeroDivisor
    ∧ ¬ (swmm_setLidCParam keepProject sealedProject 0 SM_PAVE SM_IMPERVFRAC (1 / 2)).noZeroDivisor
    ∧ ¬ (swmm_setLidCParam keepProject sampleProject 0 SM_STOR SM_VOIDFRAC (-1)).noZeroDivisor
    ∧ ¬ (swmm_setLidCParam keepProject sampleProject 0 SM_PAVE SM_VOIDFRAC (-1)).noZeroDivisor := by
  simp [swmm_setLidCParam, swmm_getLidCParam, sealedProject, sampleProject, projectWith,
    keepProject, Traced.pure_eq, Traced.bind_eq, fdiv, Traced.noZeroDivisor]

/-- C10, amended. For every project state, control index, re-validation and
caller value, with UCF(RAINDEPTH) other than 0, on the Storage and Pavement
layers: the reads of SM_VOIDFRAC and the writes of SM_THICKNESS evaluate no
division by zero; neither do the writes of SM_VOIDFRAC when the caller value is
not -1, the read of SM_CLOGFACTOR when the layer's voidFrac is not 0 (and, for
Pavement, impervFrac is not 1) or its thickness is not above 0, and the write of
SM_IMPERVFRAC when the old impervFrac is not 1. -/
theorem no_division_by_zero (validate : Int → Project → Project) (pr : Project) (i : Int)
    (value v0 : ℚ) (hucf : pr.UCF RAINDEPTH ≠ 0) :
    (swmm_getLidCParam pr i SM_STOR SM_VOIDFRAC v0).noZeroDivisor
    ∧ (swmm_getLidCParam pr i SM_PAVE SM_VOIDFRAC v0).noZeroDivisor
    ∧ (swmm_setLidCParam validate pr i SM_STOR SM_THICKNESS value).noZeroDivisor
    ∧ (swmm_setLidCParam validate pr i SM_PAVE SM_THICKNESS value).noZeroDivisor
    ∧ (value ≠ -1 → (swmm_setLidCParam validate pr i SM_STOR SM_VOIDFRAC value).noZeroDivisor)
    ∧ (value ≠ -1 → (swmm_setLidCParam validate pr i SM_PAVE SM_VOIDFRAC value).noZeroDivisor)
    ∧ (((pr.LidProcs i).storage.thickness > 0 → (pr.LidProcs i).storage.voidFrac ≠ 0) →
        (swmm_getLidCParam pr i SM_STOR SM_CLOGFACTOR v0).noZeroDivisor)
    ∧ (((pr.LidProcs i).pavement.thickness > 0 →
          (pr.LidProcs i).pavement.voidFrac ≠ 0 ∧ (pr.LidProcs i).pavement.impervFrac ≠ 1) →
        (swmm_getLidCParam pr i SM_PAVE SM_CLOGFACTOR v0).noZeroDivisor)
    ∧ ((pr.LidProcs i).pavement.impervFrac ≠ 1 →
        (swmm_setLidCParam validate pr i SM_PAVE SM_IMPERVFRAC value).noZeroDivisor) := by
  have hv1 : value ≠ -1 → value + 1 ≠ 0 := by
    intro hvalue h
    apply hvalue
    linarith
  have himp1 : (pr.LidProcs i).pavement.impervFrac ≠ 1 →
      1 - (pr.LidProcs i).pavement.impervFrac ≠ 0 := by
    intro himp h
    apply himp
    linarith
  by_cases hopen : pr.IsOpenFlag = true
  · by_cases hi : i < 0 ∨ i ≥ pr.Nobjects_LID
    · simp [swmm_setLidCParam, swmm_getLidCParam, hopen, hi, Traced.pure_eq, Traced.bind_eq,
        Traced.noZeroDivisor]
    · simp only [swmm_setLidCParam, swmm_getLidCParam, hopen, hi, Traced.pure_eq,
        Traced.bind_eq, fdiv, Traced.noZeroDivisor]
      refine ⟨?_, ?_, ?_, ?_, ?_, ?_, ?_, ?_, ?_⟩
      · split_ifs with h <;> simp_all
        intro h0
        linarith
      · split_ifs with h <;> simp_all
        intro h0
        linarith
      · split_ifs with h <;> simp_all
        intro h0
        linarith
      · split_ifs with h <;> simp_all
        intro h0
        linarith
      · intro hvalue
        have := hv1 hvalue
        split_ifs with h <;> simp_all
        intro h0
        linarith
      · intro hvalue
        have := hv1 hvalue
        split_ifs with h <;> simp_all
        intro h0
        linarith
      · intro hvf
        by_cases h : (pr.LidProcs i).storage.thickness > 0
        · have h1 := hvf h
          have h2 := ne_of_gt h
          simp_all
        · have h5 : ¬ 0 < (pr.LidProcs i).storage.thickness := h
          simp [h5]
      · intro hvf
        by_cases h : (pr.LidProcs i).pavement.thickness > 0
        · obtain ⟨h1, h2⟩ := hvf h
          have h3 := himp1 h2
          have h4 := ne_of_gt h
          simp_all
        · have h5 : ¬ 0 < (pr.LidProcs i).pavement.thickness := h
          simp [h5]
      · intro himp
        have := himp1 himp
        split_ifs with h <;> simp_all
  · simp at hopen
    simp [swmm_setLidCParam, swmm_getLidCParam, hopen, Traced.pure_eq, Traced.bind_eq,
      Traced.noZeroDivisor]

/-- C10, amended, at the control with void fractions 0.4 and 0.5 and impervious
fraction 0.25, unit factors 1 and the caller value 1: the write of the Storage
thickness, the read of the Storage clog factor and the write of the Pavement
impervious fraction meet no zero divisor. -/
theorem no_division_by_zero_witness :
    (swmm_setLidCParam keepProject partlyImperviousProject 0 SM_STOR SM_THICKNESS
        1).noZeroDivisor
    ∧ (swmm_getLidCParam partlyImperviousProject 0 SM_STOR SM_CLOGFACTOR 0).noZeroDivisor
    ∧ (swmm_setLidCParam keepProject partlyImperviousProject 0 SM_PAVE SM_IMPERVFRAC
        1).noZeroDivisor :=
  ⟨(no_division_by_zero keepProject partlyImperviousProject 0 1 0
      (by norm_num [partlyImperviousProject, projectWith])).2.2.1,
   (no_division_by_zero keepProject partlyImperviousProject 0 1 0
      (by norm_num [partlyImperviousProject, projectWith])).2.2.2.2.2.2.1
      (by norm_num [partlyImperviousProject, projectWith]),
   (no_division_by_zero keepProject partlyImperviousProject 0 1 0
      (by norm_num [partlyImperviousProject, projectWith])).2.2.2.2.2.2.2.2
      (by norm_num [partlyImperviousProject, projectWith])⟩

/-! ## Unit conversion of node, link, subcatchment and LID unit parameters -/

/-- C15. Bounds-checked lookup: on an open model (not started, for
`swmm_setNodeParam` and `swmm_setSubcatchParam`), every operation of the list
called with an index below 0 or not below the count of its object type returns
ERR_API_OBJECT_INDEX. Its outputs are then the values set at entry (or the
prior content, for `swmm_getLidCParam`), which do not depend on any table, the
model is left as it was, no division is evaluated, and none of the outside
functions (`subcatch_validate`, `link_setSetting`, `inflow_setExtInflow`,
`lid_validateLidProc`) is run, whatever they are. -/
theorem bounds_checked_lookup (m : Model) (index : Int)
    (np : SM_NodeProperty) (lp : SM_LinkProperty) (sp : SM_SubcProperty)
    (nr : SM_NodeResult) (lr : SM_LinkResult) (sr : SM_SubcResult)
    (layer : SM_LidLayer) (cp : SM_LidLayerProperty) (x v : ℚ) (a b : Int)
    (PUMP FLOW_INFLOW OUTFALL STAGED_OUTFALL RAIN_API SUBCATCH NODE : Int)
    (subcatch_validate : Int → Model → Model) (link_setSetting : Int → ℚ → Model → Model)
    (getDateTime : ℚ → ℚ)
    (inflow_setExtInflow : Int → Int → Int → Int → Int → ℚ → ℚ → ℚ → Model → ErrorCode × Model)
    (lid_validateLidProc : Int → Project → Project)
    (hopen : m.IsOpenFlag = true) :
    ((index < 0 ∨ index ≥ m.Nobjects_NODE) →
        swmm_getNodeType m index a = (ERR_API_OBJECT_INDEX, -1)
        ∧ swmm_getNodeParam m index np v = (ERR_API_OBJECT_INDEX, 0)
        ∧ (m.IsStartedFlag = false →
            swmm_setNodeParam m index np x = ⟨(ERR_API_OBJECT_INDEX, m), []⟩)
        ∧ swmm_getNodeResult m index nr v = (ERR_API_OBJECT_INDEX, 0)
        ∧ swmm_setNodeInflow FLOW_INFLOW inflow_setExtInflow m index x = (ERR_API_OBJECT_INDEX, m)
        ∧ swmm_setOutfallStage OUTFALL STAGED_OUTFALL m index x = ⟨(ERR_API_OBJECT_INDEX, m), []⟩)
    ∧ ((index < 0 ∨ index ≥ m.Nobjects_LINK) →
        swmm_getLinkType m index a = (ERR_API_OBJECT_INDEX, -1)
        ∧ swmm_getLinkConnections m index a b = (ERR_API_OBJECT_INDEX, -1, -1)
        ∧ swmm_getLinkDirection m index a = (ERR_API_OBJECT_INDEX, 0)
        ∧ swmm_getLinkParam m index lp v = (ERR_API_OBJECT_INDEX, 0)
        ∧ swmm_setLinkParam m index lp x = ⟨(ERR_API_OBJECT_INDEX, m), []⟩
        ∧ swmm_getLinkResult m index lr v = (ERR_API_OBJECT_INDEX, 0)
        ∧ swmm_setLinkSetting PUMP link_setSetting getDateTime m index x
            = (ERR_API_OBJECT_INDEX, m))
    ∧ ((index < 0 ∨ index ≥ m.Nobjects_SUBCATCH) →
        swmm_getSubcatchParam m index sp v = (ERR_API_OBJECT_INDEX, 0)
        ∧ (m.IsStartedFlag = false →
            swmm_setSubcatchParam subcatch_validate m index sp x
              = ⟨(ERR_API_OBJECT_INDEX, m), []⟩)
        ∧ swmm_getSubcatchOutConnection SUBCATCH NODE m index a b = (ERR_API_OBJECT_INDEX, -1, -1)
        ∧ swmm_getSubcatchResult m index sr v = (ERR_API_OBJECT_INDEX, 0))
    ∧ ((index < 0 ∨ index ≥ m.Nobjects_GAGE) →
        swmm_setGagePrecip RAIN_API m index x = (ERR_API_OBJECT_INDEX, m))
    ∧ ((index < 0 ∨ index ≥ m.Nobjects_LID) →
        swmm_getLidCParam m.toProject index layer cp v = ⟨(ERR_API_OBJECT_INDEX, v), []⟩
        ∧ swmm_setLidCParam lid_validateLidProc m.toProject index layer cp x
            = ⟨(ERR_API_OBJECT_INDEX, m.toProject), []⟩) := by
  have hopen' : m.toProject.IsOpenFlag = true := hopen
  refine ⟨?_, ?_, ?_, ?_, ?_⟩
  · intro hi
    refine ⟨?_, ?_, ?_, ?_, ?_, ?_⟩
    · simp [swmm_getNodeType, Id.run, hopen, hi]
    · simp [swmm_getNodeParam, Id.run, hopen, hi]
    · intro hstart
      simp [swmm_setNodeParam, hopen, hstart, hi, Traced.pure_eq, Traced.bind_eq]
    · simp [swmm_getNodeResult, Id.run, hopen, hi]
    · simp [swmm_setNodeInflow, Id.run, hopen, hi]
    · simp [swmm_setOutfallStage, hopen, hi, Traced.pure_eq, Traced.bind_eq]
  · intro hi
    refine ⟨?_, ?_, ?_, ?_, ?_, ?_, ?_⟩
    · simp [swmm_getLinkType, Id.run, hopen, hi]
    · simp [swmm_getLinkConnections, Id.run, hopen, hi]
    · simp [swmm_getLinkDirection, Id.run, hopen, hi]
    · simp [swmm_getLinkParam, Id.run, hopen, hi]
    · simp [swmm_setLinkParam, hopen, hi, Traced.pure_eq, Traced.bind_eq]
    · simp [swmm_getLinkResult, Id.run, hopen, hi]
    · simp [swmm_setLinkSetting, Id.run, hopen, hi]
  · intro hi
    refine ⟨?_, ?_, ?_, ?_⟩
    · simp [swmm_getSubcatchParam, Id.run, hopen, hi]
    · intro hstart
      simp [swmm_setSubcatchParam, hopen, hstart, hi, Traced.pure_eq, Traced.bind_eq]
    · simp [swmm_getSubcatchOutConnection, Id.run, hopen, hi]
    · simp [swmm_getSubcatchResult, Id.run, hopen, hi]
  · intro hi
    simp [swmm_setGagePrecip, Id.run, hopen, hi]
  · intro hi
    constructor
    · simp [swmm_getLidCParam, hopen', hi, Traced.pure_eq]
    · simp [swmm_setLidCParam, hopen', hi, Traced.pure_eq, Traced.bind_eq]

/-- C15 at the sample model (two nodes, one link): the read of a node parameter
at index 2 and the write of a link setting at index -1 return
ERR_API_OBJECT_INDEX, the latter leaving the model as it was whatever
`link_setSetting` does. -/
theorem bounds_checked_lookup_witness :
    swmm_getNodeParam sampleModel 2 SM_INVERTEL 99 = (ERR_API_OBJECT_INDEX, 0)
    ∧ swmm_setLinkSetting 1 (fun _ _ a => { a with IsStartedFlag := true }) (fun t => t)
        sampleModel (-1) 1 = (ERR_API_OBJECT_INDEX, sampleModel) :=
  ⟨((bounds_checked_lookup sampleModel 2 SM_INVERTEL SM_OFFSET1 SM_WIDTH SM_NODEDEPTH SM_LINKFLOW
      SM_SUBCRAIN SM_STOR SM_THICKNESS 1 99 0 0 1 0 1 5 2 1 2 keepModel
      (fun _ _ a => { a with IsStartedFlag := true }) (fun t => t)
      (fun _ _ _ _ _ _ _ _ a => (ERR_NONE, a)) keepProject rfl).1
      (by norm_num [sampleModel])).2.1,
   ((bounds_checked_lookup sampleModel (-1) SM_INVERTEL SM_OFFSET1 SM_WIDTH SM_NODEDEPTH SM_LINKFLOW
      SM_SUBCRAIN SM_STOR SM_THICKNESS 1 99 0 0 1 0 1 5 2 1 2 keepModel
      (fun _ _ a => { a with IsStartedFlag := true }) (fun t => t)
      (fun _ _ _ _ _ _ _ _ a => (ERR_NONE, a)) keepProject rfl).2.1
      (by norm_num [sampleModel])).2.2.2.2.2.2⟩

/-- C16. Lifecycle gating of structural setters: on an open model, while
started, `swmm_setNodeParam` and `swmm_setSubcatchParam` return
ERR_API_SIM_NRUNNING for every index, property and value, evaluate no division,
and leave the model as it was, whatever `subcatch_validate` is (it is not run);
while not started, the same calls with a valid index and a property of the
enumeration return success. -/
theorem structural_setters_lifecycle (m : Model) (hopen : m.IsOpenFlag = true) :
    (m.IsStartedFlag = true →
      ∀ (index : Int) (value : ℚ) (subcatch_validate : Int → Model → Model),
        (∀ p : SM_NodeProperty,
          swmm_setNodeParam m index p value = ⟨(ERR_API_SIM_NRUNNING, m), []⟩)
        ∧ (∀ p : SM_SubcProperty,
          swmm_setSubcatchParam subcatch_validate m index p value
            = ⟨(ERR_API_SIM_NRUNNING, m), []⟩))
    ∧ (m.IsStartedFlag = false →
      ∀ (index : Int) (value : ℚ) (subcatch_validate : Int → Model → Model),
        ((0 ≤ index ∧ index < m.Nobjects_NODE) →
          ∀ p : SM_NodeProperty, p ≠ SM_NodeProperty.unlisted →
            (swmm_setNodeParam m index p value).val.1 = ERR_NONE)
        ∧ ((0 ≤ index ∧ index < m.Nobjects_SUBCATCH) →
          ∀ p : SM_SubcProperty, p ≠ SM_SubcProperty.unlisted →
            (swmm_setSubcatchParam subcatch_validate m index p value).val.1 = ERR_NONE)) := by
  constructor
  · intro hstart index value subcatch_validate
    constructor
    · intro p
      simp [swmm_setNodeParam, hopen, hstart, Traced.pure_eq, Traced.bind_eq]
    · intro p
      simp [swmm_setSubcatchParam, hopen, hstart, Traced.pure_eq, Traced.bind_eq]
  · intro hstart index value subcatch_validate
    constructor
    · intro hi p hp
      have hi' := index_in_range hi
      cases p <;>
        simp [swmm_setNodeParam, hopen, hstart, hi', Traced.pure_eq, Traced.bind_eq] at hp ⊢
    · intro hi p hp
      have hi' := index_in_range hi
      cases p <;>
        simp [swmm_setSubcatchParam, hopen, hstart, hi', Traced.pure_eq, Traced.bind_eq] at hp ⊢

/-- C16 at the sample model: once started, the write of the invert elevation
of node 0 returns ERR_API_SIM_NRUNNING and leaves the model as it was; before
the start the same call returns success. -/
theorem structural_setters_lifecycle_witness :
    swmm_setNodeParam startedModel 0 SM_INVERTEL 4 = ⟨(ERR_API_SIM_NRUNNING, startedModel), []⟩
    ∧ (swmm_setNodeParam sampleModel 0 SM_INVERTEL 4).val.1 = ERR_NONE :=
  ⟨(((structural_setters_lifecycle startedModel rfl).1 rfl) 0 4 keepModel).1 SM_INVERTEL,
   (((structural_setters_lifecycle sampleModel rfl).2 rfl) 0 4 keepModel).1
      (by norm_num [sampleModel]) SM_INVERTEL (by simp)⟩

/-- C17. Link fields while started: on a model that is open and started, for a
valid link index, `swmm_setLinkParam` returns ERR_API_SIM_NRUNNING with the link
unchanged exactly when the property is SM_OFFSET1 or SM_OFFSET2 (the whole model
is then unchanged); for SM_INITFLOW and SM_FLOWLIMIT it returns success and
stores value / UCF(FLOW), for SM_INLETLOSS, SM_OUTLETLOSS and SM_AVELOSS it
returns success and stores the value. -/
theorem link_fields_while_started (m : Model) (j : Int) (value : ℚ)
    (hopen : m.IsOpenFlag = true) (hstart : m.IsStartedFlag = true)
    (hj : 0 ≤ j ∧ j < m.Nobjects_LINK) :
    (∀ p : SM_LinkProperty,
      ((swmm_setLinkParam m j p value).val.1 = ERR_API_SIM_NRUNNING
        ∧ (swmm_setLinkParam m j p value).val.2.Link j = m.Link j)
      ↔ (p = SM_OFFSET1 ∨ p = SM_OFFSET2))
    ∧ swmm_setLinkParam m j SM_OFFSET1 value = ⟨(ERR_API_SIM_NRUNNING, m), []⟩
    ∧ swmm_setLinkParam m j SM_OFFSET2 value = ⟨(ERR_API_SIM_NRUNNING, m), []⟩
    ∧ ((swmm_setLinkParam m j SM_INITFLOW value).val.1 = ERR_NONE
      ∧ (swmm_setLinkParam m j SM_INITFLOW value).val.2.Link j
          = { m.Link j with q0 := value / m.UCF FLOW })
    ∧ ((swmm_setLinkParam m j SM_FLOWLIMIT value).val.1 = ERR_NONE
      ∧ (swmm_setLinkParam m j SM_FLOWLIMIT value).val.2.Link j
          = { m.Link j with qLimit := value / m.UCF FLOW })
    ∧ ((swmm_setLinkParam m j SM_INLETLOSS value).val.1 = ERR_NONE
      ∧ (swmm_setLinkParam m j SM_INLETLOSS value).val.2.Link j
          = { m.Link j with cLossInlet := value })
    ∧ ((swmm_setLinkParam m j SM_OUTLETLOSS value).val.1 = ERR_NONE
      ∧ (swmm_setLinkParam m j SM_OUTLETLOSS value).val.2.Link j
          = { m.Link j with cLossOutlet := value })
    ∧ ((swmm_setLinkParam m j SM_AVELOSS value).val.1 = ERR_NONE
      ∧ (swmm_setLinkParam m j SM_AVELOSS value).val.2.Link j
          = { m.Link j with cLossAvg := value }) := by
  have hj' := index_in_range hj
  refine ⟨?_, ?_, ?_, ?_, ?_, ?_, ?_, ?_⟩
  · intro p
    cases p <;>
      simp [swmm_setLinkParam, hopen, hstart, hj', Traced.pure_eq, Traced.bind_eq, fdiv]
  all_goals
    simp [swmm_setLinkParam, hopen, hstart, hj', Traced.pure_eq, Traced.bind_eq, fdiv]

/-- C17 at the started sample model (UCF(FLOW) = 5): the write of the first
offset of link 0 is refused with ERR_API_SIM_NRUNNING, the write of the initial
flow 10 succeeds and stores 10 / 5. -/
theorem link_fields_while_started_witness :
    swmm_setLinkParam startedModel 0 SM_OFFSET1 2 = ⟨(ERR_API_SIM_NRUNNING, startedModel), []⟩
    ∧ (swmm_setLinkParam startedModel 0 SM_INITFLOW 10).val.1 = ERR_NONE
    ∧ ((swmm_setLinkParam startedModel 0 SM_INITFLOW 10).val.2.Link 0).q0 = 2 := by
  have h := link_fields_while_started startedModel 0 10 rfl rfl
    (by norm_num [startedModel, sampleModel])
  have h2 := link_fields_while_started startedModel 0 2 rfl rfl
    (by norm_num [startedModel, sampleModel])
  refine ⟨h2.2.1, h.2.2.2.1.1, ?_⟩
  rw [h.2.2.2.1.2]
  norm_num [startedModel, sampleModel]

/-- C18, counterexample: on the started sample model (one link, two nodes) the
write of the first offset of link 7 returns ERR_API_OBJECT_INDEX, not
ERR_API_SIM_NRUNNING, while the write of the invert elevation of node 7 returns
ERR_API_SIM_NRUNNING. -/
theorem setter_resolution_order_counterexample :
    startedModel.IsOpenFlag = true ∧ startedModel.IsStartedFlag = true
    ∧ (7 < 0 ∨ 7 ≥ startedModel.Nobjects_LINK)
    ∧ (swmm_setLinkParam startedModel 7 SM_OFFSET1 1).val.1 = ERR_API_OBJECT_INDEX
    ∧ (swmm_setLinkParam startedModel 7 SM_OFFSET1 1).val.1 ≠ ERR_API_SIM_NRUNNING
    ∧ (swmm_setNodeParam startedModel 7 SM_INVERTEL 1).val.1 = ERR_API_SIM_NRUNNING := by
  simp [swmm_setLinkParam, swmm_setNodeParam, startedModel, sampleModel, sampleProject,
    projectWith, Traced.pure_eq, Traced.bind_eq]

/-- C18, amended. Resolution order of failures, for every model, index,
property and value: `swmm_setNodeParam` and `swmm_setSubcatchParam` report the
first that applies of not open, simulation running, index out of range,
property out of range; `swmm_setLinkParam` reports the first that applies of
not open, index out of range, property out of range, and simulation running
last, for the two offsets only. -/
theorem setter_resolution_order (m : Model) (index : Int) (np : SM_NodeProperty)
    (sp : SM_SubcProperty) (lp : SM_LinkProperty) (value : ℚ)
    (subcatch_validate : Int → Model → Model) :
    (swmm_setNodeParam m index np value).val.1 =
      (if m.IsOpenFlag = false then ERR_API_INPUTNOTOPEN
       else if m.IsStartedFlag = true then ERR_API_SIM_NRUNNING
       else if index < 0 ∨ index ≥ m.Nobjects_NODE then ERR_API_OBJECT_INDEX
       else if np = SM_NodeProperty.unlisted then ERR_API_OUTBOUNDS
       else ERR_NONE)
    ∧ (swmm_setSubcatchParam subcatch_validate m index sp value).val.1 =
      (if m.IsOpenFlag = false then ERR_API_INPUTNOTOPEN
       else if m.IsStartedFlag = true then ERR_API_SIM_NRUNNING
       else if index < 0 ∨ index ≥ m.Nobjects_SUBCATCH then ERR_API_OBJECT_INDEX
       else if sp = SM_SubcProperty.unlisted then ERR_API_OUTBOUNDS
       else ERR_NONE)
    ∧ (swmm_setLinkParam m index lp value).val.1 =
      (if m.IsOpenFlag = false then ERR_API_INPUTNOTOPEN
       else if index < 0 ∨ index ≥ m.Nobjects_LINK then ERR_API_OBJECT_INDEX
       else if lp = SM_LinkProperty.unlisted then ERR_API_OUTBOUNDS
       else if (lp = SM_OFFSET1 ∨ lp = SM_OFFSET2) ∧ m.IsStartedFlag = true
         then ERR_API_SIM_NRUNNING
       else ERR_NONE) := by
  refine ⟨?_, ?_, ?_⟩
  · by_cases hopen : m.IsOpenFlag = true
    · by_cases hstart : m.IsStartedFlag = true
      · simp [swmm_setNodeParam, hopen, hstart, Traced.pure_eq, Traced.bind_eq]
      · by_cases hi : index < 0 ∨ index ≥ m.Nobjects_NODE
        · simp [swmm_setNodeParam, hopen, hstart, hi, Traced.pure_eq, Traced.bind_eq]
        · cases np <;>
            simp [swmm_setNodeParam, hopen, hstart, hi, Traced.pure_eq, Traced.bind_eq]
    · simp at hopen
      simp [swmm_setNodeParam, hopen, Traced.pure_eq, Traced.bind_eq]
  · by_cases hopen : m.IsOpenFlag = true
    · by_cases hstart : m.IsStartedFlag = true
      · simp [swmm_setSubcatchParam, hopen, hstart, Traced.pure_eq, Traced.bind_eq]
      · by_cases hi : index < 0 ∨ index ≥ m.Nobjects_SUBCATCH
        · simp [swmm_setSubcatchParam, hopen, hstart, hi, Traced.pure_eq, Traced.bind_eq]
        · cases sp <;>
            simp [swmm_setSubcatchParam, hopen, hstart, hi, Traced.pure_eq, Traced.bind_eq]
    · simp at hopen
      simp [swmm_setSubcatchParam, hopen, Traced.pure_eq, Traced.bind_eq]
  · by_cases hopen : m.IsOpenFlag = true
    · by_cases hi : index < 0 ∨ index ≥ m.Nobjects_LINK
      · simp [swmm_setLinkParam, hopen, hi, Traced.pure_eq, Traced.bind_eq]
      · by_cases hstart : m.IsStartedFlag = true <;> cases lp <;>
          simp [swmm_setLinkParam, hopen, hstart, hi, Traced.pure_eq, Traced.bind_eq]
    · simp at hopen
      simp [swmm_setLinkParam, hopen, Traced.pure_eq, Traced.bind_eq]

/-- C19. Unknown property id: on an open model with a valid index, the node
and link getters called with a property outside the enumeration return
ERR_API_OUTBOUNDS with output 0, whatever the output held; when the model is
not started, the node and link setters return ERR_API_OUTBOUNDS, evaluate no
division and leave the model as it was. -/
theorem unknown_property_id (m : Model) (i j : Int) (x v0 : ℚ)
    (hopen : m.IsOpenFlag = true) :
    ((0 ≤ i ∧ i < m.Nobjects_NODE) →
        swmm_getNodeParam m i SM_NodeProperty.unlisted v0 = (ERR_API_OUTBOUNDS, 0)
        ∧ (m.IsStartedFlag = false →
            swmm_setNodeParam m i SM_NodeProperty.unlisted x = ⟨(ERR_API_OUTBOUNDS, m), []⟩))
    ∧ ((0 ≤ j ∧ j < m.Nobjects_LINK) →
        swmm_getLinkParam m j SM_LinkProperty.unlisted v0 = (ERR_API_OUTBOUNDS, 0)
        ∧ (m.IsStartedFlag = false →
            swmm_setLinkParam m j SM_LinkProperty.unlisted x = ⟨(ERR_API_OUTBOUNDS, m), []⟩)) := by
  constructor
  · intro hi
    have hi' := index_in_range hi
    constructor
    · simp [swmm_getNodeParam, Id.run, hopen, hi']
    · intro hstart
      simp [swmm_setNodeParam, hopen, hstart, hi', Traced.pure_eq, Traced.bind_eq]
  · intro hj
    have hj' := index_in_range hj
    constructor
    · simp [swmm_getLinkParam, Id.run, hopen, hj']
    · intro _
      simp [swmm_setLinkParam, hopen, hj', Traced.pure_eq, Traced.bind_eq]

/-- C19 at the sample model: node 1 and link 0, prior output content 99. -/
theorem unknown_property_id_witness :
    swmm_getNodeParam sampleModel 1 SM_NodeProperty.unlisted 99 = (ERR_API_OUTBOUNDS, 0)
    ∧ swmm_setNodeParam sampleModel 1 SM_NodeProperty.unlisted 4
        = ⟨(ERR_API_OUTBOUNDS, sampleModel), []⟩
    ∧ swmm_setLinkParam sampleModel 0 SM_LinkProperty.unlisted 4
        = ⟨(ERR_API_OUTBOUNDS, sampleModel), []⟩ :=
  ⟨((unknown_property_id sampleModel 1 0 4 99 rfl).1 (by norm_num [sampleModel])).1,
   ((unknown_property_id sampleModel 1 0 4 99 rfl).1 (by norm_num [sampleModel])).2 rfl,
   ((unknown_property_id sampleModel 1 0 4 99 rfl).2 (by norm_num [sampleModel])).2 rfl⟩

/-- The record that the `switch` of `swmm_setLidCParam` leaves in place of
control `i` is written back over the same entry: when nothing was assigned the
project is the one before the call. -/
theorem project_update_self (pr : Project) (i : Int) :
    { pr with LidProcs := Function.update pr.LidProcs i (pr.LidProcs i) } = pr := by
  simp

set_option maxHeartbeats 4000000 in
/-- C20. Single commit after a LID layer write, for every re-validation
function, project, index, layer, property and value: the status does not depend
on the re-validation; when it is success, the project left is the re-validation
applied once, to the control index, on the project that the writes alone leave;
when it is an error, the project left is the one before the call, with no
re-validation applied. The errors are: not open, index out of range, unknown
layer, unknown property. -/
theorem lidControl_single_commit (validate : Int → Project → Project) (pr : Project) (i : Int)
    (layer : SM_LidLayer) (param : SM_LidLayerProperty) (value : ℚ) :
    (swmm_setLidCParam validate pr i layer param value).val.1
      = (swmm_setLidCParam keepProject pr i layer param value).val.1
    ∧ ((swmm_setLidCParam validate pr i layer param value).val.1 = ERR_NONE →
        (swmm_setLidCParam validate pr i layer param value).val.2
          = validate i (swmm_setLidCParam keepProject pr i layer param value).val.2)
    ∧ ((swmm_setLidCParam validate pr i layer param value).val.1 ≠ ERR_NONE →
        (swmm_setLidCParam validate pr i layer param value).val.2 = pr)
    ∧ (pr.IsOpenFlag = false →
        swmm_setLidCParam validate pr i layer param value = ⟨(ERR_API_INPUTNOTOPEN, pr), []⟩)
    ∧ (pr.IsOpenFlag = true → (i < 0 ∨ i ≥ pr.Nobjects_LID) →
        swmm_setLidCParam validate pr i layer param value = ⟨(ERR_API_OBJECT_INDEX, pr), []⟩)
    ∧ (pr.IsOpenFlag = true → (0 ≤ i ∧ i < pr.Nobjects_LID) →
        (layer = SM_LidLayer.unlisted ∨ param = SM_LidLayerProperty.unlisted) →
        swmm_setLidCParam validate pr i layer param value = ⟨(ERR_API_OUTBOUNDS, pr), []⟩) := by
  by_cases hopen : pr.IsOpenFlag = true
  · by_cases hi : i < 0 ∨ i ≥ pr.Nobjects_LID
    · simp [swmm_setLidCParam, hopen, hi, Traced.pure_eq, Traced.bind_eq]
      intro h1 h2
      omega
    · have hpr : Project.mk true pr.UCF pr.Nobjects_LID pr.LidProcs = pr := by
        cases pr
        simp_all
      cases layer <;> cases param <;>
        simp [swmm_setLidCParam, keepProject, hopen, hi, Traced.pure_eq, Traced.bind_eq, hpr] <;>
        split_ifs <;> simp
  · simp at hopen
    simp [swmm_setLidCParam, hopen, Traced.pure_eq, Traced.bind_eq]

/-- C20 with a re-validation that counts its calls in the surface field
`alpha` (0 before): after a successful write of the storage thickness the count
is 1, after a write refused for its unknown property the count is 0. -/
theorem lidControl_single_commit_witness :
    ((swmm_setLidCParam countingValidate sampleProject 0 SM_STOR SM_THICKNESS 1).val.2.LidProcs
        0).surface.alpha = 1
    ∧ ((swmm_setLidCParam countingValidate sampleProject 0 SM_STOR
        SM_LidLayerProperty.unlisted 1).val.2.LidProcs 0).surface.alpha = 0 := by
  have h := lidControl_single_commit countingValidate sampleProject 0 SM_STOR SM_THICKNESS 1
  have hu := lidControl_single_commit countingValidate sampleProject 0 SM_STOR
    SM_LidLayerProperty.unlisted 1
  have hs : (swmm_setLidCParam countingValidate sampleProject 0 SM_STOR SM_THICKNESS 1).val.1
      = ERR_NONE := by
    simp [swmm_setLidCParam, sampleProject, projectWith, Traced.pure_eq, Traced.bind_eq]
  have he : (swmm_setLidCParam countingValidate sampleProject 0 SM_STOR
      SM_LidLayerProperty.unlisted 1).val.1 ≠ ERR_NONE := by
    simp [swmm_setLidCParam, sampleProject, projectWith, Traced.pure_eq, Traced.bind_eq]
  rw [h.2.1 hs, hu.2.2.1 he]
  simp [swmm_setLidCParam, countingValidate, keepProject, sampleProject, projectWith,
    Traced.pure_eq, Traced.bind_eq, fdiv]

/-! ## Failed writes and failed reads -/

/-- C21, counterexample: on the sample model (open, not started, subcatchment 0
with LID unit 0), with a re-validation that leaves a line in the report at each
call, the write of an unknown subcatchment property, of an unknown LID unit
parameter and of an unknown LID unit option each return ERR_API_OUTBOUNDS and
leave one more line in the report: the re-validation was run and the model is
not the one before the call. -/
theorem failed_write_revalidates_counterexample :
    (swmm_setSubcatchParam loggingValidate sampleModel 0 SM_SubcProperty.unlisted 7).val.1
        = ERR_API_OUTBOUNDS
    ∧ (swmm_setSubcatchParam loggingValidate sampleModel 0 SM_SubcProperty.unlisted
        7).val.2.controlActions = [⟨0, 0, 0, "validate"⟩]
    ∧ sampleModel.controlActions = []
    ∧ (swmm_setLidUParam undefinedLid loggingValidate sampleModel 0 0 SM_LidUProperty.unlisted
        7).val.1 = ERR_API_OUTBOUNDS
    ∧ (swmm_setLidUParam undefinedLid loggingValidate sampleModel 0 0 SM_LidUProperty.unlisted
        7).val.2.controlActions = [⟨0, 0, 0, "validate"⟩]
    ∧ (swmm_setLidUOption undefinedLid loggingValidate sampleModel 0 0 SM_LidUOptions.unlisted
        7).1 = ERR_API_OUTBOUNDS
    ∧ (swmm_setLidUOption undefinedLid loggingValidate sampleModel 0 0 SM_LidUOptions.unlisted
        7).2.controlActions = [⟨0, 0, 0, "validate"⟩] := by
  simp [swmm_setSubcatchParam, swmm_setLidUParam, swmm_setLidUOption, lid_getLidUnit, Id.run,
    loggingValidate, sampleModel, sampleProject, projectWith, Traced.pure_eq, Traced.bind_eq]

/-- C21, amended. Failed single-field writes: on an open model with a valid
subcatchment index, `swmm_setSubcatchParam` (model not started) called with a
property outside its enumeration, and `swmm_setLidUParam` and
`swmm_setLidUOption` called with an unknown property on an existing LID unit,
return ERR_API_OUTBOUNDS, evaluate no division and write no field, and the model
they leave is the re-validation (`subcatch_validate`, `lid_validateLidGroup`) of
the subcatchment index applied to the model before the call. -/
theorem failed_write_revalidates (subcatch_validate lid_validateLidGroup : Int → Model → Model)
    (lidUnitError : Int → Int → ErrorCode) (m : Model) (i k : Int) (u : TLidUnit) (x : ℚ)
    (n : Int)
    (hopen : m.IsOpenFlag = true) (hi : 0 ≤ i ∧ i < m.Nobjects_SUBCATCH) :
    (m.IsStartedFlag = false →
        swmm_setSubcatchParam subcatch_validate m i SM_SubcProperty.unlisted x
          = ⟨(ERR_API_OUTBOUNDS, subcatch_validate i m), []⟩)
    ∧ (m.LidUnits i k = some u →
        swmm_setLidUParam lidUnitError lid_validateLidGroup m i k SM_LidUProperty.unlisted x
          = ⟨(ERR_API_OUTBOUNDS, lid_validateLidGroup i m), []⟩
        ∧ swmm_setLidUOption lidUnitError lid_validateLidGroup m i k SM_LidUOptions.unlisted n
          = (ERR_API_OUTBOUNDS, lid_validateLidGroup i m)) := by
  have hi' := index_in_range hi
  constructor
  · intro hstart
    simp [swmm_setSubcatchParam, hopen, hstart, hi', Traced.pure_eq, Traced.bind_eq]
  · intro hu
    have hsame : Function.update m.LidUnits i (Function.update (m.LidUnits i) k (some u))
        = m.LidUnits := by
      rw [← hu]
      simp
    constructor
    · simp [swmm_setLidUParam, lid_getLidUnit, hopen, hi', hu, hsame, Traced.pure_eq,
        Traced.bind_eq]
    · simp [swmm_setLidUOption, lid_getLidUnit, Id.run, hopen, hi', hu, hsame]

/-- C21, amended, at the sample model with a re-validation that changes
nothing: the three failed writes leave the model as it was. -/
theorem failed_write_revalidates_witness :
    swmm_setSubcatchParam keepModel sampleModel 0 SM_SubcProperty.unlisted 7
        = ⟨(ERR_API_OUTBOUNDS, sampleModel), []⟩
    ∧ swmm_setLidUParam undefinedLid keepModel sampleModel 0 0 SM_LidUProperty.unlisted 7
        = ⟨(ERR_API_OUTBOUNDS, sampleModel), []⟩
    ∧ swmm_setLidUOption undefinedLid keepModel sampleModel 0 0 SM_LidUOptions.unlisted 7
        = (ERR_API_OUTBOUNDS, sampleModel) :=
  ⟨(failed_write_revalidates keepModel keepModel undefinedLid sampleModel 0 0
      { area := 50, fullWidth := 5 } 7 7 rfl (by norm_num [sampleModel])).1 rfl,
   ((failed_write_revalidates keepModel keepModel undefinedLid sampleModel 0 0
      { area := 50, fullWidth := 5 } 7 7 rfl (by norm_num [sampleModel])).2
      (by simp [sampleModel])).1,
   ((failed_write_revalidates keepModel keepModel undefinedLid sampleModel 0 0
      { area := 50, fullWidth := 5 } 7 7 rfl (by norm_num [sampleModel])).2
      (by simp [sampleModel])).2⟩

/-- C22. Pre-zeroed outputs: for every model, every argument and every prior
content of the output, whenever one of the parameter getters, result getters,
simulation getters or `swmm_countObjects` returns a status other than success,
the output it leaves is 0. -/
theorem prezeroed_outputs (m : Model) (index : Int) (v : ℚ) (a : Int) (MAX_OBJ_TYPES : Int)
    (np : SM_NodeProperty) (lp : SM_LinkProperty) (sp : SM_SubcProperty)
    (nr : SM_NodeResult) (lr : SM_LinkResult) (sr : SM_SubcResult)
    (un : SM_Units) (so : SM_SimOption) (ss : SM_SimSetting) :
    ((swmm_getNodeParam m index np v).1 ≠ ERR_NONE → (swmm_getNodeParam m index np v).2 = 0)
    ∧ ((swmm_getLinkParam m index lp v).1 ≠ ERR_NONE → (swmm_getLinkParam m index lp v).2 = 0)
    ∧ ((swmm_getSubcatchParam m index sp v).1 ≠ ERR_NONE →
        (swmm_getSubcatchParam m index sp v).2 = 0)
    ∧ ((swmm_getNodeResult m index nr v).1 ≠ ERR_NONE → (swmm_getNodeResult m index nr v).2 = 0)
    ∧ ((swmm_getLinkResult m index lr v).1 ≠ ERR_NONE → (swmm_getLinkResult m index lr v).2 = 0)
    ∧ ((swmm_getSubcatchResult m index sr v).1 ≠ ERR_NONE →
        (swmm_getSubcatchResult m index sr v).2 = 0)
    ∧ ((swmm_getSimulationUnit m un a).1 ≠ ERR_NONE → (swmm_getSimulationUnit m un a).2 = 0)
    ∧ ((swmm_getSimulationAnalysisSetting m so a).1 ≠ ERR_NONE →
        (swmm_getSimulationAnalysisSetting m so a).2 = 0)
    ∧ ((swmm_getSimulationParam m ss v).1 ≠ ERR_NONE → (swmm_getSimulationParam m ss v).2 = 0)
    ∧ ((swmm_countObjects MAX_OBJ_TYPES m index a).1 ≠ ERR_NONE →
        (swmm_countObjects MAX_OBJ_TYPES m index a).2 = 0) := by
  by_cases hopen : m.IsOpenFlag = true
  · refine ⟨?_, ?_, ?_, ?_, ?_, ?_, ?_, ?_, ?_, ?_⟩
    · by_cases hi : index < 0 ∨ index ≥ m.Nobjects_NODE
      · simp [swmm_getNodeParam, Id.run, hopen, hi]
      · cases np <;> simp [swmm_getNodeParam, Id.run, hopen, hi]
    · by_cases hi : index < 0 ∨ index ≥ m.Nobjects_LINK
      · simp [swmm_getLinkParam, Id.run, hopen, hi]
      · cases lp <;> simp [swmm_getLinkParam, Id.run, hopen, hi]
    · by_cases hi : index < 0 ∨ index ≥ m.Nobjects_SUBCATCH
      · simp [swmm_getSubcatchParam, Id.run, hopen, hi]
      · cases sp <;> simp [swmm_getSubcatchParam, Id.run, hopen, hi]
    · by_cases hi : index < 0 ∨ index ≥ m.Nobjects_NODE
      · simp [swmm_getNodeResult, Id.run, hopen, hi]
      · cases nr <;> simp [swmm_getNodeResult, Id.run, hopen, hi]
    · by_cases hi : index < 0 ∨ index ≥ m.Nobjects_LINK
      · simp [swmm_getLinkResult, Id.run, hopen, hi]
      · cases lr <;> simp [swmm_getLinkResult, Id.run, hopen, hi]
    · by_cases hi : index < 0 ∨ index ≥ m.Nobjects_SUBCATCH
      · simp [swmm_getSubcatchResult, Id.run, hopen, hi]
      · cases sr <;> simp [swmm_getSubcatchResult, Id.run, hopen, hi]
    · cases un <;> simp [swmm_getSimulationUnit, Id.run, hopen]
    · cases so <;> simp [swmm_getSimulationAnalysisSetting, Id.run, hopen]
    · cases ss <;> simp [swmm_getSimulationParam, Id.run, hopen]
    · by_cases ht : index ≥ MAX_OBJ_TYPES <;> simp [swmm_countObjects, Id.run, ht]
  · simp at hopen
    refine ⟨?_, ?_, ?_, ?_, ?_, ?_, ?_, ?_, ?_, ?_⟩
    · simp [swmm_getNodeParam, Id.run, hopen]
    · simp [swmm_getLinkParam, Id.run, hopen]
    · simp [swmm_getSubcatchParam, Id.run, hopen]
    · simp [swmm_getNodeResult, Id.run, hopen]
    · simp [swmm_getLinkResult, Id.run, hopen]
    · simp [swmm_getSubcatchResult, Id.run, hopen]
    · simp [swmm_getSimulationUnit, Id.run, hopen]
    · simp [swmm_getSimulationAnalysisSetting, Id.run, hopen]
    · simp [swmm_getSimulationParam, Id.run, hopen]
    · by_cases ht : index ≥ MAX_OBJ_TYPES <;> simp [swmm_countObjects, Id.run, ht]

/-- C22 at the closed sample model with prior output content 99: the read of a
node parameter returns ERR_API_INPUTNOTOPEN and leaves 0; and the count of an
object type 20, with 16 types, returns ERR_API_OUTBOUNDS and leaves 0. -/
theorem prezeroed_outputs_witness :
    swmm_getNodeParam closedModel 0 SM_INVERTEL 99 = (ERR_API_INPUTNOTOPEN, 0)
    ∧ (swmm_countObjects 16 sampleModel 20 99).2 = 0 := by
  have h := prezeroed_outputs closedModel 0 99 99 16 SM_INVERTEL SM_OFFSET1 SM_WIDTH SM_NODEDEPTH
    SM_LINKFLOW SM_SUBCRAIN SM_Units.SM_FLOWUNIT SM_SimOption.SM_ALLOWPOND
    SM_SimSetting.SM_ROUTESTEP
  have h2 := prezeroed_outputs sampleModel 20 99 99 16 SM_INVERTEL SM_OFFSET1 SM_WIDTH
    SM_NODEDEPTH SM_LINKFLOW SM_SUBCRAIN SM_Units.SM_FLOWUNIT SM_SimOption.SM_ALLOWPOND
    SM_SimSetting.SM_ROUTESTEP
  have hs : (swmm_getNodeParam closedModel 0 SM_INVERTEL 99).1 = ERR_API_INPUTNOTOPEN := by
    simp [swmm_getNodeParam, Id.run, closedModel]
  refine ⟨Prod.ext hs (h.1 (by rw [hs]; simp)), h2.2.2.2.2.2.2.2.2.2 ?_⟩
  simp [swmm_countObjects, Id.run]

/-- C23, counterexample: on the closed sample model, with prior output content
77, the LID read accessors return ERR_API_INPUTNOTOPEN and leave 77 in the
output, not 0; on the open sample model a read of LID unit 1 of subcatchment 0,
which does not exist, and a read of an unknown group result leave 77 as
well. -/
theorem lid_outputs_not_prezeroed_counterexample :
    swmm_getLidUCount (fun _ _ => 1) closedModel 0 77 = (ERR_API_INPUTNOTOPEN, 77)
    ∧ swmm_getLidUParam undefinedLid closedModel 0 0 SM_UNITAREA 77 = (ERR_API_INPUTNOTOPEN, 77)
    ∧ swmm_getLidUOption undefinedLid closedModel 0 0 SM_LidUOptions.SM_NUMBER 77
        = (ERR_API_INPUTNOTOPEN, 77)
    ∧ (swmm_getLidCParam closedModel.toProject 0 SM_SURFACE SM_THICKNESS 77).val
        = (ERR_API_INPUTNOTOPEN, 77)
    ∧ swmm_getLidCOverflow closedModel.toProject 0 77 = (ERR_API_INPUTNOTOPEN, 77)
    ∧ swmm_getLidUFluxRates undefinedLid closedModel 0 0 SM_FluxLayer.SM_SOIL 77
        = (ERR_API_INPUTNOTOPEN, 77)
    ∧ swmm_getLidGResult closedModel 0 SM_LidGResult.SM_PERVAREA 77 = (ERR_API_INPUTNOTOPEN, 77)
    ∧ swmm_getLidUResult undefinedLid closedModel 0 0 SM_LidUResult.SM_INFLOW 77
        = (ERR_API_INPUTNOTOPEN, 77)
    ∧ swmm_getLidUParam undefinedLid sampleModel 0 1 SM_UNITAREA 77 = (ERR_API_UNDEFINED_LID, 77)
    ∧ swmm_getLidGResult sampleModel 0 SM_LidGResult.SM_PERVAREA 77
        = (ERR_API_UNDEFINED_LID, 77) := by
  simp [swmm_getLidUCount, swmm_getLidUParam, swmm_getLidUOption, swmm_getLidCParam,
    swmm_getLidCOverflow, swmm_getLidUFluxRates, swmm_getLidGResult, swmm_getLidUResult,
    lid_getLidUnit, undefinedLid, Id.run, closedModel, sampleModel, sampleProject, projectWith,
    Traced.pure_eq]

set_option maxHeartbeats 4000000 in
/-- C23, amended. Outputs of the LID read accessors: none of them assigns its
output before its checks, so for every model, every argument and every prior
content v of the output, whenever `swmm_getLidUCount`, `swmm_getLidUParam`,
`swmm_getLidUOption`, `swmm_getLidCOverflow`, `swmm_getLidUFluxRates`,
`swmm_getLidGResult` or `swmm_getLidUResult` returns a status other than
success, the output holds v after the call; the same holds for
`swmm_getLidCParam` except in the read of the Storage clog factor. -/
theorem lid_outputs_kept_on_failure (lidUnitError : Int → Int → ErrorCode)
    (lid_getLidUnitCount : Model → Int → Int) (m : Model) (index lidIndex : Int) (v : ℚ)
    (a : Int) (up : SM_LidUProperty) (uo : SM_LidUOptions) (layer : SM_LidLayer)
    (cp : SM_LidLayerProperty) (fl : SM_FluxLayer) (gr : SM_LidGResult) (ur : SM_LidUResult) :
    ((swmm_getLidUCount lid_getLidUnitCount m index a).1 ≠ ERR_NONE →
        (swmm_getLidUCount lid_getLidUnitCount m index a).2 = a)
    ∧ ((swmm_getLidUParam lidUnitError m index lidIndex up v).1 ≠ ERR_NONE →
        (swmm_getLidUParam lidUnitError m index lidIndex up v).2 = v)
    ∧ ((swmm_getLidUOption lidUnitError m index lidIndex uo a).1 ≠ ERR_NONE →
        (swmm_getLidUOption lidUnitError m index lidIndex uo a).2 = a)
    ∧ (¬ (layer = SM_STOR ∧ cp = SM_CLOGFACTOR) →
        (swmm_getLidCParam m.toProject index layer cp v).val.1 ≠ ERR_NONE →
        (swmm_getLidCParam m.toProject index layer cp v).val.2 = v)
    ∧ ((swmm_getLidCOverflow m.toProject index a).1 ≠ ERR_NONE →
        (swmm_getLidCOverflow m.toProject index a).2 = a)
    ∧ ((swmm_getLidUFluxRates lidUnitError m index lidIndex fl v).1 ≠ ERR_NONE →
        (swmm_getLidUFluxRates lidUnitError m index lidIndex fl v).2 = v)
    ∧ ((swmm_getLidGResult m index gr v).1 ≠ ERR_NONE → (swmm_getLidGResult m index gr v).2 = v)
    ∧ ((swmm_getLidUResult lidUnitError m index lidIndex ur v).1 ≠ ERR_NONE →
        (swmm_getLidUResult lidUnitError m index lidIndex ur v).2 = v) := by
  by_cases hopen : m.IsOpenFlag = true
  · have hopen' : m.toProject.IsOpenFlag = true := hopen
    refine ⟨?_, ?_, ?_, ?_, ?_, ?_, ?_, ?_⟩
    · by_cases hi : index < 0 ∨ index ≥ m.Nobjects_SUBCATCH <;>
        simp [swmm_getLidUCount, Id.run, hopen, hi]
    · by_cases hi : index < 0 ∨ index ≥ m.Nobjects_SUBCATCH
      · simp [swmm_getLidUParam, Id.run, hopen, hi]
      · cases hu : m.LidUnits index lidIndex <;> cases up <;>
          simp [swmm_getLidUParam, lid_getLidUnit, Id.run, hopen, hi, hu]
    · by_cases hi : index < 0 ∨ index ≥ m.Nobjects_SUBCATCH
      · simp [swmm_getLidUOption, Id.run, hopen, hi]
      · cases hu : m.LidUnits index lidIndex <;> cases uo <;>
          simp [swmm_getLidUOption, lid_getLidUnit, Id.run, hopen, hi, hu]
    · intro hne
      by_cases hi : index < 0 ∨ index ≥ m.Nobjects_LID
      · simp [swmm_getLidCParam, hopen', hi, Traced.pure_eq]
      · cases layer <;> cases cp <;>
          simp [swmm_getLidCParam, hopen', hi, Traced.pure_eq, Traced.bind_eq, fdiv] at hne ⊢ <;>
          split_ifs <;> simp
    · by_cases hi : index < 0 ∨ index ≥ m.Nobjects_LID <;>
        simp [swmm_getLidCOverflow, Id.run, hopen', hi]
    · by_cases hi : index < 0 ∨ index ≥ m.Nobjects_SUBCATCH
      · simp [swmm_getLidUFluxRates, Id.run, hopen, hi]
      · cases hu : m.LidUnits index lidIndex <;> cases fl <;>
          simp [swmm_getLidUFluxRates, lid_getLidUnit, Id.run, hopen, hi, hu]
    · by_cases hi : index < 0 ∨ index ≥ m.Nobjects_SUBCATCH
      · simp [swmm_getLidGResult, Id.run, hopen, hi]
      · cases hg : m.LidGroups index <;> cases gr <;>
          simp [swmm_getLidGResult, Id.run, hopen, hi, hg]
    · by_cases hi : index < 0 ∨ index ≥ m.Nobjects_SUBCATCH
      · simp [swmm_getLidUResult, Id.run, hopen, hi]
      · cases hu : m.LidUnits index lidIndex <;> cases ur <;>
          simp [swmm_getLidUResult, lid_getLidUnit, Id.run, hopen, hi, hu]
  · simp at hopen
    have hopen' : m.toProject.IsOpenFlag = false := hopen
    simp [swmm_getLidUCount, swmm_getLidUParam, swmm_getLidUOption, swmm_getLidCParam,
      swmm_getLidCOverflow, swmm_getLidUFluxRates, swmm_getLidGResult, swmm_getLidUResult,
      Id.run, hopen, hopen', Traced.pure_eq]

/-- C23, amended, at the sample model with prior output content 77: the read
of an unknown parameter of LID unit 0 returns ERR_API_OUTBOUNDS and leaves 77,
and so does the read of an unknown property of the Soil layer of control 0. -/
theorem lid_outputs_kept_on_failure_witness :
    (swmm_getLidUParam undefinedLid sampleModel 0 0 SM_LidUProperty.unlisted 77).2 = 77
    ∧ (swmm_getLidCParam sampleModel.toProject 0 SM_SOIL SM_LidLayerProperty.unlisted 77).val.2
        = 77 :=
  ⟨(lid_outputs_kept_on_failure undefinedLid (fun _ _ => 1) sampleModel 0 0 77 77
      SM_LidUProperty.unlisted SM_LidUOptions.SM_INDEX SM_SOIL SM_LidLayerProperty.unlisted
      SM_FluxLayer.SM_SOIL SM_LidGResult.SM_PERVAREA SM_LidUResult.SM_INFLOW).2.1
      (by simp [swmm_getLidUParam, lid_getLidUnit, Id.run, sampleModel, sampleProject,
            projectWith]),
   (lid_outputs_kept_on_failure undefinedLid (fun _ _ => 1) sampleModel 0 0 77 77
      SM_LidUProperty.unlisted SM_LidUOptions.SM_INDEX SM_SOIL SM_LidLayerProperty.unlisted
      SM_FluxLayer.SM_SOIL SM_LidGResult.SM_PERVAREA SM_LidUResult.SM_INFLOW).2.2.2.1
      (by simp)
      (by simp [swmm_getLidCParam, sampleModel, sampleProject, projectWith, Traced.pure_eq])⟩

/-! ## Forcing: outfall stage, gage precipitation, node inflow -/

/-- C24. Outfall staging: on an open model (started or not) with a valid node
index, `swmm_setOutfallStage` returns ERR_API_WRONG_TYPE and leaves the model as
it was when the type of the node is not OUTFALL; when it is OUTFALL the call
returns success and the model it leaves is the one before the call with the
record Outfall[Node[index].subIndex] replaced by type STAGED_OUTFALL and
outfallStage = stage / UCF(LENGTH), the one division evaluated. With an index
out of range the status is ERR_API_OBJECT_INDEX whatever the node table
holds. -/
theorem outfall_staging (OUTFALL STAGED_OUTFALL : Int) (m : Model) (index : Int) (stage : ℚ)
    (hopen : m.IsOpenFlag = true) :
    ((0 ≤ index ∧ index < m.Nobjects_NODE) →
      ((m.Node index).type ≠ OUTFALL →
        swmm_setOutfallStage OUTFALL STAGED_OUTFALL m index stage
          = ⟨(ERR_API_WRONG_TYPE, m), []⟩)
      ∧ ((m.Node index).type = OUTFALL →
        swmm_setOutfallStage OUTFALL STAGED_OUTFALL m index stage
          = ⟨(ERR_NONE, { m with Outfall := Function.update m.Outfall (m.Node index).subIndex ⟨STAGED_OUTFALL, stage / m.UCF LENGTH⟩ }),
              [m.UCF LENGTH]⟩))
    ∧ ((index < 0 ∨ index ≥ m.Nobjects_NODE) →
        swmm_setOutfallStage OUTFALL STAGED_OUTFALL m index stage
          = ⟨(ERR_API_OBJECT_INDEX, m), []⟩) := by
  constructor
  · intro hi
    have hi' := index_in_range hi
    constructor
    · intro ht
      simp [swmm_setOutfallStage, hopen, hi', ht, Traced.pure_eq, Traced.bind_eq]
    · intro ht
      by_cases hs : (m.Outfall (m.Node index).subIndex).type = STAGED_OUTFALL
      · simp [swmm_setOutfallStage, hopen, hi', ht, hs, Traced.pure_eq, Traced.bind_eq, fdiv]
      · simp [swmm_setOutfallStage, hopen, hi', ht, hs, Traced.pure_eq, Traced.bind_eq, fdiv]
  · intro hi
    simp [swmm_setOutfallStage, hopen, hi, Traced.pure_eq, Traced.bind_eq]

/-- C24 on the model with eleven nodes (UCF(LENGTH) = 3, OUTFALL = 1,
STAGED_OUTFALL = 5): node 1 is an outfall and the stage 6 is stored as 2 with
the staged type; node 0 is not and the call returns ERR_API_WRONG_TYPE. -/
theorem outfall_staging_witness :
    (swmm_setOutfallStage 1 5 elevenNodeModel 1 6).val.1 = ERR_NONE
    ∧ (swmm_setOutfallStage 1 5 elevenNodeModel 1 6).val.2.Outfall 0 = ⟨5, 2⟩
    ∧ swmm_setOutfallStage 1 5 elevenNodeModel 0 6 = ⟨(ERR_API_WRONG_TYPE, elevenNodeModel), []⟩ := by
  have h := (outfall_staging 1 5 elevenNodeModel 1 6 rfl).1
    (by norm_num [elevenNodeModel, sampleModel])
  have h0 := (outfall_staging 1 5 elevenNodeModel 0 6 rfl).1
    (by norm_num [elevenNodeModel, sampleModel])
  refine ⟨?_, ?_, h0.1 (by simp [elevenNodeModel])⟩
  · rw [h.2 (by simp [elevenNodeModel])]
  · rw [h.2 (by simp [elevenNodeModel])]
    simp [elevenNodeModel, sampleModel]
    norm_num

/-- C25. Gage precipitation override: on an open model (started or not) with a
valid gage index, `swmm_setGagePrecip` returns success and leaves the model
with Gage[index] replaced by dataSource = RAIN_API, isUsed = TRUE, coGage = -1,
externalRain = p, whatever the record held, and nothing else changed: every
other gage is as before, and a second call with the same p changes nothing
more. -/
theorem gage_precip_override (RAIN_API : Int) (m : Model) (index : Int) (p : ℚ)
    (hopen : m.IsOpenFlag = true) (hi : 0 ≤ index ∧ index < m.Nobjects_GAGE) :
    swmm_setGagePrecip RAIN_API m index p
      = (ERR_NONE, { m with Gage := Function.update m.Gage index ⟨RAIN_API, true, -1, p⟩ })
    ∧ (∀ j, j ≠ index → (swmm_setGagePrecip RAIN_API m index p).2.Gage j = m.Gage j)
    ∧ swmm_setGagePrecip RAIN_API (swmm_setGagePrecip RAIN_API m index p).2 index p
      = swmm_setGagePrecip RAIN_API m index p := by
  have hi' := index_in_range hi
  have h1 : swmm_setGagePrecip RAIN_API m index p
      = (ERR_NONE, { m with Gage := Function.update m.Gage index ⟨RAIN_API, true, -1, p⟩ }) := by
    by_cases hd : (m.Gage index).dataSource = RAIN_API <;>
      by_cases hu : (m.Gage index).isUsed = true <;>
      by_cases hc : (m.Gage index).coGage = -1 <;>
      simp [swmm_setGagePrecip, Id.run, hopen, hi', hd, hu, hc]
  refine ⟨h1, ?_, ?_⟩
  · intro j hj
    rw [h1]
    simp [Function.update_noteq hj]
  · rw [h1]
    simp [swmm_setGagePrecip, Id.run, hopen, hi']

/-- C25, the scenario of the specification: five gages, the simulation
started, gage 2 set to 0.3 (RAIN_API = 2). -/
theorem gage_precip_override_witness :
    (swmm_setGagePrecip 2 fiveGageModel 2 (3 / 10)).1 = ERR_NONE
    ∧ (swmm_setGagePrecip 2 fiveGageModel 2 (3 / 10)).2.Gage 2 = ⟨2, true, -1, 3 / 10⟩
    ∧ (swmm_setGagePrecip 2 fiveGageModel 2 (3 / 10)).2.Gage 4 = fiveGageModel.Gage 4 := by
  have h := gage_precip_override 2 fiveGageModel 2 (3 / 10) rfl
    (by norm_num [fiveGageModel, startedModel, sampleModel])
  refine ⟨?_, ?_, h.2.1 4 (by norm_num)⟩
  · rw [h.1]
  · rw [h.1]
    simp

/-- The search loop of `swmm_setNodeInflow` ends on `NULL` when no record of
the list has param = -1. -/
theorem findFlowInflow_none (l : List TExtInflow) (h : ∀ r ∈ l, r.param ≠ -1) :
    findFlowInflow l = none := by
  induction l with
  | nil => rfl
  | cons r rest ih =>
    have hr : r.param ≠ -1 := h r (List.mem_cons_self r rest)
    have hrest : ∀ x ∈ rest, x.param ≠ -1 := fun x hx => h x (List.mem_cons_of_mem r hx)
    simp [findFlowInflow, hr, ih hrest]

/-- C26. Node inflow injection twice: on an open model with a valid node index
whose list of external inflows has no record with param = -1, and with
`inflow_setExtInflow` succeeding by putting the new record at the head of the
list, two calls `swmm_setNodeInflow(index, q1)` and `swmm_setNodeInflow(index,
q2)` both return success; after the first the list is the old one with one new
record in front (param -1, no time series, no pattern, factors 1, baseline 0,
interface inflow q1), after the second it is the same list with interface
inflow q2 in that record, so that exactly one record has param = -1; and the
second call does not depend on `inflow_setExtInflow` at all. -/
theorem node_inflow_twice (FLOW_INFLOW : Int)
    (inflow_setExtInflow : Int → Int → Int → Int → Int → ℚ → ℚ → ℚ → Model → ErrorCode × Model)
    (m : Model) (index : Int) (q1 q2 : ℚ)
    (hopen : m.IsOpenFlag = true) (hi : 0 ≤ index ∧ index < m.Nobjects_NODE)
    (hnone : ∀ r ∈ (m.Node index).extInflow, r.param ≠ -1)
    (hext : ∀ a, inflow_setExtInflow index (-1) FLOW_INFLOW (-1) (-1) 1 0 1 a
        = prependExtInflow index (-1) FLOW_INFLOW (-1) (-1) 1 0 1 a) :
    (swmm_setNodeInflow FLOW_INFLOW inflow_setExtInflow m index q1).1 = ERR_NONE
    ∧ ((swmm_setNodeInflow FLOW_INFLOW inflow_setExtInflow m index q1).2.Node index).extInflow
        = ⟨-1, FLOW_INFLOW, -1, -1, 1, 0, 1, q1⟩ :: (m.Node index).extInflow
    ∧ (swmm_setNodeInflow FLOW_INFLOW inflow_setExtInflow
        (swmm_setNodeInflow FLOW_INFLOW inflow_setExtInflow m index q1).2 index q2).1 = ERR_NONE
    ∧ ((swmm_setNodeInflow FLOW_INFLOW inflow_setExtInflow
        (swmm_setNodeInflow FLOW_INFLOW inflow_setExtInflow m index q1).2 index q2).2.Node
          index).extInflow
        = ⟨-1, FLOW_INFLOW, -1, -1, 1, 0, 1, q2⟩ :: (m.Node index).extInflow
    ∧ (((swmm_setNodeInflow FLOW_INFLOW inflow_setExtInflow
        (swmm_setNodeInflow FLOW_INFLOW inflow_setExtInflow m index q1).2 index q2).2.Node
          index).extInflow.countP (fun r => r.param = -1)) = 1
    ∧ (∀ g, swmm_setNodeInflow FLOW_INFLOW g
          (swmm_setNodeInflow FLOW_INFLOW inflow_setExtInflow m index q1).2 index q2
        = swmm_setNodeInflow FLOW_INFLOW inflow_setExtInflow
          (swmm_setNodeInflow FLOW_INFLOW inflow_setExtInflow m index q1).2 index q2) := by
  have hi' := index_in_range hi
  have hfind := findFlowInflow_none _ hnone
  have hcount : List.countP (fun r => decide (r.param = -1)) (m.Node index).extInflow = 0 := by
    rw [List.countP_eq_zero]
    intro r hr
    simpa using hnone r hr
  have h1 : swmm_setNodeInflow FLOW_INFLOW inflow_setExtInflow m index q1
      = (ERR_NONE, { m with Node := Function.update m.Node index { m.Node index with extInflow := ⟨-1, FLOW_INFLOW, -1, -1, 1, 0, 1, q1⟩ :: (m.Node index).extInflow } }) := by
    simp [swmm_setNodeInflow, Id.run, hopen, hi', hfind, hext, prependExtInflow, List.modify]
  have h2 : ∀ g, swmm_setNodeInflow FLOW_INFLOW g
      (swmm_setNodeInflow FLOW_INFLOW inflow_setExtInflow m index q1).2 index q2
      = (ERR_NONE, { m with Node := Function.update m.Node index { m.Node index with extInflow := ⟨-1, FLOW_INFLOW, -1, -1, 1, 0, 1, q2⟩ :: (m.Node index).extInflow } }) := by
    intro g
    rw [h1]
    simp [swmm_setNodeInflow, Id.run, hopen, hi', findFlowInflow, List.modify]
  refine ⟨?_, ?_, ?_, ?_, ?_, ?_⟩
  · rw [h1]
  · rw [h1]
    simp
  · rw [h2]
  · rw [h2]
    simp
  · rw [h2]
    simp [hcount]
  · intro g
    rw [h2 g, h2 inflow_setExtInflow]

/-- C26, the scenario of the specification: node 10 of eleven has no external
inflow; after the rates 5 and then 8 its list holds the one record with param
-1 and interface inflow 8 (FLOW_INFLOW = 1). -/
theorem node_inflow_twice_witness :
    ((swmm_setNodeInflow 1 prependExtInflow
        (swmm_setNodeInflow 1 prependExtInflow elevenNodeModel 10 5).2 10 8).2.Node 10).extInflow
      = [⟨-1, 1, -1, -1, 1, 0, 1, 8⟩] := by
  have h := (node_inflow_twice 1 prependExtInflow elevenNodeModel 10 5 8 rfl
    (by norm_num [elevenNodeModel, sampleModel]) (by simp [elevenNodeModel])
    (fun _ => rfl)).2.2.2.1
  rw [h]
  simp [elevenNodeModel]

/-! ## LID groups -/

/-- C27. Absent LID group: on an open model with a valid subcatchment index,
`swmm_getLidGResult` returns ERR_API_UNDEFINED_LID exactly when there is no
group for the subcatchment, for every result type, and then leaves the output
as it was, whatever the tables hold; when there is a group it returns success
with pervArea * UCF(LENGTH)^2, flowToPerv * UCF(FLOW), oldDrainFlow * UCF(FLOW)
or newDrainFlow * UCF(FLOW), and ERR_API_OUTBOUNDS for any other type. -/
theorem lid_group_result (m : Model) (index : Int) (v : ℚ)
    (hopen : m.IsOpenFlag = true) (hi : 0 ≤ index ∧ index < m.Nobjects_SUBCATCH) :
    (∀ type : SM_LidGResult,
        (swmm_getLidGResult m index type v).1 = ERR_API_UNDEFINED_LID ↔ m.LidGroups index = none)
    ∧ (m.LidGroups index = none →
        ∀ type : SM_LidGResult, swmm_getLidGResult m index type v = (ERR_API_UNDEFINED_LID, v))
    ∧ (∀ lidGroup : TLidGroup, m.LidGroups index = some lidGroup →
        swmm_getLidGResult m index SM_LidGResult.SM_PERVAREA v
          = (ERR_NONE, lidGroup.pervArea * (m.UCF LENGTH) ^ 2)
        ∧ swmm_getLidGResult m index SM_LidGResult.SM_FLOWTOPERV v
          = (ERR_NONE, lidGroup.flowToPerv * m.UCF FLOW)
        ∧ swmm_getLidGResult m index SM_LidGResult.SM_OLDDRAINFLOW v
          = (ERR_NONE, lidGroup.oldDrainFlow * m.UCF FLOW)
        ∧ swmm_getLidGResult m index SM_LidGResult.SM_NEWDRAINFLOW v
          = (ERR_NONE, lidGroup.newDrainFlow * m.UCF FLOW)
        ∧ swmm_getLidGResult m index SM_LidGResult.unlisted v = (ERR_API_OUTBOUNDS, v)) := by
  have hi' := index_in_range hi
  refine ⟨?_, ?_, ?_⟩
  · intro type
    cases hg : m.LidGroups index <;> cases type <;>
      simp [swmm_getLidGResult, Id.run, hopen, hi', hg]
  · intro hg type
    simp [swmm_getLidGResult, Id.run, hopen, hi', hg]
  · intro lidGroup hg
    simp [swmm_getLidGResult, SQR, Id.run, hopen, hi', hg, pow_two]

/-- C27 at the sample model (UCF(LENGTH) = 3): without a group the read of the
pervious area returns ERR_API_UNDEFINED_LID and leaves the output 77; with a
group of pervious area 4 it returns 36. -/
theorem lid_group_result_witness :
    swmm_getLidGResult sampleModel 0 SM_LidGResult.SM_PERVAREA 77 = (ERR_API_UNDEFINED_LID, 77)
    ∧ swmm_getLidGResult { sampleModel with LidGroups := fun _ => some { pervArea := 4 } } 0
        SM_LidGResult.SM_PERVAREA 77 = (ERR_NONE, 36) := by
  have h := lid_group_result sampleModel 0 77 rfl (by norm_num [sampleModel])
  have hg := lid_group_result { sampleModel with LidGroups := fun _ => some { pervArea := 4 } } 0
    77 rfl (by norm_num [sampleModel])
  refine ⟨h.2.1 (by simp [sampleModel]) _, ?_⟩
  rw [(hg.2.2 { pervArea := 4 } rfl).1]
  norm_num [sampleModel]

/-! ## Statistics: averages -/

/-- C28. Zero-count guard for outfall and pump averages: when the statistics
fetch succeeds with the record `o` (outfall) or `p` (pump), `swmm_getOutfallStats`
and `swmm_getPumpStats` return success; with totalPeriods > 0 the average flow
is the accumulated sum * UCF(FLOW) / totalPeriods and the one division is by
totalPeriods, which is not 0; with totalPeriods <= 0 the average flow is 0 and
no division is performed. -/
theorem period_average_guard (LperFT3 : ℚ) (COUNT : Int) (LOG10 : ℚ → ℚ)
    (stats_getOutfallStat : Model → Int → SM_OutfallStats → ErrorCode × SM_OutfallStats)
    (stats_getPumpStat : Model → Int → SM_PumpStats → ErrorCode × SM_PumpStats)
    (m : Model) (index : Int) (o0 o : SM_OutfallStats) (p0 p : SM_PumpStats)
    (ho : stats_getOutfallStat m index o0 = (ERR_NONE, o))
    (hp : stats_getPumpStat m index p0 = (ERR_NONE, p)) :
    (swmm_getOutfallStats LperFT3 COUNT LOG10 stats_getOutfallStat m index o0).val.1 = ERR_NONE
    ∧ (swmm_getPumpStats stats_getPumpStat m index p0).val.1 = ERR_NONE
    ∧ (o.totalPeriods > 0 →
        (swmm_getOutfallStats LperFT3 COUNT LOG10 stats_getOutfallStat m index o0).val.2.avgFlow
          = o.avgFlow * m.UCF FLOW / (o.totalPeriods : ℚ)
        ∧ (swmm_getOutfallStats LperFT3 COUNT LOG10 stats_getOutfallStat m index o0).divisors
          = [(o.totalPeriods : ℚ)]
        ∧ (swmm_getOutfallStats LperFT3 COUNT LOG10 stats_getOutfallStat m index
            o0).noZeroDivisor)
    ∧ (o.totalPeriods ≤ 0 →
        (swmm_getOutfallStats LperFT3 COUNT LOG10 stats_getOutfallStat m index o0).val.2.avgFlow
          = 0
        ∧ (swmm_getOutfallStats LperFT3 COUNT LOG10 stats_getOutfallStat m index o0).divisors
          = [])
    ∧ (p.totalPeriods > 0 →
        (swmm_getPumpStats stats_getPumpStat m index p0).val.2.avgFlow
          = p.avgFlow * m.UCF FLOW / (p.totalPeriods : ℚ)
        ∧ (swmm_getPumpStats stats_getPumpStat m index p0).divisors = [(p.totalPeriods : ℚ)]
        ∧ (swmm_getPumpStats stats_getPumpStat m index p0).noZeroDivisor)
    ∧ (p.totalPeriods ≤ 0 →
        (swmm_getPumpStats stats_getPumpStat m index p0).val.2.avgFlow = 0
        ∧ (swmm_getPumpStats stats_getPumpStat m index p0).divisors = []) := by
  refine ⟨?_, ?_, ?_, ?_, ?_, ?_⟩
  · simp only [swmm_getOutfallStats, ho]
    split_ifs <;> simp [Traced.pure_eq, Traced.bind_eq, fdiv]
  · simp only [swmm_getPumpStats, hp]
    split_ifs <;> simp [Traced.pure_eq, Traced.bind_eq, fdiv]
  · intro hpos
    have hne : (o.totalPeriods : ℚ) ≠ 0 := by
      have : o.totalPeriods ≠ 0 := ne_of_gt hpos
      exact_mod_cast this
    simp only [swmm_getOutfallStats, ho]
    split_ifs <;>
      simp [Traced.pure_eq, Traced.bind_eq, fdiv, Traced.noZeroDivisor, hne, mul_div_assoc]
  · intro hle
    have hnot : ¬ o.totalPeriods > 0 := not_lt.mpr hle
    simp only [swmm_getOutfallStats, ho]
    split_ifs <;> simp [Traced.pure_eq, Traced.bind_eq, fdiv]
  · intro hpos
    have hne : (p.totalPeriods : ℚ) ≠ 0 := by
      have : p.totalPeriods ≠ 0 := ne_of_gt hpos
      exact_mod_cast this
    simp only [swmm_getPumpStats, hp]
    split_ifs <;>
      simp [Traced.pure_eq, Traced.bind_eq, fdiv, Traced.noZeroDivisor, hne, mul_div_assoc]
  · intro hle
    have hnot : ¬ p.totalPeriods > 0 := not_lt.mpr hle
    simp only [swmm_getPumpStats, hp]
    split_ifs <;> simp [Traced.pure_eq, Traced.bind_eq, fdiv]

/-- C28 at the sample model (UCF(FLOW) = 5): an accumulated flow of 12 over 4
periods gives the average 15 for the outfall and for the pump (LperFT3 = 28,
COUNT = 2, LOG10 taken as the identity, no pollutant). -/
theorem period_average_guard_witness :
    (swmm_getOutfallStats 28 2 id (fetched { avgFlow := 12, totalPeriods := 4 }) sampleModel 0
        {}).val.2.avgFlow = 15
    ∧ (swmm_getPumpStats (fetched { avgFlow := 12, totalPeriods := 4 }) sampleModel 0
        {}).val.2.avgFlow = 15 := by
  have h := period_average_guard 28 2 id (fetched { avgFlow := 12, totalPeriods := 4 })
    (fetched { avgFlow := 12, totalPeriods := 4 }) sampleModel 0 {}
    { avgFlow := 12, totalPeriods := 4 } {} { avgFlow := 12, totalPeriods := 4 } rfl rfl
  refine ⟨?_, ?_⟩
  · rw [(h.2.2.1 (by decide)).1]
    norm_num [sampleModel]
  · rw [(h.2.2.2.2.1 (by decide)).1]
    norm_num [sampleModel]

/-- The step-count averages as the source computes them: when the statistics
fetch succeeds with the record `n` (node) or `s` (storage), `swmm_getNodeStats`
and `swmm_getStorageStats` return success, the first division is by
`StepCount`, whatever its value, and the averages are the accumulated sum times
UCF / StepCount. -/
theorem step_count_average (stats_getNodeStat : Model → Int → SM_NodeStats → ErrorCode × SM_NodeStats)
    (stats_getStorageStat : Model → Int → SM_StorageStats → ErrorCode × SM_StorageStats)
    (m : Model) (index : Int) (n0 n : SM_NodeStats) (s0 s : SM_StorageStats)
    (hn : stats_getNodeStat m index n0 = (ERR_NONE, n))
    (hs : stats_getStorageStat m index s0 = (ERR_NONE, s)) :
    (swmm_getNodeStats stats_getNodeStat m index n0).val.1 = ERR_NONE
    ∧ (swmm_getNodeStats stats_getNodeStat m index n0).val.2.avgDepth
        = n.avgDepth * (m.UCF LENGTH / (m.StepCount : ℚ))
    ∧ (swmm_getNodeStats stats_getNodeStat m index n0).divisors
        = [(m.StepCount : ℚ), 3600, 3600, 3600]
    ∧ (swmm_getStorageStats stats_getStorageStat m index s0).val.1 = ERR_NONE
    ∧ (swmm_getStorageStats stats_getStorageStat m index s0).val.2.avgVol
        = s.avgVol * (m.UCF VOLUME / (m.StepCount : ℚ))
    ∧ (swmm_getStorageStats stats_getStorageStat m index s0).divisors = [(m.StepCount : ℚ)] := by
  simp [swmm_getNodeStats, swmm_getStorageStats, hn, hs, Traced.pure_eq, Traced.bind_eq, fdiv]

/-- The step-count averages after at least one step: with StepCount > 0 and a
successful fetch no divisor of `swmm_getNodeStats` and `swmm_getStorageStats`
is 0. -/
theorem step_count_average_of_pos
    (stats_getNodeStat : Model → Int → SM_NodeStats → ErrorCode × SM_NodeStats)
    (stats_getStorageStat : Model → Int → SM_StorageStats → ErrorCode × SM_StorageStats)
    (m : Model) (index : Int) (n0 n : SM_NodeStats) (s0 s : SM_StorageStats)
    (hn : stats_getNodeStat m index n0 = (ERR_NONE, n))
    (hs : stats_getStorageStat m index s0 = (ERR_NONE, s)) (hpos : m.StepCount > 0) :
    (swmm_getNodeStats stats_getNodeStat m index n0).noZeroDivisor
    ∧ (swmm_getStorageStats stats_getStorageStat m index s0).noZeroDivisor := by
  have hne : (m.StepCount : ℚ) ≠ 0 := by
    have : m.StepCount ≠ 0 := ne_of_gt hpos
    exact_mod_cast this
  have h := step_count_average stats_getNodeStat stats_getStorageStat m index n0 n s0 s hn hs
  unfold Traced.noZeroDivisor
  rw [h.2.2.1, h.2.2.2.2.2]
  simp [hne]

/-- C29, the code at the failing input: the started sample model before its
first routing step (StepCount = 0) and a fetch that succeeds with accumulated
depth 12 and accumulated volume 12. `swmm_getNodeStats` and
`swmm_getStorageStats` return success and each performs the division of the
unit factor by StepCount = 0: the divisor 0 is the first of the divisors of
the node call and the only one of the storage call. After ten steps the same
records give 12 * 3 / 10 and 12 * 2 / 10 with no division by 0. -/
theorem step_count_average_at_failing_input :
    noStepModel.StepCount = 0
    ∧ (swmm_getNodeStats (fetched { avgDepth := 12 }) noStepModel 0 {}).val.1 = ERR_NONE
    ∧ (swmm_getNodeStats (fetched { avgDepth := 12 }) noStepModel 0 {}).divisors
        = [0, 3600, 3600, 3600]
    ∧ ¬ (swmm_getNodeStats (fetched { avgDepth := 12 }) noStepModel 0 {}).noZeroDivisor
    ∧ (swmm_getStorageStats (fetched { avgVol := 12 }) noStepModel 0 {}).val.1 = ERR_NONE
    ∧ (swmm_getStorageStats (fetched { avgVol := 12 }) noStepModel 0 {}).divisors = [0]
    ∧ ¬ (swmm_getStorageStats (fetched { avgVol := 12 }) noStepModel 0 {}).noZeroDivisor
    ∧ (swmm_getNodeStats (fetched { avgDepth := 12 }) tenStepModel 0 {}).val.2.avgDepth = 18 / 5
    ∧ (swmm_getStorageStats (fetched { avgVol := 12 }) tenStepModel 0 {}).val.2.avgVol = 12 / 5
    ∧ (swmm_getNodeStats (fetched { avgDepth := 12 }) tenStepModel 0 {}).noZeroDivisor
    ∧ (swmm_getStorageStats (fetched { avgVol := 12 }) tenStepModel 0 {}).noZeroDivisor := by
  have h0 := step_count_average (fetched { avgDepth := 12 }) (fetched { avgVol := 12 })
    noStepModel 0 {} { avgDepth := 12 } {} { avgVol := 12 } rfl rfl
  have h10 := step_count_average (fetched { avgDepth := 12 }) (fetched { avgVol := 12 })
    tenStepModel 0 {} { avgDepth := 12 } {} { avgVol := 12 } rfl rfl
  have hpos := step_count_average_of_pos (fetched { avgDepth := 12 }) (fetched { avgVol := 12 })
    tenStepModel 0 {} { avgDepth := 12 } {} { avgVol := 12 } rfl rfl
    (by decide)
  refine ⟨rfl, h0.1, ?_, ?_, h0.2.2.2.1, ?_, ?_, ?_, ?_, hpos.1, hpos.2⟩
  · rw [h0.2.2.1]
    simp [noStepModel]
  · unfold Traced.noZeroDivisor
    rw [h0.2.2.1]
    simp [noStepModel]
  · rw [h0.2.2.2.2.2]
    simp [noStepModel]
  · unfold Traced.noZeroDivisor
    rw [h0.2.2.2.2.2]
    simp [noStepModel]
  · rw [h10.2.1]
    norm_num [tenStepModel, startedModel, sampleModel]
  · rw [h10.2.2.2.2.1]
    norm_num [tenStepModel, startedModel, sampleModel]

/-! ## Instantaneous results -/

/-- C30, counterexample: the sample model is open and not started, the indices
0 are valid and the result types are listed; `swmm_getNodeResult`,
`swmm_getLinkResult` and `swmm_getSubcatchResult` return success. -/
theorem results_require_started_counterexample :
    sampleModel.IsOpenFlag = true ∧ sampleModel.IsStartedFlag = false
    ∧ (swmm_getNodeResult sampleModel 0 SM_NODEDEPTH 0).1 = ERR_NONE
    ∧ (swmm_getLinkResult sampleModel 0 SM_LINKFLOW 0).1 = ERR_NONE
    ∧ (swmm_getSubcatchResult sampleModel 0 SM_SUBCRUNOFF 0).1 = ERR_NONE := by
  simp [swmm_getNodeResult, swmm_getLinkResult, swmm_getSubcatchResult, Id.run, sampleModel,
    sampleProject, projectWith]

/-- C30, as the source has it: on an open model, with a valid index and a
listed result type, `swmm_getNodeResult`, `swmm_getLinkResult` and
`swmm_getSubcatchResult` return success whether or not the simulation has
started: status and value are the same for both values of the started flag. -/
theorem results_need_only_open (m : Model) (i j k : Int) (nr : SM_NodeResult)
    (lr : SM_LinkResult) (sr : SM_SubcResult) (v0 : ℚ)
    (hopen : m.IsOpenFlag = true)
    (hi : 0 ≤ i ∧ i < m.Nobjects_NODE) (hj : 0 ≤ j ∧ j < m.Nobjects_LINK)
    (hk : 0 ≤ k ∧ k < m.Nobjects_SUBCATCH)
    (hnr : nr ≠ SM_NodeResult.unlisted) (hlr : lr ≠ SM_LinkResult.unlisted)
    (hsr : sr ≠ SM_SubcResult.unlisted) :
    (swmm_getNodeResult m i nr v0).1 = ERR_NONE
    ∧ (swmm_getLinkResult m j lr v0).1 = ERR_NONE
    ∧ (swmm_getSubcatchResult m k sr v0).1 = ERR_NONE
    ∧ (∀ started : Bool,
        swmm_getNodeResult { m with IsStartedFlag := started } i nr v0
          = swmm_getNodeResult m i nr v0
        ∧ swmm_getLinkResult { m with IsStartedFlag := started } j lr v0
          = swmm_getLinkResult m j lr v0
        ∧ swmm_getSubcatchResult { m with IsStartedFlag := started } k sr v0
          = swmm_getSubcatchResult m k sr v0) := by
  have hi' := index_in_range hi
  have hj' := index_in_range hj
  have hk' := index_in_range hk
  refine ⟨?_, ?_, ?_, ?_⟩
  · cases nr <;> simp [swmm_getNodeResult, Id.run, hopen, hi'] at hnr ⊢
  · cases lr <;> simp [swmm_getLinkResult, Id.run, hopen, hj'] at hlr ⊢
  · cases sr <;> simp [swmm_getSubcatchResult, Id.run, hopen, hk'] at hsr ⊢
  · intro started
    refine ⟨?_, ?_, ?_⟩
    · cases nr <;> simp [swmm_getNodeResult, Id.run, hopen, hi']
    · cases lr <;> simp [swmm_getLinkResult, Id.run, hopen, hj']
    · cases sr <;> simp [swmm_getSubcatchResult, Id.run, hopen, hk']

/-- C30 at the sample model, open and not started: the depth of node 0, the
flow of link 0 and the runoff of subcatchment 0 are read with success. -/
theorem results_need_only_open_witness :
    sampleModel.IsStartedFlag = false
    ∧ (swmm_getNodeResult sampleModel 0 SM_NODEDEPTH 7).1 = ERR_NONE
    ∧ (swmm_getLinkResult sampleModel 0 SM_LINKFLOW 7).1 = ERR_NONE
    ∧ (swmm_getSubcatchResult sampleModel 0 SM_SUBCRUNOFF 7).1 = ERR_NONE := by
  have h := results_need_only_open sampleModel 0 0 0 SM_NODEDEPTH SM_LINKFLOW SM_SUBCRUNOFF 7
    rfl (by norm_num [sampleModel]) (by norm_num [sampleModel]) (by norm_num [sampleModel])
    (by decide) (by decide) (by decide)
  exact ⟨rfl, h.1, h.2.1, h.2.2.1⟩

/-! ## Object lookup and counts -/

/-- C31. Name lookup contract of `swmm_project_findObject`: for every model,
type, id and prior content of the caller's index variable, if
`project_findObject(type, id)` is -1 the call returns ERR_API_OBJECT_INDEX and
the caller's variable holds what it held before; otherwise the call returns
success and the variable holds the index found. -/
theorem project_findObject_contract (project_findObject : Model → Int → String → Int)
    (m : Model) (type : Int) (id : String) (index : Int) :
    (project_findObject m type id = -1 →
        swmm_project_findObject project_findObject m type id index
          = (ERR_API_OBJECT_INDEX, index))
    ∧ (project_findObject m type id ≠ -1 →
        swmm_project_findObject project_findObject m type id index
          = (ERR_NONE, project_findObject m type id)) := by
  constructor
  · intro h
    simp [swmm_project_findObject, Id.run, h]
  · intro h
    simp [swmm_project_findObject, Id.run, h]

/-- C31 at the sample model, the caller's variable holding 9 before the call:
a lookup that finds nothing leaves 9 with ERR_API_OBJECT_INDEX, a lookup that
finds index 4 leaves 4 with success. -/
theorem project_findObject_contract_witness :
    swmm_project_findObject notFound sampleModel 2 "J1" 9 = (ERR_API_OBJECT_INDEX, 9)
    ∧ swmm_project_findObject foundAtFour sampleModel 2 "J1" 9 = (ERR_NONE, 4) :=
  ⟨(project_findObject_contract notFound sampleModel 2 "J1" 9).1 rfl,
   (project_findObject_contract foundAtFour sampleModel 2 "J1" 9).2 (by decide)⟩

/-- The two paths of `swmm_countObjects`: a type at or above `MAX_OBJ_TYPES`
gives ERR_API_OUTBOUNDS and the count 0; every type below it, negative types
included, gives success and the content of `Nobjects` at that offset, whatever
the open flag. -/
theorem countObjects_paths (MAX_OBJ_TYPES : Int) (m : Model) (type count : Int) :
    (type ≥ MAX_OBJ_TYPES →
        swmm_countObjects MAX_OBJ_TYPES m type count = (ERR_API_OUTBOUNDS, 0))
    ∧ (type < MAX_OBJ_TYPES →
        swmm_countObjects MAX_OBJ_TYPES m type count = (ERR_NONE, m.Nobjects type)) := by
  constructor
  · intro h
    simp [swmm_countObjects, Id.run, h]
  · intro h
    have h' : ¬ type ≥ MAX_OBJ_TYPES := not_le.mpr h
    simp [swmm_countObjects, Id.run, h']

/-- C32, the code at the failing input: with 16 object types, a count table
holding 2 at offset 2 and the memory before the table holding 7, the count of
type -1 is returned with success as 7, the content of `Nobjects[-1]`, not as
ERR_API_OUTBOUNDS with 0; type 2 gives 2 and type 16 gives ERR_API_OUTBOUNDS
with 0. -/
theorem countObjects_negative_type_at_failing_input :
    swmm_countObjects 16 countModel (-1) 0 = (ERR_NONE, 7)
    ∧ swmm_countObjects 16 countModel (-1) 0 = (ERR_NONE, countModel.Nobjects (-1))
    ∧ swmm_countObjects 16 countModel (-1) 0 ≠ (ERR_API_OUTBOUNDS, 0)
    ∧ swmm_countObjects 16 countModel 2 0 = (ERR_NONE, 2)
    ∧ swmm_countObjects 16 countModel 16 0 = (ERR_API_OUTBOUNDS, 0) := by
  have h1 := (countObjects_paths 16 countModel (-1) 0).2 (by decide)
  have h2 := (countObjects_paths 16 countModel 2 0).2 (by decide)
  have h3 := (countObjects_paths 16 countModel 16 0).1 (by decide)
  rw [h1, h2, h3]
  simp [countModel]

/-! ## Reads on a closed model -/

/-- C33, counterexample: on a model that is not open (count table holding 2 at
offset 2), `swmm_countObjects` returns success with the count 2,
`swmm_project_findObject` returns success with the index that the lookup finds,
and `swmm_getCurrentDateTimeStr` returns ERR_API_SIM_NRUNNING; none of the
three returns ERR_API_INPUTNOTOPEN. -/
theorem reads_require_open_counterexample :
    closedCountModel.IsOpenFlag = false
    ∧ swmm_countObjects 16 closedCountModel 2 0 = (ERR_NONE, 2)
    ∧ swmm_project_findObject foundAtFour closedCountModel 2 "J1" 0 = (ERR_NONE, 4)
    ∧ swmm_getCurrentDateTimeStr (fun t => t) (fun _ => "01/01/2000") (fun _ => "00:00:00")
        closedCountModel "" = (ERR_API_SIM_NRUNNING, "") := by
  simp [swmm_countObjects, swmm_project_findObject, swmm_getCurrentDateTimeStr, foundAtFour,
    Id.run, closedCountModel, countModel, sampleModel]

set_option maxHeartbeats 4000000 in
/-- C33, amended. Reads on a model that is not open: `swmm_getObjectIndex`,
`swmm_getObjectId`, `swmm_getNodeType`, `swmm_getLinkType`,
`swmm_getLinkConnections`, `swmm_getLinkDirection`,
`swmm_getSubcatchOutConnection`, the parameter getters, the result getters, the
simulation getters, the LID accessors and `swmm_getSimulationDateTime` return
ERR_API_INPUTNOTOPEN with an output that does not depend on any table (the
initial value where the function sets one, the prior content otherwise).
`swmm_countObjects` and `swmm_project_findObject` do what they do on an open
model, and `swmm_getCurrentDateTimeStr` returns ERR_API_SIM_NRUNNING and leaves
the buffer as it was when the model has not started. -/
theorem reads_while_closed (m : Model) (hclosed : m.IsOpenFlag = false)
    (project_findObject : Model → Int → String → Int) (label : Int → SM_ObjectType)
    (lidUnitError : Int → Int → ErrorCode) (lid_getLidUnitCount : Model → Int → Int)
    (datetime_decodeDate datetime_decodeTime : ℚ → Int × Int × Int) (getDateTime : ℚ → ℚ)
    (datetime_dateToStr datetime_timeToStr : ℚ → String) (SUBCATCH NODE MAX_OBJ_TYPES : Int)
    (type index lidIndex a b c d e f : Int) (id : String) (v : ℚ)
    (np : SM_NodeProperty) (lp : SM_LinkProperty) (sp : SM_SubcProperty)
    (nr : SM_NodeResult) (lr : SM_LinkResult) (sr : SM_SubcResult)
    (un : SM_Units) (so : SM_SimOption) (ss : SM_SimSetting) (tt : SM_TimeType)
    (up : SM_LidUProperty) (uo : SM_LidUOptions) (layer : SM_LidLayer)
    (cp : SM_LidLayerProperty) (fl : SM_FluxLayer) (gr : SM_LidGResult) (ur : SM_LidUResult) :
    swmm_getObjectIndex project_findObject m type id a = (ERR_API_INPUTNOTOPEN, a)
    ∧ swmm_getObjectId label m type index id = (ERR_API_INPUTNOTOPEN, "")
    ∧ swmm_getNodeType m index a = (ERR_API_INPUTNOTOPEN, -1)
    ∧ swmm_getLinkType m index a = (ERR_API_INPUTNOTOPEN, -1)
    ∧ swmm_getLinkConnections m index a b = (ERR_API_INPUTNOTOPEN, -1, -1)
    ∧ swmm_getLinkDirection m index a = (ERR_API_INPUTNOTOPEN, 0)
    ∧ swmm_getSubcatchOutConnection SUBCATCH NODE m index a b = (ERR_API_INPUTNOTOPEN, -1, -1)
    ∧ swmm_getNodeParam m index np v = (ERR_API_INPUTNOTOPEN, 0)
    ∧ swmm_getLinkParam m index lp v = (ERR_API_INPUTNOTOPEN, 0)
    ∧ swmm_getSubcatchParam m index sp v = (ERR_API_INPUTNOTOPEN, 0)
    ∧ swmm_getNodeResult m index nr v = (ERR_API_INPUTNOTOPEN, 0)
    ∧ swmm_getLinkResult m index lr v = (ERR_API_INPUTNOTOPEN, 0)
    ∧ swmm_getSubcatchResult m index sr v = (ERR_API_INPUTNOTOPEN, 0)
    ∧ swmm_getSimulationUnit m un a = (ERR_API_INPUTNOTOPEN, 0)
    ∧ swmm_getSimulationAnalysisSetting m so a = (ERR_API_INPUTNOTOPEN, 0)
    ∧ swmm_getSimulationParam m ss v = (ERR_API_INPUTNOTOPEN, 0)
    ∧ swmm_getSimulationDateTime datetime_decodeDate datetime_decodeTime m tt a b c d e f
        = (ERR_API_INPUTNOTOPEN, 1900, 1, 1, 0, 0, 0)
    ∧ swmm_getLidUCount lid_getLidUnitCount m index a = (ERR_API_INPUTNOTOPEN, a)
    ∧ swmm_getLidUParam lidUnitError m index lidIndex up v = (ERR_API_INPUTNOTOPEN, v)
    ∧ swmm_getLidUOption lidUnitError m index lidIndex uo a = (ERR_API_INPUTNOTOPEN, a)
    ∧ swmm_getLidCOverflow m.toProject index a = (ERR_API_INPUTNOTOPEN, a)
    ∧ swmm_getLidCParam m.toProject index layer cp v = ⟨(ERR_API_INPUTNOTOPEN, v), []⟩
    ∧ swmm_getLidUFluxRates lidUnitError m index lidIndex fl v = (ERR_API_INPUTNOTOPEN, v)
    ∧ swmm_getLidGResult m index gr v = (ERR_API_INPUTNOTOPEN, v)
    ∧ swmm_getLidUResult lidUnitError m index lidIndex ur v = (ERR_API_INPUTNOTOPEN, v)
    ∧ swmm_countObjects MAX_OBJ_TYPES m type a
        = (if type ≥ MAX_OBJ_TYPES then (ERR_API_OUTBOUNDS, 0) else (ERR_NONE, m.Nobjects type))
    ∧ swmm_project_findObject project_findObject m type id a
        = (if project_findObject m type id = -1 then (ERR_API_OBJECT_INDEX, a)
            else (ERR_NONE, project_findObject m type id))
    ∧ (m.IsStartedFlag = false →
        swmm_getCurrentDateTimeStr getDateTime datetime_dateToStr datetime_timeToStr m id
          = (ERR_API_SIM_NRUNNING, id)) := by
  have hclosed' : m.toProject.IsOpenFlag = false := hclosed
  refine ⟨?_, ?_, ?_, ?_, ?_, ?_, ?_, ?_, ?_, ?_, ?_, ?_, ?_, ?_, ?_, ?_, ?_, ?_, ?_, ?_, ?_, ?_,
    ?_, ?_, ?_, ?_, ?_, ?_⟩
  · simp [swmm_getObjectIndex, Id.run, hclosed]
  · simp [swmm_getObjectId, Id.run, hclosed]
  · simp [swmm_getNodeType, Id.run, hclosed]
  · simp [swmm_getLinkType, Id.run, hclosed]
  · simp [swmm_getLinkConnections, Id.run, hclosed]
  · simp [swmm_getLinkDirection, Id.run, hclosed]
  · simp [swmm_getSubcatchOutConnection, Id.run, hclosed]
  · simp [swmm_getNodeParam, Id.run, hclosed]
  · simp [swmm_getLinkParam, Id.run, hclosed]
  · simp [swmm_getSubcatchParam, Id.run, hclosed]
  · simp [swmm_getNodeResult, Id.run, hclosed]
  · simp [swmm_getLinkResult, Id.run, hclosed]
  · simp [swmm_getSubcatchResult, Id.run, hclosed]
  · simp [swmm_getSimulationUnit, Id.run, hclosed]
  · simp [swmm_getSimulationAnalysisSetting, Id.run, hclosed]
  · simp [swmm_getSimulationParam, Id.run, hclosed]
  · simp [swmm_getSimulationDateTime, Id.run, hclosed]
  · simp [swmm_getLidUCount, Id.run, hclosed]
  · simp [swmm_getLidUParam, Id.run, hclosed]
  · simp [swmm_getLidUOption, Id.run, hclosed]
  · simp [swmm_getLidCOverflow, Id.run, hclosed']
  · simp [swmm_getLidCParam, hclosed', Traced.pure_eq]
  · simp [swmm_getLidUFluxRates, Id.run, hclosed]
  · simp [swmm_getLidGResult, Id.run, hclosed]
  · simp [swmm_getLidUResult, Id.run, hclosed]
  · by_cases ht : type ≥ MAX_OBJ_TYPES <;> simp [swmm_countObjects, Id.run, ht]
  · by_cases hf : project_findObject m type id = -1 <;>
      simp [swmm_project_findObject, Id.run, hf]
  · intro hs
    simp [swmm_getCurrentDateTimeStr, Id.run, hs]

/-- C33, amended, at the closed sample model: the read of the depth of node 0
returns ERR_API_INPUTNOTOPEN with 0, and the read of the ID of node 0 returns
ERR_API_INPUTNOTOPEN with the empty string. -/
theorem reads_while_closed_witness :
    swmm_getNodeResult closedModel 0 SM_NODEDEPTH 77 = (ERR_API_INPUTNOTOPEN, 0)
    ∧ swmm_getObjectId (fun _ => SM_ObjectType.SM_NODE) closedModel 2 0 "old"
        = (ERR_API_INPUTNOTOPEN, "") :=
  ⟨(reads_while_closed closedModel rfl foundAtFour (fun _ => SM_ObjectType.SM_NODE) undefinedLid
      (fun _ _ => 1) (fun _ => (2000, 1, 1)) (fun _ => (0, 0, 0)) (fun t => t)
      (fun _ => "01/01/2000") (fun _ => "00:00:00") 1 2 16 2 0 0 0 0 0 0 0 0 "old" 77
      SM_INVERTEL SM_OFFSET1 SM_WIDTH SM_NODEDEPTH SM_LINKFLOW SM_SUBCRUNOFF
      SM_Units.unlisted SM_SimOption.unlisted SM_SimSetting.unlisted SM_TimeType.SM_STARTDATE
      SM_UNITAREA SM_LidUOptions.SM_INDEX SM_SOIL SM_THICKNESS SM_FluxLayer.SM_SOIL
      SM_LidGResult.SM_PERVAREA SM_LidUResult.SM_INFLOW).2.2.2.2.2.2.2.2.2.2.1,
   (reads_while_closed closedModel rfl foundAtFour (fun _ => SM_ObjectType.SM_NODE) undefinedLid
      (fun _ _ => 1) (fun _ => (2000, 1, 1)) (fun _ => (0, 0, 0)) (fun t => t)
      (fun _ => "01/01/2000") (fun _ => "00:00:00") 1 2 16 2 0 0 0 0 0 0 0 0 "old" 77
      SM_INVERTEL SM_OFFSET1 SM_WIDTH SM_NODEDEPTH SM_LINKFLOW SM_SUBCRUNOFF
      SM_Units.unlisted SM_SimOption.unlisted SM_SimSetting.unlisted SM_TimeType.SM_STARTDATE
      SM_UNITAREA SM_LidUOptions.SM_INDEX SM_SOIL SM_THICKNESS SM_FluxLayer.SM_SOIL
      SM_LidGResult.SM_PERVAREA SM_LidUResult.SM_INFLOW).2.1⟩

/-! ## Link setting and node inflow -/

/-- C34. Link setting clamp: on an open model with a valid link index, with
`link_setSetting` leaving the target setting of the link and the report as they
are, `swmm_setLinkSetting(index, s)` returns success and the target setting of
the link is afterwards 0 if s < 0, 1 if s > 1 and the link is not a pump, and s
otherwise; it is at least 0, and at most 1 when the link is not a pump; and
when control actions are reported the one line added to the report carries
that clamped value, no line being added otherwise. -/
theorem link_setting_clamped (PUMP : Int) (link_setSetting : Int → ℚ → Model → Model)
    (getDateTime : ℚ → ℚ) (m : Model) (index : Int) (s : ℚ)
    (hopen : m.IsOpenFlag = true) (hi : 0 ≤ index ∧ index < m.Nobjects_LINK)
    (hset : ∀ a, ((link_setSetting index 0 a).Link index).targetSetting
        = (a.Link index).targetSetting)
    (hrep : ∀ a, (link_setSetting index 0 a).controlActions = a.controlActions) :
    (swmm_setLinkSetting PUMP link_setSetting getDateTime m index s).1 = ERR_NONE
    ∧ ((swmm_setLinkSetting PUMP link_setSetting getDateTime m index s).2.Link index).targetSetting
        = (if s < 0 then 0 else if (m.Link index).type ≠ PUMP ∧ s > 1 then 1 else s)
    ∧ 0 ≤ ((swmm_setLinkSetting PUMP link_setSetting getDateTime m index s).2.Link
        index).targetSetting
    ∧ ((m.Link index).type ≠ PUMP →
        ((swmm_setLinkSetting PUMP link_setSetting getDateTime m index s).2.Link
          index).targetSetting ≤ 1)
    ∧ ((swmm_setLinkSetting PUMP link_setSetting getDateTime m index s).2.RptFlags_controls = true →
        (swmm_setLinkSetting PUMP link_setSetting getDateTime m index s).2.controlActions
          = m.controlActions ++
            [⟨getDateTime
                (swmm_setLinkSetting PUMP link_setSetting getDateTime m index s).2.NewRoutingTime,
              index, if s < 0 then 0 else if (m.Link index).type ≠ PUMP ∧ s > 1 then 1 else s,
              "ToolkitAPI"⟩])
    ∧ ((swmm_setLinkSetting PUMP link_setSetting getDateTime m index s).2.RptFlags_controls = false →
        (swmm_setLinkSetting PUMP link_setSetting getDateTime m index s).2.controlActions
          = m.controlActions) := by
  have hi' := index_in_range hi
  by_cases hneg : s < 0
  · have hnot : ¬ (1 : ℚ) < 0 := by norm_num
    by_cases hrpt : (link_setSetting index 0 { m with Link := Function.update m.Link index { m.Link index with targetSetting := 0 } }).RptFlags_controls = true
    · simp [swmm_setLinkSetting, Id.run, hopen, hi', hneg, hnot, hrpt, hset, hrep]
    · simp [swmm_setLinkSetting, Id.run, hopen, hi', hneg, hnot, hrpt, hset, hrep]
  · by_cases hbig : (m.Link index).type ≠ PUMP ∧ s > 1
    · by_cases hrpt : (link_setSetting index 0 { m with Link := Function.update m.Link index { m.Link index with targetSetting := 1 } }).RptFlags_controls = true
      · simp [swmm_setLinkSetting, Id.run, hopen, hi', hneg, hbig, hrpt, hset, hrep]
      · simp [swmm_setLinkSetting, Id.run, hopen, hi', hneg, hbig, hrpt, hset, hrep]
    · have h0 : 0 ≤ s := not_lt.mp hneg
      have h1 : (m.Link index).type ≠ PUMP → s ≤ 1 := by
        intro hp
        by_contra hgt
        exact hbig ⟨hp, not_le.mp hgt⟩
      by_cases hrpt : (link_setSetting index 0 { m with Link := Function.update m.Link index { m.Link index with targetSetting := s } }).RptFlags_controls = true
      · simp [swmm_setLinkSetting, Id.run, hopen, hi', hneg, hbig, hrpt, hset, hrep, h0]
        exact h1
      · simp [swmm_setLinkSetting, Id.run, hopen, hi', hneg, hbig, hrpt, hset, hrep, h0]
        exact h1

/-- C34 at the started sample model with control actions reported (link 0 is
not a pump, PUMP = 4): the requested setting 5/2 is stored as 1, and the line
of the report carries 1. -/
theorem link_setting_clamped_witness :
    ((swmm_setLinkSetting 4 applySetting (fun t => t) reportingModel 0 (5 / 2)).2.Link
        0).targetSetting = 1
    ∧ (swmm_setLinkSetting 4 applySetting (fun t => t) reportingModel 0 (5 / 2)).2.controlActions
        = [⟨0, 0, 1, "ToolkitAPI"⟩] := by
  have h := link_setting_clamped 4 applySetting (fun t => t) reportingModel 0 (5 / 2) rfl
    (by norm_num [reportingModel, startedModel, sampleModel])
    (by intro a; simp [applySetting]) (by intro a; simp [applySetting])
  refine ⟨?_, ?_⟩
  · rw [h.2.1]
    norm_num [reportingModel, startedModel, sampleModel]
  · rw [h.2.2.2.2.1 (by norm_num [swmm_setLinkSetting, Id.run, applySetting, reportingModel,
      startedModel, sampleModel, sampleProject, projectWith])]
    norm_num [swmm_setLinkSetting, Id.run, applySetting, reportingModel, startedModel,
      sampleModel, sampleProject, projectWith]

/-- The search loop of `swmm_setNodeInflow` ends on the first record with
param = -1: behind records with another param its position is their number. -/
theorem findFlowInflow_append (pre post : List TExtInflow) (r : TExtInflow)
    (hpre : ∀ x ∈ pre, x.param ≠ -1) (hr : r.param = -1) :
    findFlowInflow (pre ++ r :: post) = some pre.length := by
  induction pre with
  | nil => simp [findFlowInflow, hr]
  | cons x rest ih =>
    have hx : x.param ≠ -1 := hpre x (List.mem_cons_self x rest)
    have hrest : ∀ y ∈ rest, y.param ≠ -1 := fun y hy => hpre y (List.mem_cons_of_mem x hy)
    simp [findFlowInflow, hx, ih hrest]

/-- Changing the record at the position behind `pre` changes that record and
no other. -/
theorem modify_append {α : Type} (f : α → α) (pre post : List α) (r : α) :
    List.modify f pre.length (pre ++ r :: post) = pre ++ f r :: post := by
  induction pre with
  | nil => rfl
  | cons x rest ih => simpa [List.modify] using ih

/-- C35. Node inflow update reuses an existing flow record wherever it sits: on
an open model with a valid node index whose list of external inflows is `pre`,
then a record `r` with param = -1, then `post`, no record of `pre` having param
= -1, `swmm_setNodeInflow(index, q)` returns success whatever
`inflow_setExtInflow` is, and leaves the model as it was except that the list
of the node is `pre`, then `r` with extIfaceInflow = q, then `post`: same
length, same order, every other record and every other field unchanged. -/
theorem node_inflow_reuses_record (FLOW_INFLOW : Int)
    (inflow_setExtInflow : Int → Int → Int → Int → Int → ℚ → ℚ → ℚ → Model → ErrorCode × Model)
    (m : Model) (index : Int) (q : ℚ) (pre post : List TExtInflow) (r : TExtInflow)
    (hopen : m.IsOpenFlag = true) (hi : 0 ≤ index ∧ index < m.Nobjects_NODE)
    (hl : (m.Node index).extInflow = pre ++ r :: post)
    (hpre : ∀ x ∈ pre, x.param ≠ -1) (hr : r.param = -1) :
    swmm_setNodeInflow FLOW_INFLOW inflow_setExtInflow m index q
      = (ERR_NONE, { m with Node := Function.update m.Node index { m.Node index with extInflow := pre ++ { r with extIfaceInflow := q } :: post } }) := by
  have hi' := index_in_range hi
  have hfind := findFlowInflow_append pre post r hpre hr
  simp [swmm_setNodeInflow, Id.run, hopen, hi', hl, hfind, modify_append]

/-- C35 at a node whose list holds a pollutant record and then two flow
records: the rate 9 is stored in the first flow record, the second of the
list, and the two other records are as before; the function that would create
a record fails here and is not called. -/
theorem node_inflow_reuses_record_witness :
    ((swmm_setNodeInflow 1 (fun _ _ _ _ _ _ _ _ a => (ERR_MEMORY, a)) pollutantFirstModel 0
        9).2.Node 0).extInflow
      = [⟨0, 1, -1, -1, 1, 0, 1, 4⟩, ⟨-1, 1, -1, -1, 1, 0, 1, 9⟩, ⟨-1, 1, -1, -1, 1, 0, 1, 3⟩] := by
  have h := node_inflow_reuses_record 1 (fun _ _ _ _ _ _ _ _ a => (ERR_MEMORY, a))
    pollutantFirstModel 0 9 [⟨0, 1, -1, -1, 1, 0, 1, 4⟩] [⟨-1, 1, -1, -1, 1, 0, 1, 3⟩]
    ⟨-1, 1, -1, -1, 1, 0, 1, 2⟩ rfl (by norm_num [pollutantFirstModel, sampleModel])
    (by simp [pollutantFirstModel]) (by simp) rfl
  rw [h]
  simp

/-! ## Statistics: pollutant loads of an outfall -/

/-- The loop over the pollutants: each load with an index from 0 to n - 1 is
multiplied once by LperFT3 * Pollut[p].mcf, and nothing else is changed. -/
theorem scaleTotalLoad_apply (LperFT3 : ℚ) (Pollut : Int → TPollut) (n : Nat)
    (totalLoad : Int → ℚ) (p : Int) :
    scaleTotalLoad LperFT3 Pollut n totalLoad p
      = if 0 ≤ p ∧ p < n then totalLoad p * (LperFT3 * (Pollut p).mcf) else totalLoad p := by
  induction n with
  | zero =>
    have h : ¬ (0 ≤ p ∧ p < 0) := by omega
    simp [scaleTotalLoad, h]
  | succ k ih =>
    have hstep : scaleTotalLoad LperFT3 Pollut (k + 1) totalLoad
        = Function.update (scaleTotalLoad LperFT3 Pollut k totalLoad) (k : Int)
            (scaleTotalLoad LperFT3 Pollut k totalLoad k * (LperFT3 * (Pollut k).mcf)) := by
      simp [scaleTotalLoad, List.range_succ, List.foldl_append]
    rw [hstep]
    by_cases hp : p = (k : Int)
    · subst hp
      have h1 : ¬ ((0 : Int) ≤ (k : Int) ∧ (k : Int) < (k : Int)) := by omega
      have h2 : (0 : Int) ≤ (k : Int) ∧ (k : Int) < ((k + 1 : Nat) : Int) := by
        constructor <;> omega
      rw [Function.update_same, ih, if_neg h1, if_pos h2]
    · rw [Function.update_noteq hp, ih]
      by_cases hl : 0 ≤ p ∧ p < (k : Int)
      · have h2 : 0 ≤ p ∧ p < ((k + 1 : Nat) : Int) := by
          constructor <;> omega
        rw [if_pos hl, if_pos h2]
      · have h2 : ¬ (0 ≤ p ∧ p < ((k + 1 : Nat) : Int)) := by
          intro h
          apply hl
          constructor <;> omega
        rw [if_neg hl, if_neg h2]

/-- The loads that `swmm_getOutfallStats` leaves, as the source computes them:
with N = Nobjects[POLLUT] > 0 and a fetch that succeeds with the record `o`,
the loads are the scaled ones, except that the load at offset N is replaced by
its LOG10 when `Pollut[N].units` is COUNT; the units of the pollutants 0 to
N - 1 are not read. -/
theorem outfallStats_totalLoad (LperFT3 : ℚ) (COUNT : Int) (LOG10 : ℚ → ℚ)
    (stats_getOutfallStat : Model → Int → SM_OutfallStats → ErrorCode × SM_OutfallStats)
    (m : Model) (index : Int) (o0 o : SM_OutfallStats)
    (ho : stats_getOutfallStat m index o0 = (ERR_NONE, o)) (hN : m.Nobjects_POLLUT > 0) :
    (swmm_getOutfallStats LperFT3 COUNT LOG10 stats_getOutfallStat m index o0).val.2.totalLoad
      = if (m.Pollut m.Nobjects_POLLUT).units = COUNT then
          Function.update (scaleTotalLoad LperFT3 m.Pollut m.Nobjects_POLLUT.toNat o.totalLoad)
            m.Nobjects_POLLUT
            (LOG10 (scaleTotalLoad LperFT3 m.Pollut m.Nobjects_POLLUT.toNat o.totalLoad
              m.Nobjects_POLLUT))
        else scaleTotalLoad LperFT3 m.Pollut m.Nobjects_POLLUT.toNat o.totalLoad := by
  simp only [swmm_getOutfallStats, ho]
  split_ifs <;> simp_all [Traced.pure_eq, Traced.bind_eq, fdiv]

/-- C36, the code at the failing input: one pollutant, measured in counts
(COUNT = 2), with mass conversion factor 3, LperFT3 = 28, and a fetched load of
10, the memory behind the one entry of the load array holding 50. For every
function LOG10 the load of pollutant 0 comes back as 10 * (28 * 3) = 840: the
conversion for count units is not applied to it. What is tested instead is
`Pollut[1].units`, behind the pollutant table: when the memory there holds 2,
the load at offset 1, behind the array, is replaced by LOG10 of itself. In both
cases the load of pollutant 0 was multiplied once. -/
theorem outfall_pollutant_indexing_at_failing_input (LOG10 : ℚ → ℚ) :
    onePollutantModel.Nobjects_POLLUT = 1
    ∧ (onePollutantModel.Pollut 0).units = 2
    ∧ (swmm_getOutfallStats 28 2 LOG10 (fetched sampleOutfallStats) onePollutantModel 0
        {}).val.1 = ERR_NONE
    ∧ (swmm_getOutfallStats 28 2 LOG10 (fetched sampleOutfallStats) onePollutantModel 0
        {}).val.2.totalLoad 0 = 840
    ∧ (swmm_getOutfallStats 28 2 LOG10 (fetched sampleOutfallStats) onePollutantModel 0
        {}).val.2.totalLoad 1 = 50
    ∧ (swmm_getOutfallStats 28 2 LOG10 (fetched sampleOutfallStats) strayPollutantModel 0
        {}).val.2.totalLoad 0 = 840
    ∧ (swmm_getOutfallStats 28 2 LOG10 (fetched sampleOutfallStats) strayPollutantModel 0
        {}).val.2.totalLoad 1 = LOG10 50 := by
  have h1 := outfallStats_totalLoad 28 2 LOG10 (fetched sampleOutfallStats) onePollutantModel 0
    {} sampleOutfallStats rfl (by decide)
  have h2 := outfallStats_totalLoad 28 2 LOG10 (fetched sampleOutfallStats) strayPollutantModel 0
    {} sampleOutfallStats rfl (by decide)
  have hs : (swmm_getOutfallStats 28 2 LOG10 (fetched sampleOutfallStats) onePollutantModel 0
      {}).val.1 = ERR_NONE := by
    simp only [swmm_getOutfallStats, fetched]
    split_ifs <;> simp [Traced.pure_eq, Traced.bind_eq, fdiv]
  refine ⟨rfl, ?_, hs, ?_, ?_, ?_, ?_⟩
  · simp [onePollutantModel]
  · rw [h1]
    norm_num [onePollutantModel, scaleTotalLoad_apply, sampleOutfallStats]
  · rw [h1]
    norm_num [onePollutantModel, scaleTotalLoad_apply, sampleOutfallStats]
  · rw [h2]
    norm_num [strayPollutantModel, scaleTotalLoad_apply, sampleOutfallStats]
  · rw [h2]
    norm_num [strayPollutantModel, scaleTotalLoad_apply, sampleOutfallStats]

/-! ## Order of the co-factor edits -/

set_option maxHeartbeats 4000000 in
/-- C37. Independent co-factor edits commute: for every project state, index,
new thickness value a and new void ratio r, with re-validation leaving the
state as it is, writing SM_THICKNESS = a and then SM_VOIDFRAC = r to the
Storage layer gives the same status and the same project, hence the same
thickness, voidFrac and canonical clogFactor, as the two writes in the opposite
order, and so for the Pavement layer; on an open project with a valid index
both orders end with success, thickness a / UCF(RAINDEPTH) and voidFrac
r / (r + 1). -/
theorem thickness_voidFrac_edits_commute (validate : Int → Project → Project) (pr : Project)
    (i : Int) (a r : ℚ) (hval : ∀ j p, validate j p = p) :
    (swmm_setLidCParam validate (swmm_setLidCParam validate pr i SM_STOR SM_THICKNESS a).val.2 i
        SM_STOR SM_VOIDFRAC r).val
      = (swmm_setLidCParam validate (swmm_setLidCParam validate pr i SM_STOR SM_VOIDFRAC r).val.2 i
        SM_STOR SM_THICKNESS a).val
    ∧ (swmm_setLidCParam validate (swmm_setLidCParam validate pr i SM_PAVE SM_THICKNESS a).val.2 i
        SM_PAVE SM_VOIDFRAC r).val
      = (swmm_setLidCParam validate (swmm_setLidCParam validate pr i SM_PAVE SM_VOIDFRAC r).val.2 i
        SM_PAVE SM_THICKNESS a).val
    ∧ (pr.IsOpenFlag = true → 0 ≤ i ∧ i < pr.Nobjects_LID →
        (swmm_setLidCParam validate (swmm_setLidCParam validate pr i SM_STOR SM_VOIDFRAC r).val.2
            i SM_STOR SM_THICKNESS a).val.1 = ERR_NONE
        ∧ ((swmm_setLidCParam validate
            (swmm_setLidCParam validate pr i SM_STOR SM_VOIDFRAC r).val.2 i SM_STOR SM_THICKNESS
              a).val.2.LidProcs i).storage.thickness = a / pr.UCF RAINDEPTH
        ∧ ((swmm_setLidCParam validate
            (swmm_setLidCParam validate pr i SM_STOR SM_VOIDFRAC r).val.2 i SM_STOR SM_THICKNESS
              a).val.2.LidProcs i).storage.voidFrac = r / (r + 1)
        ∧ (swmm_setLidCParam validate (swmm_setLidCParam validate pr i SM_PAVE SM_VOIDFRAC r).val.2
            i SM_PAVE SM_THICKNESS a).val.1 = ERR_NONE
        ∧ ((swmm_setLidCParam validate
            (swmm_setLidCParam validate pr i SM_PAVE SM_VOIDFRAC r).val.2 i SM_PAVE SM_THICKNESS
              a).val.2.LidProcs i).pavement.thickness = a / pr.UCF RAINDEPTH
        ∧ ((swmm_setLidCParam validate
            (swmm_setLidCParam validate pr i SM_PAVE SM_VOIDFRAC r).val.2 i SM_PAVE SM_THICKNESS
              a).val.2.LidProcs i).pavement.voidFrac = r / (r + 1)) := by
  by_cases hopen : pr.IsOpenFlag = true
  · by_cases hi : i < 0 ∨ i ≥ pr.Nobjects_LID
    · refine ⟨?_, ?_, ?_⟩
      · simp [swmm_setLidCParam, hopen, hi, Traced.pure_eq, Traced.bind_eq]
      · simp [swmm_setLidCParam, hopen, hi, Traced.pure_eq, Traced.bind_eq]
      · intro _ hin
        exact absurd hi (index_in_range hin)
    · refine ⟨?_, ?_, ?_⟩
      · by_cases ht : (pr.LidProcs i).storage.thickness > 0 <;>
          by_cases hv : (pr.LidProcs i).storage.voidFrac > 0 <;>
          simp [swmm_setLidCParam, hopen, hi, ht, hv, hval, Traced.pure_eq, Traced.bind_eq, fdiv]
        ring_nf
      · by_cases ht : (pr.LidProcs i).pavement.thickness > 0 <;>
          by_cases hv : (pr.LidProcs i).pavement.voidFrac > 0 <;>
          simp [swmm_setLidCParam, hopen, hi, ht, hv, hval, Traced.pure_eq, Traced.bind_eq, fdiv]
        ring_nf
      · intro _ _
        refine ⟨?_, ?_, ?_, ?_, ?_, ?_⟩
        · by_cases ht : (pr.LidProcs i).storage.thickness > 0 <;>
            by_cases hv : (pr.LidProcs i).storage.voidFrac > 0 <;>
            simp [swmm_setLidCParam, hopen, hi, ht, hv, hval, Traced.pure_eq, Traced.bind_eq, fdiv]
        · by_cases ht : (pr.LidProcs i).storage.thickness > 0 <;>
            by_cases hv : (pr.LidProcs i).storage.voidFrac > 0 <;>
            simp [swmm_setLidCParam, hopen, hi, ht, hv, hval, Traced.pure_eq, Traced.bind_eq, fdiv]
        · by_cases ht : (pr.LidProcs i).storage.thickness > 0 <;>
            by_cases hv : (pr.LidProcs i).storage.voidFrac > 0 <;>
            simp [swmm_setLidCParam, hopen, hi, ht, hv, hval, Traced.pure_eq, Traced.bind_eq, fdiv]
        · by_cases ht : (pr.LidProcs i).pavement.thickness > 0 <;>
            by_cases hv : (pr.LidProcs i).pavement.voidFrac > 0 <;>
            simp [swmm_setLidCParam, hopen, hi, ht, hv, hval, Traced.pure_eq, Traced.bind_eq, fdiv]
        · by_cases ht : (pr.LidProcs i).pavement.thickness > 0 <;>
            by_cases hv : (pr.LidProcs i).pavement.voidFrac > 0 <;>
            simp [swmm_setLidCParam, hopen, hi, ht, hv, hval, Traced.pure_eq, Traced.bind_eq, fdiv]
        · by_cases ht : (pr.LidProcs i).pavement.thickness > 0 <;>
            by_cases hv : (pr.LidProcs i).pavement.voidFrac > 0 <;>
            simp [swmm_setLidCParam, hopen, hi, ht, hv, hval, Traced.pure_eq, Traced.bind_eq, fdiv]
  · simp at hopen
    refine ⟨?_, ?_, ?_⟩
    · simp [swmm_setLidCParam, hopen, Traced.pure_eq, Traced.bind_eq]
    · simp [swmm_setLidCParam, hopen, Traced.pure_eq, Traced.bind_eq]
    · intro h
      rw [hopen] at h
      exact absurd h (by decide)

/-- C37 at the sample control (Storage thickness 1/2, void fraction 2/5,
canonical clog factor 3): thickness 2 and void ratio 1 written in either order
leave thickness 2, void fraction 1/2 and canonical clog factor 15. -/
theorem thickness_voidFrac_edits_commute_witness :
    (swmm_setLidCParam keepProject
        (swmm_setLidCParam keepProject sampleProject 0 SM_STOR SM_THICKNESS 2).val.2 0
        SM_STOR SM_VOIDFRAC 1).val
      = (swmm_setLidCParam keepProject
        (swmm_setLidCParam keepProject sampleProject 0 SM_STOR SM_VOIDFRAC 1).val.2 0
        SM_STOR SM_THICKNESS 2).val
    ∧ ((swmm_setLidCParam keepProject
        (swmm_setLidCParam keepProject sampleProject 0 SM_STOR SM_THICKNESS 2).val.2 0
        SM_STOR SM_VOIDFRAC 1).val.2.LidProcs 0).storage = ⟨2, 1 / 2, 0, 15⟩ := by
  refine ⟨(thickness_voidFrac_edits_commute keepProject sampleProject 0 2 1
    (fun _ _ => rfl)).1, ?_⟩
  norm_num [swmm_setLidCParam, keepProject, sampleProject, projectWith, Traced.pure_eq,
    Traced.bind_eq, fdiv]

/-! ## Subcatchment outlet and the frame of a node write -/

/-- C38. Subcatchment outlet resolution: on an open model with a valid
subcatchment index, `swmm_getSubcatchOutConnection` returns success with
(SUBCATCH, outSubcatch) if outSubcatch >= 0, whatever outNode is; else with
(NODE, outNode) if outNode >= 0; else with (SUBCATCH, index) if outNode = -1
and outSubcatch = -1; and with (-1, -1) in every remaining case. On a model
that is not open, and on an open model with an index out of range, both
outputs are -1. -/
theorem subcatch_out_connection (SUBCATCH NODE : Int) (m : Model) (index a b : Int) :
    (m.IsOpenFlag = true → 0 ≤ index ∧ index < m.Nobjects_SUBCATCH →
      ((m.Subcatch index).outSubcatch ≥ 0 →
          swmm_getSubcatchOutConnection SUBCATCH NODE m index a b
            = (ERR_NONE, SUBCATCH, (m.Subcatch index).outSubcatch))
      ∧ ((m.Subcatch index).outSubcatch < 0 → (m.Subcatch index).outNode ≥ 0 →
          swmm_getSubcatchOutConnection SUBCATCH NODE m index a b
            = (ERR_NONE, NODE, (m.Subcatch index).outNode))
      ∧ ((m.Subcatch index).outSubcatch = -1 → (m.Subcatch index).outNode = -1 →
          swmm_getSubcatchOutConnection SUBCATCH NODE m index a b = (ERR_NONE, SUBCATCH, index))
      ∧ ((m.Subcatch index).outSubcatch < 0 → (m.Subcatch index).outNode < 0 →
          ¬ ((m.Subcatch index).outNode = -1 ∧ (m.Subcatch index).outSubcatch = -1) →
          swmm_getSubcatchOutConnection SUBCATCH NODE m index a b = (ERR_NONE, -1, -1)))
    ∧ (m.IsOpenFlag = false →
        swmm_getSubcatchOutConnection SUBCATCH NODE m index a b = (ERR_API_INPUTNOTOPEN, -1, -1))
    ∧ (m.IsOpenFlag = true → (index < 0 ∨ index ≥ m.Nobjects_SUBCATCH) →
        swmm_getSubcatchOutConnection SUBCATCH NODE m index a b
          = (ERR_API_OBJECT_INDEX, -1, -1)) := by
  refine ⟨?_, ?_, ?_⟩
  · intro hopen hi
    have hi' := index_in_range hi
    refine ⟨?_, ?_, ?_, ?_⟩
    · intro hs
      have h1 : ¬ (m.Subcatch index).outSubcatch = -1 := by omega
      by_cases hn : (m.Subcatch index).outNode ≥ 0 <;>
        simp [swmm_getSubcatchOutConnection, Id.run, hopen, hi', hs, h1, hn]
    · intro hs hn
      have h1 : ¬ (m.Subcatch index).outNode = -1 := by omega
      have h2 : ¬ (m.Subcatch index).outSubcatch ≥ 0 := by omega
      simp [swmm_getSubcatchOutConnection, Id.run, hopen, hi', hn, h1, h2]
    · intro hs hn
      simp [swmm_getSubcatchOutConnection, Id.run, hopen, hi', hn, hs]
    · intro hs hn hnot
      have h1 : ¬ (m.Subcatch index).outNode ≥ 0 := by omega
      have h2 : ¬ (m.Subcatch index).outSubcatch ≥ 0 := by omega
      simp [swmm_getSubcatchOutConnection, Id.run, hopen, hi', h1, h2, hnot]
  · intro hclosed
    simp [swmm_getSubcatchOutConnection, Id.run, hclosed]
  · intro hopen hi
    simp [swmm_getSubcatchOutConnection, Id.run, hopen, hi]

/-- C38 with SUBCATCH = 1 and NODE = 2: subcatchment 0 of the sample model
drains to itself; with outNode = 3 and outSubcatch = 2 in its record the
outlet is subcatchment 2; with outNode = 3 alone it is node 3. -/
theorem subcatch_out_connection_witness :
    swmm_getSubcatchOutConnection 1 2 sampleModel 0 7 7 = (ERR_NONE, 1, 0)
    ∧ swmm_getSubcatchOutConnection 1 2
        { sampleModel with Subcatch := fun _ => { outNode := 3, outSubcatch := 2 } } 0 7 7
        = (ERR_NONE, 1, 2)
    ∧ swmm_getSubcatchOutConnection 1 2
        { sampleModel with Subcatch := fun _ => { outNode := 3 } } 0 7 7 = (ERR_NONE, 2, 3) :=
  ⟨((subcatch_out_connection 1 2 sampleModel 0 7 7).1 rfl
      (by norm_num [sampleModel])).2.2.1 rfl rfl,
   ((subcatch_out_connection 1 2
      { sampleModel with Subcatch := fun _ => { outNode := 3, outSubcatch := 2 } } 0 7 7).1 rfl
      (by norm_num [sampleModel])).1 (by decide),
   ((subcatch_out_connection 1 2
      { sampleModel with Subcatch := fun _ => { outNode := 3 } } 0 7 7).1 rfl
      (by norm_num [sampleModel])).2.1 (by decide) (by decide)⟩

/-- C39. Frame of a node write: for every model, index, property and value,
a call of `swmm_setNodeParam` that returns an error leaves the model as it was;
a call that returns success leaves the model as it was except for the record
`Node[index]`, which differs from the old one in the one field that the
property selects (invertElev, fullDepth, surDepth, pondedArea or initDepth),
holding the value divided by UCF(LENGTH), for the ponded area by
UCF(LENGTH) * UCF(LENGTH): no other node, no link, subcatchment, gage or LID
record, and neither lifecycle flag is changed. -/
theorem node_write_frame (m : Model) (index : Int) (Param : SM_NodeProperty) (value : ℚ) :
    ((swmm_setNodeParam m index Param value).val.1 ≠ ERR_NONE →
        (swmm_setNodeParam m index Param value).val.2 = m)
    ∧ ((swmm_setNodeParam m index Param value).val.1 = ERR_NONE →
        ∃ node : TNode,
          (swmm_setNodeParam m index Param value).val.2
            = { m with Node := Function.update m.Node index node }
          ∧ (Param = SM_INVERTEL →
              node = { m.Node index with invertElev := value / m.UCF LENGTH })
          ∧ (Param = SM_FULLDEPTH →
              node = { m.Node index with fullDepth := value / m.UCF LENGTH })
          ∧ (Param = SM_SURCHDEPTH →
              node = { m.Node index with surDepth := value / m.UCF LENGTH })
          ∧ (Param = SM_PONDAREA →
              node = { m.Node index with pondedArea := value / (m.UCF LENGTH * m.UCF LENGTH) })
          ∧ (Param = SM_INITDEPTH →
              node = { m.Node index with initDepth := value / m.UCF LENGTH })
          ∧ Param ≠ SM_NodeProperty.unlisted) := by
  by_cases hopen : m.IsOpenFlag = true
  · by_cases hstart : m.IsStartedFlag = true
    · simp [swmm_setNodeParam, hopen, hstart, Traced.pure_eq, Traced.bind_eq]
    · simp at hstart
      by_cases hi : index < 0 ∨ index ≥ m.Nobjects_NODE
      · simp [swmm_setNodeParam, hopen, hstart, hi, Traced.pure_eq, Traced.bind_eq]
      · cases Param
        · refine ⟨?_, fun _ => ⟨{ m.Node index with invertElev := value / m.UCF LENGTH }, ?_⟩⟩ <;>
            simp [swmm_setNodeParam, hopen, hstart, hi, Traced.pure_eq, Traced.bind_eq, fdiv]
        · refine ⟨?_, fun _ => ⟨{ m.Node index with fullDepth := value / m.UCF LENGTH }, ?_⟩⟩ <;>
            simp [swmm_setNodeParam, hopen, hstart, hi, Traced.pure_eq, Traced.bind_eq, fdiv]
        · refine ⟨?_, fun _ => ⟨{ m.Node index with surDepth := value / m.UCF LENGTH }, ?_⟩⟩ <;>
            simp [swmm_setNodeParam, hopen, hstart, hi, Traced.pure_eq, Traced.bind_eq, fdiv]
        · refine ⟨?_, fun _ =>
            ⟨{ m.Node index with pondedArea := value / (m.UCF LENGTH * m.UCF LENGTH) }, ?_⟩⟩ <;>
            simp [swmm_setNodeParam, hopen, hstart, hi, Traced.pure_eq, Traced.bind_eq, fdiv]
        · refine ⟨?_, fun _ => ⟨{ m.Node index with initDepth := value / m.UCF LENGTH }, ?_⟩⟩ <;>
            simp [swmm_setNodeParam, hopen, hstart, hi, Traced.pure_eq, Traced.bind_eq, fdiv]
        · simp [swmm_setNodeParam, hopen, hstart, hi, Traced.pure_eq, Traced.bind_eq]
  · simp at hopen
    simp [swmm_setNodeParam, hopen, Traced.pure_eq, Traced.bind_eq]

/-- C39 at the sample model (UCF(LENGTH) = 3): the write of the full depth 12
to node 1 succeeds and leaves the model with that one field changed to 4; the
same write on the started model returns an error and leaves the model as it
was. -/
theorem node_write_frame_witness :
    (swmm_setNodeParam sampleModel 1 SM_FULLDEPTH 12).val.2
      = { sampleModel with
          Node := Function.update sampleModel.Node 1 { sampleModel.Node 1 with fullDepth := 4 } }
    ∧ (swmm_setNodeParam startedModel 1 SM_FULLDEPTH 12).val.2 = startedModel := by
  have hok : (swmm_setNodeParam sampleModel 1 SM_FULLDEPTH 12).val.1 = ERR_NONE := by
    simp [swmm_setNodeParam, sampleModel, sampleProject, projectWith, Traced.pure_eq,
      Traced.bind_eq, fdiv]
  have herr : (swmm_setNodeParam startedModel 1 SM_FULLDEPTH 12).val.1 ≠ ERR_NONE := by
    simp [swmm_setNodeParam, startedModel, sampleModel, sampleProject, projectWith,
      Traced.pure_eq, Traced.bind_eq]
  refine ⟨?_, (node_write_frame startedModel 1 SM_FULLDEPTH 12).1 herr⟩
  obtain ⟨node, hm, _, hfull, _⟩ := (node_write_frame sampleModel 1 SM_FULLDEPTH 12).2 hok
  rw [hm, hfull rfl]
  norm_num [sampleModel]

/-! ## Binary64 arithmetic: evaluation and agreement with the exact embedding -/

/-- With exact arithmetic (`rnd = id`) the rounded embedding of
`swmm_getLidCParam` is the exact one. -/
theorem getLidCParam_fp_exact (pr : Project) (i : Int) (layer : SM_LidLayer)
    (param : SM_LidLayerProperty) (v : ℚ) :
    swmm_getLidCParam_fp id pr i layer param v = (swmm_getLidCParam pr i layer param v).val := by
  by_cases hopen : pr.IsOpenFlag = true
  · by_cases hi : i < 0 ∨ i ≥ pr.Nobjects_LID
    · simp [swmm_getLidCParam_fp, swmm_getLidCParam, hopen, hi, Traced.pure_eq]
    · cases layer <;> cases param <;>
        simp [swmm_getLidCParam_fp, swmm_getLidCParam, hopen, hi, Traced.pure_eq,
          Traced.bind_eq, fdiv] <;>
        split_ifs <;> rfl
  · simp at hopen
    simp [swmm_getLidCParam_fp, swmm_getLidCParam, hopen, Traced.pure_eq]

set_option maxHeartbeats 4000000 in
/-- With exact arithmetic (`rnd = id`) the rounded embedding of
`swmm_setLidCParam` is the exact one. -/
theorem setLidCParam_fp_exact (validate : Int → Project → Project) (pr : Project) (i : Int)
    (layer : SM_LidLayer) (param : SM_LidLayerProperty) (v : ℚ) :
    swmm_setLidCParam_fp id validate pr i layer param v
      = (swmm_setLidCParam validate pr i layer param v).val := by
  by_cases hopen : pr.IsOpenFlag = true
  · by_cases hi : i < 0 ∨ i ≥ pr.Nobjects_LID
    · simp [swmm_setLidCParam_fp, swmm_setLidCParam, hopen, hi, Traced.pure_eq, Traced.bind_eq]
    · cases layer <;> cases param <;>
        simp [swmm_setLidCParam_fp, setLidCParam_layers_fp, swmm_setLidCParam, hopen, hi,
          Traced.pure_eq, Traced.bind_eq, fdiv] <;>
        split_ifs <;> simp_all [Traced.pure_eq, Traced.bind_eq]
  · simp at hopen
    simp [swmm_setLidCParam_fp, swmm_setLidCParam, hopen, Traced.pure_eq, Traced.bind_eq]

/-- With exact arithmetic the rounded embeddings of the node, subcatchment and
LID unit parameter accessors are the exact ones. -/
theorem param_accessors_fp_exact (subcatch_validate lid_validateLidGroup : Int → Model → Model)
    (lidUnitError : Int → Int → ErrorCode) (m : Model) (i k : Int) (np : SM_NodeProperty)
    (sp : SM_SubcProperty) (up : SM_LidUProperty) (v : ℚ) :
    swmm_getNodeParam_fp id m i np v = swmm_getNodeParam m i np v
    ∧ swmm_setNodeParam_fp id m i np v = (swmm_setNodeParam m i np v).val
    ∧ swmm_getSubcatchParam_fp id m i sp v = swmm_getSubcatchParam m i sp v
    ∧ swmm_setSubcatchParam_fp id subcatch_validate m i sp v
        = (swmm_setSubcatchParam subcatch_validate m i sp v).val
    ∧ swmm_getLidUParam_fp id lidUnitError m i k up v = swmm_getLidUParam lidUnitError m i k up v
    ∧ swmm_setLidUParam_fp id lidUnitError lid_validateLidGroup m i k up v
        = (swmm_setLidUParam lidUnitError lid_validateLidGroup m i k up v).val := by
  refine ⟨?_, ?_, ?_, ?_, ?_, ?_⟩
  · cases np <;> rfl
  · by_cases hopen : m.IsOpenFlag = true
    · by_cases hs : m.IsStartedFlag = true
      · simp [swmm_setNodeParam_fp, swmm_setNodeParam, Id.run, hopen, hs, Traced.pure_eq,
          Traced.bind_eq]
      · by_cases hi : i < 0 ∨ i ≥ m.Nobjects_NODE
        · simp [swmm_setNodeParam_fp, swmm_setNodeParam, Id.run, hopen, hs, hi, Traced.pure_eq,
            Traced.bind_eq]
        · cases np <;>
            simp [swmm_setNodeParam_fp, swmm_setNodeParam, Id.run, hopen, hs, hi,
              Traced.pure_eq, Traced.bind_eq, fdiv]
    · simp at hopen
      simp [swmm_setNodeParam_fp, swmm_setNodeParam, Id.run, hopen, Traced.pure_eq,
        Traced.bind_eq]
  · cases sp <;> rfl
  · by_cases hopen : m.IsOpenFlag = true
    · by_cases hs : m.IsStartedFlag = true
      · simp [swmm_setSubcatchParam_fp, swmm_setSubcatchParam, Id.run, hopen, hs,
          Traced.pure_eq, Traced.bind_eq]
      · by_cases hi : i < 0 ∨ i ≥ m.Nobjects_SUBCATCH
        · simp [swmm_setSubcatchParam_fp, swmm_setSubcatchParam, Id.run, hopen, hs, hi,
            Traced.pure_eq, Traced.bind_eq]
        · cases sp <;>
            simp [swmm_setSubcatchParam_fp, swmm_setSubcatchParam, Id.run, hopen, hs, hi,
              Traced.pure_eq, Traced.bind_eq, fdiv]
    · simp at hopen
      simp [swmm_setSubcatchParam_fp, swmm_setSubcatchParam, Id.run, hopen, Traced.pure_eq,
        Traced.bind_eq]
  · cases up <;> rfl
  · by_cases hopen : m.IsOpenFlag = true
    · by_cases hi : i < 0 ∨ i ≥ m.Nobjects_SUBCATCH
      · simp [swmm_setLidUParam_fp, swmm_setLidUParam, Id.run, hopen, hi, Traced.pure_eq,
          Traced.bind_eq]
      · cases hu : m.LidUnits i k <;> cases up <;>
          simp [swmm_setLidUParam_fp, swmm_setLidUParam, lid_getLidUnit, SQR_fp, SQR, Id.run,
            hopen, hi, hu, Traced.pure_eq, Traced.bind_eq, fdiv]
    · simp at hopen
      simp [swmm_setLidUParam_fp, swmm_setLidUParam, Id.run, hopen, Traced.pure_eq,
        Traced.bind_eq]

/-! ## Round trips in binary64 arithmetic -/

end ToolkitAPI
